import Mathlib

/-!
# Analytics aggregation pipeline of invoice-swift-backend

A shallow embedding of `src/models/Analytics.js` and
`src/services/analyticsService.js`, of the totals hook of
`src/models/Invoice.js` and of the stream handler of `src/server.js`.

Modelling conventions
* JavaScript `Number`s that hold money or ratios are exact rationals (`ℚ`), so
  a sum is the one the code computes when no addition rounds; counters are
  natural numbers.
* A `Date` is the number of milliseconds since the Unix epoch; the local time
  zone of the server is a parameter (`Zone`), and `getDateRange` reads the
  clock twice.
* A `userId` is an `ObjectId` or the string that spells one (`UserId`); queries
  cast it, aggregation pipelines do not.
* A Mongo collection is a list of documents in natural order.  `$match` is
  `List.filter`, `$unwind` is `List.flatMap`-style flattening, `$group` keeps
  one entry per distinct key, `$sort` is a stable sort, `$limit` is `List.take`.
* A failing database call is an explicit fault flag; `async` functions return
  `Except Err _` together with the new store and the events that were emitted.
* A connection of the analytics stream is a record of the handler's variables
  and of its registrations on `analyticsEvents`, stepped by the two things that
  can happen while the handler is suspended.
-/

namespace InvoiceSwift

/-! ## Source collections -/

/-- The `mongoose.Schema.Types.ObjectId` values, opaque and comparable. -/
abbrev ObjectId := Nat

/-- Milliseconds since the Unix epoch. -/
abbrev Date := Int

/-- The `userId` argument of the service functions: an `ObjectId`, or the
string of 24 hex digits that spells one.  Every route of `server.js` passes
`req.user.userId`, the string that the verified JWT payload carries for
`user._id`.  A string is represented by the `ObjectId` it spells; strings that
spell none (for which the cast of mongoose throws) are left out. -/
inductive UserId where
  | objectId (id : ObjectId)
  | string (hex : ObjectId)
  deriving DecidableEq, Repr

/-- The cast that mongoose applies to a `userId` in the filter of a query
(`findOne`, `countDocuments`, `deleteMany`) and in a document path of type
`ObjectId`. -/
def UserId.cast : UserId → ObjectId
  | .objectId id => id
  | .string hex => hex

/-- The test `typeof userId === 'string'`. -/
def UserId.isString : UserId → Bool
  | .objectId _ => false
  | .string _ => true

/-- The comparison of a stored `userId` with the value handed to an
aggregation stage `$match: { userId }`.  An aggregation pipeline is not cast:
a string equals no stored `ObjectId`. -/
def UserId.matches (userId : UserId) (stored : ObjectId) : Bool :=
  match userId with
  | .objectId id => decide (stored = id)
  | .string _ => false

/-- A numeral denotes the `ObjectId` of that number. -/
instance (n : Nat) : OfNat UserId n := ⟨.objectId n⟩

/-- The expression `userId?.toString?.() || userId`: the hex digits, for an
`ObjectId` as for the string that spells it. -/
instance : ToString UserId := ⟨fun userId => toString userId.cast⟩

/-- One line of `Invoice.items` (`src/models/Invoice.js`). -/
structure InvoiceItem where
  description : String
  quantity : ℚ
  total : ℚ
  deriving DecidableEq, Repr

/-- The fields of an invoice that the analytics pipeline reads, and
`customerEmail`, one of the customer fields that no pipeline reads. -/
structure Invoice where
  userId : ObjectId
  createdAt : Date
  totalAmount : ℚ
  items : List InvoiceItem
  customerName : String
  customerEmail : String := ""
  deriving DecidableEq, Repr

/-- The fields of a payment that the analytics pipeline reads. -/
structure Payment where
  userId : ObjectId
  paymentDate : Date
  amount : ℚ
  paymentMethod : String
  paymentType : String
  deriving DecidableEq, Repr

/-- The fields of an expense that the analytics pipeline reads. -/
structure Expense where
  userId : ObjectId
  createdAt : Date
  amount : ℚ
  deriving DecidableEq, Repr

/-- The fields of a purchase that the analytics pipeline reads. -/
structure Purchase where
  userId : ObjectId
  createdAt : Date
  totalAmount : ℚ
  deriving DecidableEq, Repr

/-- A customer row; only its owner is read (`countDocuments({ userId })`). -/
structure Customer where
  userId : ObjectId
  deriving DecidableEq, Repr

/-- An item row; only its owner is read (`countDocuments({ userId })`). -/
structure Item where
  userId : ObjectId
  deriving DecidableEq, Repr

/-- The source collections read by the extractors. -/
structure Db where
  invoices : List Invoice
  payments : List Payment
  expenses : List Expense
  purchases : List Purchase
  customers : List Customer
  items : List Item
  deriving Repr

/-! ## The `Analytics` document (`src/models/Analytics.js`) -/

/-- An entry of `paymentMethods`. -/
structure PaymentMethodEntry where
  method : String
  total : ℚ
  count : Nat
  percentage : ℚ
  deriving DecidableEq, Repr

/-- An entry of `salesByDate`. -/
structure SalesByDateEntry where
  date : String
  sales : ℚ
  orders : Nat
  deriving DecidableEq, Repr

/-- An entry of `topProducts`. -/
structure TopProduct where
  productName : String
  totalQuantity : ℚ
  totalAmount : ℚ
  orderCount : Nat
  rank : Nat
  deriving DecidableEq, Repr

/-- An entry of `topCustomers`. -/
structure TopCustomer where
  customerName : String
  totalAmount : ℚ
  invoiceCount : Nat
  avgOrderValue : ℚ
  rank : Nat
  deriving DecidableEq, Repr

/-- One side of `paymentFlow`. -/
structure FlowSide where
  total : ℚ
  count : Nat
  deriving DecidableEq, Repr

/-- The `paymentFlow` sub-document. -/
structure PaymentFlow where
  moneyIn : FlowSide
  moneyOut : FlowSide
  deriving DecidableEq, Repr

/-- An entry of `dailyPayments`. -/
structure DailyPayment where
  date : String
  received : ℚ
  paid : ℚ
  deriving DecidableEq, Repr

/-- The `kpis` sub-document. -/
structure Kpis where
  totalCustomers : Nat
  totalProducts : Nat
  totalInvoices : Nat
  avgOrderValue : ℚ
  conversionRate : ℚ
  deriving DecidableEq, Repr

/-- The `dateRange` sub-document; the two dates have no schema default. -/
structure DateRange where
  startDate : Option Date
  endDate : Option Date
  period : String
  deriving DecidableEq, Repr

/-- A document of the `Analytics` collection.  The `createdAt` / `updatedAt`
stamps of `timestamps: true` are not part of the snapshot content and are
left out. -/
structure Analytics where
  _id : Nat
  userId : ObjectId
  totalSales : ℚ
  totalPurchases : ℚ
  totalExpenses : ℚ
  netProfit : ℚ
  paymentMethods : List PaymentMethodEntry
  salesByDate : List SalesByDateEntry
  topProducts : List TopProduct
  topCustomers : List TopCustomer
  paymentFlow : PaymentFlow
  dailyPayments : List DailyPayment
  kpis : Kpis
  lastUpdated : Date
  dateRange : DateRange
  deriving DecidableEq, Repr

/-- The value `{ moneyIn: { total: 0, count: 0 }, moneyOut: { total: 0, count: 0 } }`. -/
def zeroPaymentFlow : PaymentFlow :=
  { moneyIn := { total := 0, count := 0 }, moneyOut := { total := 0, count := 0 } }

/-- The all-zero `kpis` record. -/
def zeroKpis : Kpis :=
  { totalCustomers := 0, totalProducts := 0, totalInvoices := 0,
    avgOrderValue := 0, conversionRate := 0 }

/-- The method `analyticsSchema.methods.calculateNetProfit` (Analytics.js 205-208). -/
def Analytics.calculateNetProfit (a : Analytics) : Analytics :=
  { a with netProfit := a.totalSales - a.totalPurchases - a.totalExpenses }

/-- The method `analyticsSchema.methods.calculatePaymentPercentages`
(Analytics.js 211-219): the `reduce` that sums `total`, then the `forEach`
that overwrites `percentage`. -/
def Analytics.calculatePaymentPercentages (a : Analytics) : Analytics :=
  let totalPayments := a.paymentMethods.foldl (fun sum method => sum + method.total) 0
  { a with paymentMethods := a.paymentMethods.map fun method =>
      { method with
        percentage := if totalPayments > 0 then (method.total / totalPayments) * 100 else 0 } }

/-! ## Calendar arithmetic of `Date` -/

/-- Milliseconds in a day. -/
def msPerDay : Int := 86400000

/-- The day number of a time value. -/
def dayOf (t : Date) : Int := t / msPerDay

/-- The milliseconds elapsed within the day of a time value. -/
def timeWithinDay (t : Date) : Int := t % msPerDay

/-- The civil date `(year, month, day)` of a day number, month in `1..12`. -/
def civilFromDays (z0 : Int) : Int × Int × Int :=
  let z := z0 + 719468
  let era := z / 146097
  let doe := z - era * 146097
  let yoe := (doe - doe / 1460 + doe / 36524 - doe / 146096) / 365
  let y := yoe + era * 400
  let doy := doe - (365 * yoe + yoe / 4 - yoe / 100)
  let mp := (5 * doy + 2) / 153
  let d := doy - (153 * mp + 2) / 5 + 1
  let m := if mp < 10 then mp + 3 else mp - 9
  (if m ≤ 2 then y + 1 else y, m, d)

/-- The day number of the civil date `(y, m, d)`; `d` may lie outside the
month, as in the `MakeDay` operation of `Date`. -/
def daysFromCivil (y0 m d : Int) : Int :=
  let y := if m ≤ 2 then y0 - 1 else y0
  let era := y / 400
  let yoe := y - era * 400
  let doy := (153 * (if m > 2 then m - 3 else m + 9) + 2) / 5 + d - 1
  let doe := yoe * 365 + yoe / 4 - yoe / 100 + doy
  era * 146097 + doe - 719468

/-- The operation `YearFromTime` of a time value. -/
def yearFromTime (t : Date) : Int := (civilFromDays (dayOf t)).1

/-- The operation `MonthFromTime` of a time value, counted `1..12`. -/
def monthFromTime (t : Date) : Int := (civilFromDays (dayOf t)).2.1

/-- The operation `DateFromTime` of a time value: the day of the month. -/
def dateFromTime (t : Date) : Int := (civilFromDays (dayOf t)).2.2

/-- The operation `MakeDate(MakeDay(year, month, date), time)`; `date` may lie
outside the month. -/
def makeDate (year month date time : Int) : Date :=
  daysFromCivil year month date * msPerDay + time

/-- The local time zone of the server, as `Date` reads it: the offset of local
time from UTC in milliseconds, `LocalTZA(t, true)` at a UTC time value and
`LocalTZA(t, false)` at a local time value. -/
structure Zone where
  atUtc : Date → Int
  atLocal : Date → Int

/-- The zone of a server that runs on UTC. -/
def utc : Zone := { atUtc := fun _ => 0, atLocal := fun _ => 0 }

/-- The operation `LocalTime(t)`. -/
def localTime (zone : Zone) (t : Date) : Date := t + zone.atUtc t

/-- The operation `UTC(t)` on a local time value. -/
def utcOfLocal (zone : Zone) (t : Date) : Date := t - zone.atLocal t

/-- The method `Date.prototype.getFullYear`: the year in local time. -/
def getFullYear (zone : Zone) (t : Date) : Int := yearFromTime (localTime zone t)

/-- The method `Date.prototype.getDate`: the day of the month in local time. -/
def getDate (zone : Zone) (t : Date) : Int := dateFromTime (localTime zone t)

/-- The method `Date.prototype.setDate`: in local time, same year, month and
time of day, day of the month replaced (and normalised). -/
def setDate (zone : Zone) (t : Date) (dt : Int) : Date :=
  let lt := localTime zone t
  utcOfLocal zone (makeDate (yearFromTime lt) (monthFromTime lt) dt (timeWithinDay lt))

/-- The method `Date.prototype.setFullYear` with one argument: in local time,
same month, day of the month and time of day, year replaced (and the day
normalised). -/
def setFullYear (zone : Zone) (t : Date) (y : Int) : Date :=
  let lt := localTime zone t
  utcOfLocal zone (makeDate y (monthFromTime lt) (dateFromTime lt) (timeWithinDay lt))

/-- Left-pads a decimal numeral with zeros to `w` digits. -/
def pad (w : Nat) (n : Int) : String :=
  let s := toString n.toNat
  String.mk (List.replicate (w - s.length) '0') ++ s

/-- The aggregation operator `$dateToString` with format `'%Y-%m-%d'`. -/
def dateToString (t : Date) : String :=
  let c := civilFromDays (dayOf t)
  pad 4 c.1 ++ "-" ++ pad 2 c.2.1 ++ "-" ++ pad 2 c.2.2

/-- The function `AnalyticsService.getDateRange` (analyticsService.js 135-157)
on a server in the zone `zone`, when the `new Date()` of line 136 reads
`endNow` and that of line 137 reads `startNow`; the result is
`(startDate, endDate)`. -/
def getDateRange (zone : Zone) (endNow startNow : Date) (period : String) : Date × Date :=
  let endDate := endNow
  let startDate := startNow
  let startDate :=
    if period = "7days" then setDate zone startDate (getDate zone endDate - 7)
    else if period = "30days" then setDate zone startDate (getDate zone endDate - 30)
    else if period = "90days" then setDate zone startDate (getDate zone endDate - 90)
    else if period = "1year" then setFullYear zone startDate (getFullYear zone endDate - 1)
    else setDate zone startDate (getDate zone endDate - 30)
  (startDate, endDate)

/-! ## Aggregation pipeline stages -/

/-- The window test `{ $gte: startDate, $lte: endDate }`. -/
def inWindow (dateRange : Date × Date) (t : Date) : Bool :=
  decide (dateRange.1 ≤ t) && decide (t ≤ dateRange.2)

/-- The stage `$match: { userId, createdAt: { $gte, $lte } }` on invoices. -/
def matchInvoices (db : Db) (userId : UserId) (dateRange : Date × Date) : List Invoice :=
  db.invoices.filter fun i => userId.matches i.userId && inWindow dateRange i.createdAt

/-- The stage `$match: { userId, paymentDate: { $gte, $lte } }` on payments. -/
def matchPayments (db : Db) (userId : UserId) (dateRange : Date × Date) : List Payment :=
  db.payments.filter fun p => userId.matches p.userId && inWindow dateRange p.paymentDate

/-- The distinct values of a `$group` key, one per group.  The order in which
`$group` emits its groups is unspecified; the statements below do not depend
on the order chosen here. -/
def groupKeys {α κ : Type} [DecidableEq κ] (key : α → κ) (docs : List α) : List κ :=
  (docs.map key).dedup

/-- The documents of the group with key `k`. -/
def groupOf {α κ : Type} [DecidableEq κ] (key : α → κ) (docs : List α) (k : κ) : List α :=
  docs.filter fun d => decide (key d = k)

/-- The accumulator `$avg` over a non-empty group. -/
def avg (xs : List ℚ) : ℚ := xs.sum / xs.length

/-- A row produced by `$group: { _id, total: { $sum }, count: { $sum: 1 } }`. -/
structure TotalCountRow where
  _id : String
  total : ℚ
  count : Nat
  deriving DecidableEq, Repr

/-- A row of the sales-trend aggregation. -/
structure SalesRow where
  _id : String
  sales : ℚ
  orders : Nat
  deriving DecidableEq, Repr

/-- A row of the top-products aggregation. -/
structure ProductRow where
  _id : String
  totalQuantity : ℚ
  totalAmount : ℚ
  orderCount : Nat
  deriving DecidableEq, Repr

/-- A row of the top-customers aggregation. -/
structure CustomerRow where
  _id : String
  totalAmount : ℚ
  invoiceCount : Nat
  avgOrderValue : ℚ
  deriving DecidableEq, Repr

/-- A row of the daily-payments aggregation. -/
structure DailyRow where
  _id : String
  received : ℚ
  paid : ℚ
  deriving DecidableEq, Repr

/-- The payment aggregation grouped by a string field, with sum and count. -/
def groupPayments (key : Payment → String) (docs : List Payment) : List TotalCountRow :=
  (groupKeys key docs).map fun k =>
    { _id := k
      total := ((groupOf key docs k).map fun p => p.amount).sum
      count := (groupOf key docs k).length }

/-- The `$group` stage of `calculateSalesTrends` (analyticsService.js 257-265). -/
def salesByDateGroup (docs : List Invoice) : List SalesRow :=
  let key := fun (i : Invoice) => dateToString i.createdAt
  (groupKeys key docs).map fun k =>
    { _id := k
      sales := ((groupOf key docs k).map fun i => i.totalAmount).sum
      orders := (groupOf key docs k).length }

/-- The pipeline of `calculateSalesTrends` (analyticsService.js 250-267). -/
def salesByDateAgg (db : Db) (userId : UserId) (dateRange : Date × Date) : List SalesRow :=
  (salesByDateGroup (matchInvoices db userId dateRange)).insertionSort fun a b => a._id ≤ b._id

/-- The pipeline of `calculateTopProducts` (analyticsService.js 280-298). -/
def topProductsAgg (db : Db) (userId : UserId) (dateRange : Date × Date) : List ProductRow :=
  let unwound := (matchInvoices db userId dateRange).flatMap fun i => i.items
  let key := fun (it : InvoiceItem) => it.description
  let grouped : List ProductRow := (groupKeys key unwound).map fun k =>
    { _id := k
      totalQuantity := ((groupOf key unwound k).map fun it => it.quantity).sum
      totalAmount := ((groupOf key unwound k).map fun it => it.total).sum
      orderCount := (groupOf key unwound k).length }
  (grouped.insertionSort fun a b => a.totalAmount ≥ b.totalAmount).take 10

/-- The pipeline of `calculateTopCustomers` (analyticsService.js 313-330). -/
def topCustomersAgg (db : Db) (userId : UserId) (dateRange : Date × Date) : List CustomerRow :=
  let docs := matchInvoices db userId dateRange
  let key := fun (i : Invoice) => i.customerName
  let grouped : List CustomerRow := (groupKeys key docs).map fun k =>
    { _id := k
      totalAmount := ((groupOf key docs k).map fun i => i.totalAmount).sum
      invoiceCount := (groupOf key docs k).length
      avgOrderValue := avg ((groupOf key docs k).map fun i => i.totalAmount) }
  (grouped.insertionSort fun a b => a.totalAmount ≥ b.totalAmount).take 10

/-- The `$group` stage of `calculateDailyPayments` (analyticsService.js 387-399). -/
def dailyPaymentsGroup (docs : List Payment) : List DailyRow :=
  let key := fun (p : Payment) => dateToString p.paymentDate
  (groupKeys key docs).map fun k =>
    { _id := k
      received := ((groupOf key docs k).map fun p =>
        if p.paymentType = "Received" then p.amount else 0).sum
      paid := ((groupOf key docs k).map fun p =>
        if p.paymentType = "Paid" then p.amount else 0).sum }

/-- The pipeline of `calculateDailyPayments` (analyticsService.js 380-401). -/
def dailyPaymentsAgg (db : Db) (userId : UserId) (dateRange : Date × Date) : List DailyRow :=
  (dailyPaymentsGroup (matchPayments db userId dateRange)).insertionSort fun a b => a._id ≤ b._id

/-! ## Metric extractors (`src/services/analyticsService.js`) -/

/-- The errors an `async` function of the service can reject with. -/
inductive Err where
  | queryFailed
  | validationFailed
  | saveFailed
  deriving DecidableEq, Repr

/-- The value `salesResult[0]?.total || 0` (analyticsService.js 168-176, 200). -/
def salesTotal (db : Db) (userObjectId : ObjectId) (dateRange : Date × Date) : ℚ :=
  ((matchInvoices db (.objectId userObjectId) dateRange).map fun i => i.totalAmount).sum

/-- The value `purchasesResult[0]?.total || 0` (analyticsService.js 179-187, 201). -/
def purchasesTotal (db : Db) (userObjectId : ObjectId) (dateRange : Date × Date) : ℚ :=
  ((db.purchases.filter fun p =>
    decide (p.userId = userObjectId) && inWindow dateRange p.createdAt).map
      fun p => p.totalAmount).sum

/-- The value `expensesResult[0]?.total || 0` (analyticsService.js 190-198, 202). -/
def expensesTotal (db : Db) (userObjectId : ObjectId) (dateRange : Date × Date) : ℚ :=
  ((db.expenses.filter fun e =>
    decide (e.userId = userObjectId) && inWindow dateRange e.createdAt).map fun e => e.amount).sum

/-- `calculateFinancialOverview` (160-209): three sums over the rows of
`userObjectId`.  For a string, line 165 evaluates
`new require('mongoose').Types.ObjectId(userId)`, which is
`(new require('mongoose')).Types.ObjectId(userId)`: the class `ObjectId` is
called without `new` and throws a `TypeError` inside the `try`.  Whatever is
thrown inside the `try`, that error or a failing query, is caught and the
three totals are set to 0 (203-208). -/
def calculateFinancialOverview (db : Db) (fails : Bool) (userId : UserId)
    (analytics : Analytics) (dateRange : Date × Date) : Except Err Analytics :=
  match userId with
  | .string _ =>
    .ok { analytics with totalSales := 0, totalPurchases := 0, totalExpenses := 0 }
  | .objectId userObjectId =>
    if fails then
      .ok { analytics with totalSales := 0, totalPurchases := 0, totalExpenses := 0 }
    else
      .ok { analytics with
        totalSales := salesTotal db userObjectId dateRange
        totalPurchases := purchasesTotal db userObjectId dateRange
        totalExpenses := expensesTotal db userObjectId dateRange }

/-- The pipeline of `calculatePaymentMethods` (analyticsService.js 217-232). -/
def paymentMethodsAgg (db : Db) (userObjectId : ObjectId) (dateRange : Date × Date) :
    List TotalCountRow :=
  (groupPayments (fun p => p.paymentMethod)
    (matchPayments db (.objectId userObjectId) dateRange)).insertionSort
    fun a b => a.total ≥ b.total

/-- The list assigned to `paymentMethods` (analyticsService.js 234-239). -/
def paymentMethodsOf (db : Db) (userObjectId : ObjectId) (dateRange : Date × Date) :
    List PaymentMethodEntry :=
  (paymentMethodsAgg db userObjectId dateRange).map fun method =>
    { method := if method._id = "" then "Unknown" else method._id
      total := method.total
      count := method.count
      percentage := 0 }

/-- `calculatePaymentMethods` (212-244): group the payments of `userObjectId`
by method, sort by total descending.  For a string, line 215 throws the same
`TypeError` as line 165; that error or a failing query is caught and the list
is set to `[]` (240-243). -/
def calculatePaymentMethods (db : Db) (fails : Bool) (userId : UserId)
    (analytics : Analytics) (dateRange : Date × Date) : Except Err Analytics :=
  match userId with
  | .string _ => .ok { analytics with paymentMethods := [] }
  | .objectId userObjectId =>
    if fails then
      .ok { analytics with paymentMethods := [] }
    else
      .ok { analytics with paymentMethods := paymentMethodsOf db userObjectId dateRange }

/-- The list assigned to `salesByDate` (analyticsService.js 269-273). -/
def salesByDateOf (db : Db) (userId : UserId) (dateRange : Date × Date) :
    List SalesByDateEntry :=
  (salesByDateAgg db userId dateRange).map fun day =>
    { date := day._id, sales := day.sales, orders := day.orders }

/-- `calculateSalesTrends` (247-274); there is no `try`, a failing query rejects. -/
def calculateSalesTrends (db : Db) (fails : Bool) (userId : UserId)
    (analytics : Analytics) (dateRange : Date × Date) : Except Err Analytics :=
  if fails then .error .queryFailed
  else .ok { analytics with salesByDate := salesByDateOf db userId dateRange }

/-- The list assigned to `topProducts` (analyticsService.js 300-306). -/
def topProductsOf (db : Db) (userId : UserId) (dateRange : Date × Date) : List TopProduct :=
  (topProductsAgg db userId dateRange).mapIdx fun index product =>
    { productName := product._id
      totalQuantity := product.totalQuantity
      totalAmount := product.totalAmount
      orderCount := product.orderCount
      rank := index + 1 }

/-- `calculateTopProducts` (277-307); there is no `try`, a failing query rejects. -/
def calculateTopProducts (db : Db) (fails : Bool) (userId : UserId)
    (analytics : Analytics) (dateRange : Date × Date) : Except Err Analytics :=
  if fails then .error .queryFailed
  else .ok { analytics with topProducts := topProductsOf db userId dateRange }

/-- The list assigned to `topCustomers` (analyticsService.js 332-338). -/
def topCustomersOf (db : Db) (userId : UserId) (dateRange : Date × Date) : List TopCustomer :=
  (topCustomersAgg db userId dateRange).mapIdx fun index customer =>
    { customerName := customer._id
      totalAmount := customer.totalAmount
      invoiceCount := customer.invoiceCount
      avgOrderValue := customer.avgOrderValue
      rank := index + 1 }

/-- `calculateTopCustomers` (310-339); there is no `try`, a failing query rejects. -/
def calculateTopCustomers (db : Db) (fails : Bool) (userId : UserId)
    (analytics : Analytics) (dateRange : Date × Date) : Except Err Analytics :=
  if fails then .error .queryFailed
  else .ok { analytics with topCustomers := topCustomersOf db userId dateRange }

/-- The value assigned to `paymentFlow` (analyticsService.js 345-373): the
payments grouped by type, then the two `find` calls with their fallback. -/
def paymentFlowOf (db : Db) (userId : UserId) (dateRange : Date × Date) : PaymentFlow :=
  let paymentFlow := groupPayments (fun p => p.paymentType) (matchPayments db userId dateRange)
  let zero : TotalCountRow := { _id := "", total := 0, count := 0 }
  let moneyIn := (paymentFlow.find? fun p => decide (p._id = "Received")).getD zero
  let moneyOut := (paymentFlow.find? fun p => decide (p._id = "Paid")).getD zero
  { moneyIn := { total := moneyIn.total, count := moneyIn.count }
    moneyOut := { total := moneyOut.total, count := moneyOut.count } }

/-- `calculatePaymentFlow` (342-374); there is no `try`, a failing query rejects. -/
def calculatePaymentFlow (db : Db) (fails : Bool) (userId : UserId)
    (analytics : Analytics) (dateRange : Date × Date) : Except Err Analytics :=
  if fails then .error .queryFailed
  else .ok { analytics with paymentFlow := paymentFlowOf db userId dateRange }

/-- The list assigned to `dailyPayments` (analyticsService.js 403-407). -/
def dailyPaymentsOf (db : Db) (userId : UserId) (dateRange : Date × Date) :
    List DailyPayment :=
  (dailyPaymentsAgg db userId dateRange).map fun day =>
    { date := day._id, received := day.received, paid := day.paid }

/-- `calculateDailyPayments` (377-408); there is no `try`, a failing query rejects. -/
def calculateDailyPayments (db : Db) (fails : Bool) (userId : UserId)
    (analytics : Analytics) (dateRange : Date × Date) : Except Err Analytics :=
  if fails then .error .queryFailed
  else .ok { analytics with dailyPayments := dailyPaymentsOf db userId dateRange }

/-- The value assigned to `kpis` (analyticsService.js 414-443).  The three
`countDocuments` calls cast `userId`; the `aggregate` behind `avgOrderValue`
does not. -/
def kpisOf (db : Db) (userId : UserId) (dateRange : Date × Date) : Kpis :=
  let totalCustomers := (db.customers.filter fun c => decide (c.userId = userId.cast)).length
  let totalProducts := (db.items.filter fun i => decide (i.userId = userId.cast)).length
  let totalInvoices := (db.invoices.filter fun i =>
    decide (i.userId = userId.cast) && inWindow dateRange i.createdAt).length
  let matched := matchInvoices db userId dateRange
  let avgOrderResult := if matched = [] then 0 else avg (matched.map fun i => i.totalAmount)
  { totalCustomers := totalCustomers
    totalProducts := totalProducts
    totalInvoices := totalInvoices
    avgOrderValue := avgOrderResult
    conversionRate := 0 }

/-- `calculateKPIs` (411-444); there is no `try`, a failing query rejects. -/
def calculateKPIs (db : Db) (fails : Bool) (userId : UserId)
    (analytics : Analytics) (dateRange : Date × Date) : Except Err Analytics :=
  if fails then .error .queryFailed
  else .ok { analytics with kpis := kpisOf db userId dateRange }

/-! ## The snapshot store -/

/-- The `Analytics` collection, in natural (insertion) order. -/
abbrev Store := List Analytics

/-- An `_id` that no stored document carries, given to a `new Analytics(...)`. -/
def freshId (s : Store) : Nat := (s.map fun a => a._id).foldr max 0 + 1

/-- The query `Analytics.findOne({ userId, 'dateRange.period': period })`, on
the cast `userId`. -/
def findOne (s : Store) (userId : ObjectId) (period : String) : Option Analytics :=
  s.find? fun a => decide (a.userId = userId) && decide (a.dateRange.period = period)

/-- The `enum` of `dateRange.period` (Analytics.js 192). -/
def periodEnum : List String := ["7days", "30days", "90days", "1year", "custom"]

/-- Schema validation run by `save`: the `enum` of `dateRange.period` and the
`required: true` string fields of the embedded lists. -/
def validate (a : Analytics) : Bool :=
  decide (a.dateRange.period ∈ periodEnum)
    && a.paymentMethods.all (fun m => decide (m.method ≠ ""))
    && a.salesByDate.all (fun d => decide (d.date ≠ ""))
    && a.topProducts.all (fun p => decide (p.productName ≠ ""))
    && a.topCustomers.all (fun c => decide (c.customerName ≠ ""))
    && a.dailyPayments.all (fun d => decide (d.date ≠ ""))

/-- The method `save` of a document: validation, then an insert when the
document is new and a replacement of the row with the same `_id` otherwise. -/
def save (fails isNew : Bool) (a : Analytics) (s : Store) : Except Err Store :=
  if !validate a then .error .validationFailed
  else if fails then .error .saveFailed
  else if isNew then .ok (s ++ [a])
  else .ok (s.map fun r => if r._id = a._id then a else r)

/-- The events published on `analyticsEvents`. -/
inductive Event where
  | update (userId : String) (period : String) (lastUpdated : Date)
  | bulkUpdate (userId : String) (periods : List String) (lastUpdated : Date)
  deriving DecidableEq, Repr

/-- The database calls of one `updateAnalytics` run that fail. -/
structure Faults where
  findOne : Bool
  financialOverview : Bool
  paymentMethods : Bool
  salesTrends : Bool
  topProducts : Bool
  topCustomers : Bool
  paymentFlow : Bool
  dailyPayments : Bool
  kpis : Bool
  save : Bool
  deriving DecidableEq, Repr

/-- No database call fails. -/
def noFaults : Faults :=
  { findOne := false, financialOverview := false, paymentMethods := false,
    salesTrends := false, topProducts := false, topCustomers := false,
    paymentFlow := false, dailyPayments := false, kpis := false, save := false }

/-- The environment of one `updateAnalytics` run: which calls fail, the first
clock reading of `getDateRange` (line 136, `endDate`), the clock reading stored
in `lastUpdated`, the second clock reading of `getDateRange` (line 137,
`startDate`) and the zone of the server.  A run in which nothing else is said
reads the same millisecond twice on a server in UTC. -/
structure Env where
  faults : Faults
  now : Date
  stamp : Date
  startNow : Date := now
  zone : Zone := utc

/-- What a resolved call leaves behind: the returned snapshot, the store and
the events emitted during the call. -/
structure Outcome where
  analytics : Analytics
  store : Store
  events : List Event
  deriving DecidableEq, Repr

/-- The document `new Analytics({ userId, dateRange: { period }, ... })` with
the schema defaults filled in, for the cast `userId`. -/
def newAnalytics (s : Store) (now : Date) (userId : ObjectId) (period : String) : Analytics :=
  { _id := freshId s
    userId := userId
    totalSales := 0
    totalPurchases := 0
    totalExpenses := 0
    netProfit := 0
    paymentMethods := []
    salesByDate := []
    topProducts := []
    topCustomers := []
    paymentFlow := zeroPaymentFlow
    dailyPayments := []
    kpis := zeroKpis
    lastUpdated := now
    dateRange := { startDate := none, endDate := none, period := period } }

/-- The reset of an existing record (analyticsService.js 30-51). -/
def resetAnalytics (analytics : Analytics) : Analytics :=
  { analytics with
    totalSales := 0
    totalPurchases := 0
    totalExpenses := 0
    netProfit := 0
    paymentMethods := []
    salesByDate := []
    topProducts := []
    topCustomers := []
    paymentFlow := zeroPaymentFlow
    dailyPayments := []
    kpis := zeroKpis }

/-- The eight extractors of the `Promise.all` (analyticsService.js 82-91);
the first rejection rejects the whole. -/
def calculateAll (db : Db) (f : Faults) (userId : UserId) (analytics : Analytics)
    (dateRange : Date × Date) : Except Err Analytics := do
  let analytics ← calculateFinancialOverview db f.financialOverview userId analytics dateRange
  let analytics ← calculatePaymentMethods db f.paymentMethods userId analytics dateRange
  let analytics ← calculateSalesTrends db f.salesTrends userId analytics dateRange
  let analytics ← calculateTopProducts db f.topProducts userId analytics dateRange
  let analytics ← calculateTopCustomers db f.topCustomers userId analytics dateRange
  let analytics ← calculatePaymentFlow db f.paymentFlow userId analytics dateRange
  let analytics ← calculateDailyPayments db f.dailyPayments userId analytics dateRange
  calculateKPIs db f.kpis userId analytics dateRange

/-- The record the extractors start from (analyticsService.js 30-79): the
found record reset, or a new one, with the resolved window assigned. -/
def prepare (s : Store) (now : Date) (userId : ObjectId) (period : String)
    (found : Option Analytics) (dateRange : Date × Date) : Analytics :=
  let analytics := match found with
    | some existing => resetAnalytics existing
    | none => newAnalytics s now userId period
  { analytics with dateRange :=
    { startDate := some dateRange.1, endDate := some dateRange.2, period := period } }

/-- The derived metrics and the timestamp (analyticsService.js 94-98). -/
def derive (analytics : Analytics) (stamp : Date) : Analytics :=
  let analytics := analytics.calculateNetProfit
  let analytics := analytics.calculatePaymentPercentages
  { analytics with lastUpdated := stamp }

/-- `AnalyticsService.updateAnalytics` (analyticsService.js 16-120).  The
`findOne` and the `new Analytics({ userId, ... })` cast `userId`; the
extractors receive it as it came. -/
def updateAnalytics (db : Db) (env : Env) (s : Store) (userId : UserId) (period : String) :
    Except Err Outcome := do
  let dateRange := getDateRange env.zone env.now env.startNow period
  let found ←
    if env.faults.findOne then .error Err.queryFailed else pure (findOne s userId.cast period)
  let analytics := prepare s env.now userId.cast period found dateRange
  let analytics ← calculateAll db env.faults userId analytics dateRange
  let analytics := derive analytics env.stamp
  let store ← save env.faults.save found.isNone analytics s
  pure { analytics := analytics, store := store,
         events := [Event.update (toString userId) period analytics.lastUpdated] }

/-- What a resolved `clearAnalytics` leaves behind: the `deletedCount` of the
returned result, the store and the events emitted during the call. -/
structure ClearOutcome where
  deletedCount : Nat
  store : Store
  events : List Event
  deriving DecidableEq, Repr

/-- `AnalyticsService.clearAnalytics` (analyticsService.js 123-132):
`deleteMany({ userId })` and nothing else; a failing call is rethrown. -/
def clearAnalytics (fails : Bool) (s : Store) (userId : UserId) : Except Err ClearOutcome :=
  if fails then .error .queryFailed
  else .ok
    { deletedCount := (s.filter fun a => decide (a.userId = userId.cast)).length
      store := s.filter fun a => !decide (a.userId = userId.cast)
      events := [] }

/-- `AnalyticsService.createEmptyAnalytics` (analyticsService.js 473-505). -/
def createEmptyAnalytics (saveFails : Bool) (now : Date) (s : Store) (userId : UserId)
    (period : String) : Except Err Outcome := do
  let analytics := newAnalytics s now userId.cast period
  let store ← save saveFails true analytics s
  pure { analytics := analytics, store := store, events := [] }

/-- `AnalyticsService.getAnalytics` (analyticsService.js 447-470).  `findFails`
is the outcome of its own `findOne`, `emptySaveFails` and `emptyNow` belong to
the `createEmptyAnalytics` of the `catch` block. -/
def getAnalytics (db : Db) (findFails : Bool) (env : Env) (emptySaveFails : Bool)
    (emptyNow : Date) (s : Store) (userId : UserId) (period : String) : Except Err Outcome :=
  let attempt : Except Err Outcome :=
    if findFails then .error Err.queryFailed else updateAnalytics db env s userId period
  match attempt with
  | .ok out => .ok out
  | .error _ => createEmptyAnalytics emptySaveFails emptyNow s userId period

/-- The store left behind by a call on the store `s`. -/
def storeAfter (r : Except Err Outcome) (s : Store) : Store :=
  match r with
  | .ok out => out.store
  | .error _ => s

/-- The events emitted during a call.  A rejected call has emitted none: the
only `emit` of `updateAnalytics` follows its last `await`, and
`createEmptyAnalytics` has no `emit`. -/
def emitted (r : Except Err Outcome) : List Event :=
  match r with
  | .ok out => out.events
  | .error _ => []

/-- `AnalyticsService.triggerUpdate` (analyticsService.js 508-529): the three
recomputes all run; the bulk event is emitted when none of them rejected.
The promise always resolves, so the result is the store and the events. -/
def triggerUpdate (db : Db) (env7 env30 env90 : Env) (bulkStamp : Date) (s : Store)
    (userId : UserId) : Store × List Event :=
  let r7 := updateAnalytics db env7 s userId "7days"
  let s7 := match r7 with | .ok out => out.store | .error _ => s
  let e7 := match r7 with | .ok out => out.events | .error _ => []
  let r30 := updateAnalytics db env30 s7 userId "30days"
  let s30 := match r30 with | .ok out => out.store | .error _ => s7
  let e30 := match r30 with | .ok out => out.events | .error _ => []
  let r90 := updateAnalytics db env90 s30 userId "90days"
  let s90 := match r90 with | .ok out => out.store | .error _ => s30
  let e90 := match r90 with | .ok out => out.events | .error _ => []
  let bulk :=
    if r7.toBool && r30.toBool && r90.toBool then
      [Event.bulkUpdate (toString userId) ["7days", "30days", "90days"] bulkStamp]
    else []
  (s90, e7 ++ e30 ++ e90 ++ bulk)

/-- The `await Promise.all([...])` of `triggerUpdate` (analyticsService.js
511-515): it rejects when one of the three recomputes rejects. -/
def awaitAll (r7 r30 r90 : Except Err Outcome) : Except Err Unit := do
  let _ ← r7
  let _ ← r30
  let _ ← r90
  pure ()

/-- The settlement of the promise that `triggerUpdate` returns
(analyticsService.js 508-529): the `try` block awaits the three recomputes,
and the `catch` block logs the rejection and returns. -/
def triggerUpdatePromise (db : Db) (env7 env30 env90 : Env) (s : Store) (userId : UserId) :
    Except Err Unit :=
  let r7 := updateAnalytics db env7 s userId "7days"
  let r30 := updateAnalytics db env30 (storeAfter r7 s) userId "30days"
  let r90 := updateAnalytics db env90 (storeAfter r30 (storeAfter r7 s)) userId "90days"
  tryCatch (awaitAll r7 r30 r90) fun _ => pure ()

/-! ## The analytics stream (`src/server.js` 4119-4180) -/

/-- The two things that can happen to a connection of `GET /api/analytics/stream`
once its handler is suspended at `await AnalyticsService.getAnalytics(...)`
(line 4145). -/
inductive StreamStep where
  /-- The awaited snapshot settles and the handler runs lines 4146-4179. -/
  | snapshotSettles
  /-- The client closes the connection: `'close'` is emitted on `req`. -/
  | clientCloses
  deriving DecidableEq, Repr

/-- The state of one connection: the variable `isClosed`, whether the `const`s
`onUpdate` and `onBulkUpdate` (lines 4152, 4166) are initialised, how often
each of them is registered on `analyticsEvents`, whether `res.end()` ran,
whether the `'close'` callback threw, and whether the handler has returned. -/
structure StreamState where
  isClosed : Bool
  handlersInitialised : Bool
  onUpdate : Nat
  onBulkUpdate : Nat
  responseEnded : Bool
  closeCallbackThrew : Bool
  handlerFinished : Bool
  deriving DecidableEq, Repr

/-- The connection when the handler suspends at line 4145: `isClosed = false`
(4129), the `'close'` callback registered (4130), nothing else done. -/
def streamOpened : StreamState :=
  { isClosed := false, handlersInitialised := false, onUpdate := 0, onBulkUpdate := 0,
    responseEnded := false, closeCallbackThrew := false, handlerFinished := false }

/-- The rest of the handler (4146-4179): `sendEvent` writes only when
`isClosed` is false, the two `const`s are initialised, and both are registered
with `analyticsEvents.on`, whatever `isClosed` is. -/
def resumeHandler (s : StreamState) : StreamState :=
  if s.handlerFinished then s
  else
    { s with
      handlersInitialised := true
      onUpdate := s.onUpdate + 1
      onBulkUpdate := s.onBulkUpdate + 1
      handlerFinished := true }

/-- The `'close'` callback (4130-4135), run once: `isClosed = true`, then
`removeListener(..., onUpdate)`, which reads `onUpdate` and throws a
`ReferenceError` while that `const` is not initialised, then
`removeListener(..., onBulkUpdate)` and `res.end()`. -/
def closeCallback (s : StreamState) : StreamState :=
  if s.isClosed then s
  else if s.handlersInitialised then
    { s with
      isClosed := true
      onUpdate := s.onUpdate - 1
      onBulkUpdate := s.onBulkUpdate - 1
      responseEnded := true }
  else
    { s with isClosed := true, closeCallbackThrew := true }

/-- One step of a connection. -/
def StreamState.step (s : StreamState) : StreamStep → StreamState
  | .snapshotSettles => resumeHandler s
  | .clientCloses => closeCallback s

/-- The connection after a sequence of steps. -/
def runStream (steps : List StreamStep) : StreamState :=
  steps.foldl StreamState.step streamOpened

/-! ## The invoice document (`src/models/Invoice.js`) -/

/-- One element of `items` in the invoice schema (Invoice.js 39-58). -/
structure InvoiceLine where
  description : String
  quantity : ℚ
  unitPrice : ℚ
  total : ℚ
  deriving DecidableEq, Repr

/-- The fields of an invoice document that the hook `Calculate totals before
saving` reads or writes. -/
structure InvoiceDocument where
  items : List InvoiceLine
  subtotal : ℚ
  taxRate : ℚ
  taxAmount : ℚ
  totalAmount : ℚ
  deriving DecidableEq, Repr

/-- The hook `invoiceSchema.pre('save')` of Invoice.js 126-143, `Calculate
totals before saving`. -/
def calculateTotals (doc : InvoiceDocument) : InvoiceDocument :=
  let items := doc.items.map fun item => { item with total := item.quantity * item.unitPrice }
  let subtotal := items.foldl (fun sum item => sum + item.total) 0
  let taxAmount := (subtotal * doc.taxRate) / 100
  { doc with
    items := items
    subtotal := subtotal
    taxAmount := taxAmount
    totalAmount := subtotal + taxAmount }

/-! ## Vocabulary of the statements -/

/-- A query fails in one of the six extractors that have no `try`. -/
def unguardedFault (f : Faults) : Bool :=
  f.salesTrends || f.topProducts || f.topCustomers || f.paymentFlow || f.dailyPayments || f.kpis

/-- The record after all eight extractors resolved; `fo` and `pm` tell whether
a query of `calculateFinancialOverview` and of `calculatePaymentMethods`
failed; their `catch` runs then, and for every string id. -/
def extracted (db : Db) (fo pm : Bool) (userId : UserId) (a : Analytics)
    (dateRange : Date × Date) : Analytics :=
  { a with
    totalSales := if fo || userId.isString then 0 else salesTotal db userId.cast dateRange
    totalPurchases :=
      if fo || userId.isString then 0 else purchasesTotal db userId.cast dateRange
    totalExpenses := if fo || userId.isString then 0 else expensesTotal db userId.cast dateRange
    paymentMethods :=
      if pm || userId.isString then [] else paymentMethodsOf db userId.cast dateRange
    salesByDate := salesByDateOf db userId dateRange
    topProducts := topProductsOf db userId dateRange
    topCustomers := topCustomersOf db userId dateRange
    paymentFlow := paymentFlowOf db userId dateRange
    dailyPayments := dailyPaymentsOf db userId dateRange
    kpis := kpisOf db userId dateRange }

/-- The snapshot a resolved `updateAnalytics` returns, with the `_id` of a
record created in an empty store: it is computed from the source rows, the
faults and the clock alone. -/
def snapshotOf (db : Db) (env : Env) (userId : UserId) (period : String) : Analytics :=
  derive
    (extracted db env.faults.financialOverview env.faults.paymentMethods userId
      (prepare [] env.now userId.cast period none (getDateRange env.zone env.now env.startNow period))
      (getDateRange env.zone env.now env.startNow period))
    env.stamp

/-- The `_id` of the record `updateAnalytics` works on: that of the row found,
or a fresh one. -/
def idFor (s : Store) (userId : ObjectId) (period : String) : Nat :=
  match findOne s userId period with
  | some existing => existing._id
  | none => freshId s

/-- The store after the `save` of `updateAnalytics` went through. -/
def savedStore (s : Store) (userId : ObjectId) (period : String) (a : Analytics) : Store :=
  if (findOne s userId period).isNone then s ++ [a]
  else s.map fun r => if r._id = a._id then a else r

/-- The sum `S` of the `total` fields of `paymentMethods`. -/
def totalOfPayments (a : Analytics) : ℚ := (a.paymentMethods.map fun m => m.total).sum

/-- The percentages as the data model words them: `total / S * 100`, and `0`
when `S` is `0`. -/
def specPercentages (pm : List PaymentMethodEntry) : List PaymentMethodEntry :=
  let S := (pm.map fun m => m.total).sum
  pm.map fun m => { m with percentage := if S = 0 then 0 else m.total / S * 100 }

/-- The snapshot has every metric at its identity value. -/
def isZeroSnapshot (a : Analytics) : Prop :=
  a.totalSales = 0 ∧ a.totalPurchases = 0 ∧ a.totalExpenses = 0 ∧ a.netProfit = 0 ∧
  a.paymentMethods = [] ∧ a.salesByDate = [] ∧ a.topProducts = [] ∧ a.topCustomers = [] ∧
  a.paymentFlow = zeroPaymentFlow ∧ a.dailyPayments = [] ∧ a.kpis = zeroKpis

/-- The recompute inside `getAnalytics` (its own `findOne`, then
`updateAnalytics`) rejected. -/
def recomputeFailed (db : Db) (findFails : Bool) (env : Env) (s : Store) (userId : UserId)
    (period : String) : Bool :=
  findFails || !(updateAnalytics db env s userId period).toBool

/-- The store holds at most one row per `(userId, dateRange.period)`. -/
def uniquePerKey (s : Store) : Prop :=
  (s.map fun a => (a.userId, a.dateRange.period)).Nodup

/-- The rows of the store carry pairwise distinct `_id`s. -/
def uniqueIds (s : Store) : Prop := (s.map fun a => a._id).Nodup

/-- Whether a snapshot is all-zero can be computed. -/
instance (a : Analytics) : Decidable (isZeroSnapshot a) := by
  unfold isZeroSnapshot; infer_instance

/-- Whether a store has one row per key can be computed. -/
instance (s : Store) : Decidable (uniquePerKey s) := by
  unfold uniquePerKey; infer_instance

/-- Whether a store has distinct `_id`s can be computed. -/
instance (s : Store) : Decidable (uniqueIds s) := by
  unfold uniqueIds; infer_instance

/-- What the caller of a service function sees: the returned snapshot and
the events emitted during the call. -/
def returned (r : Except Err Outcome) : Except Err (Analytics × List Event) :=
  r.map fun out => (out.analytics, out.events)

/-- The total sales and the window of a returned snapshot. -/
def salesAndWindow (r : Except Err Outcome) : Except Err (ℚ × DateRange) :=
  r.map fun out => (out.analytics.totalSales, out.analytics.dateRange)

/-- The entry of `paymentMethods` for the payments `docs` with method `k`
(analyticsService.js 225-239). -/
def methodEntry (docs : List Payment) (k : String) : PaymentMethodEntry :=
  { method := if k = "" then "Unknown" else k
    total := ((docs.filter fun p => decide (p.paymentMethod = k)).map fun p => p.amount).sum
    count := (docs.filter fun p => decide (p.paymentMethod = k)).length
    percentage := 0 }

/-- The event is an `'analytics:bulkUpdate'`. -/
def Event.isBulk : Event → Bool
  | .bulkUpdate _ _ _ => true
  | .update _ _ _ => false

/-- The rows of the user `userId` in the six source collections. -/
def ownRows (db : Db) (userId : ObjectId) : Db :=
  { invoices := db.invoices.filter fun i => decide (i.userId = userId)
    payments := db.payments.filter fun p => decide (p.userId = userId)
    expenses := db.expenses.filter fun e => decide (e.userId = userId)
    purchases := db.purchases.filter fun p => decide (p.userId = userId)
    customers := db.customers.filter fun c => decide (c.userId = userId)
    items := db.items.filter fun i => decide (i.userId = userId) }

/-- The in-window payments of the user that have the type `ty`. -/
def paymentsOfType (db : Db) (userId : ObjectId) (dateRange : Date × Date) (ty : String) :
    List Payment :=
  db.payments.filter fun p => decide (p.userId = userId ∧ dateRange.1 ≤ p.paymentDate ∧
    p.paymentDate ≤ dateRange.2 ∧ p.paymentType = ty)

/-- The in-window payments of the user on the calendar day `d` that have the
type `ty`. -/
def paymentsOnDay (db : Db) (userId : ObjectId) (dateRange : Date × Date) (d ty : String) :
    List Payment :=
  db.payments.filter fun p => decide (p.userId = userId ∧ dateRange.1 ≤ p.paymentDate ∧
    p.paymentDate ≤ dateRange.2 ∧ dateToString p.paymentDate = d ∧ p.paymentType = ty)

/-- The line items of the user's in-window invoices: the stages `$match` and
`$unwind: '$items'` of `calculateTopProducts` (analyticsService.js 281-287). -/
def lineItems (db : Db) (userId : ObjectId) (dateRange : Date × Date) : List InvoiceItem :=
  (matchInvoices db (.objectId userId) dateRange).flatMap fun i => i.items

/-- The line items of the user's in-window invoices with the description `d`. -/
def lineItemsOf (db : Db) (userId : ObjectId) (dateRange : Date × Date) (d : String) :
    List InvoiceItem :=
  (lineItems db userId dateRange).filter fun it => decide (it.description = d)

/-- The `$group` stage of `calculateTopProducts` (analyticsService.js 288-295),
before `$sort` and `$limit`. -/
def productGroups (db : Db) (userId : ObjectId) (dateRange : Date × Date) : List ProductRow :=
  (groupKeys (fun it : InvoiceItem => it.description) (lineItems db userId dateRange)).map fun k =>
    { _id := k
      totalQuantity := ((lineItemsOf db userId dateRange k).map fun it => it.quantity).sum
      totalAmount := ((lineItemsOf db userId dateRange k).map fun it => it.total).sum
      orderCount := (lineItemsOf db userId dateRange k).length }

/-- The user's in-window invoices whose `customerName` is `name`. -/
def invoicesOfCustomer (db : Db) (userId : ObjectId) (dateRange : Date × Date) (name : String) :
    List Invoice :=
  (matchInvoices db (.objectId userId) dateRange).filter fun i => decide (i.customerName = name)

/-- The `$group` stage of `calculateTopCustomers` (analyticsService.js 320-327),
before `$sort` and `$limit`. -/
def customerGroups (db : Db) (userId : ObjectId) (dateRange : Date × Date) : List CustomerRow :=
  (groupKeys (fun i : Invoice => i.customerName)
    (matchInvoices db (.objectId userId) dateRange)).map fun k =>
    { _id := k
      totalAmount := ((invoicesOfCustomer db userId dateRange k).map fun i => i.totalAmount).sum
      invoiceCount := (invoicesOfCustomer db userId dateRange k).length
      avgOrderValue := avg ((invoicesOfCustomer db userId dateRange k).map fun i => i.totalAmount) }

/-- The user has no document in any of the six source collections. -/
def emptyTenant (db : Db) (userId : ObjectId) : Prop :=
  (∀ i ∈ db.invoices, i.userId ≠ userId) ∧ (∀ p ∈ db.payments, p.userId ≠ userId) ∧
  (∀ e ∈ db.expenses, e.userId ≠ userId) ∧ (∀ p ∈ db.purchases, p.userId ≠ userId) ∧
  (∀ c ∈ db.customers, c.userId ≠ userId) ∧ (∀ i ∈ db.items, i.userId ≠ userId)

instance (db : Db) (userId : ObjectId) : Decidable (emptyTenant db userId) := by
  unfold emptyTenant; infer_instance

/-- Every in-window payment of the user has the type `'Received'` or `'Paid'`. -/
def receivedOrPaid (db : Db) (userId : ObjectId) (dateRange : Date × Date) : Prop :=
  ∀ p ∈ db.payments, p.userId = userId → dateRange.1 ≤ p.paymentDate →
    p.paymentDate ≤ dateRange.2 → p.paymentType = "Received" ∨ p.paymentType = "Paid"

/-- The two windows hold the same source rows of the user: every `createdAt`
and every `paymentDate` of a row of `userId` lies inside both windows or
outside both. -/
def sameRows (db : Db) (userId : ObjectId) (w₁ w₂ : Date × Date) : Prop :=
  (∀ i ∈ db.invoices, i.userId = userId → inWindow w₁ i.createdAt = inWindow w₂ i.createdAt) ∧
  (∀ p ∈ db.payments, p.userId = userId →
    inWindow w₁ p.paymentDate = inWindow w₂ p.paymentDate) ∧
  (∀ e ∈ db.expenses, e.userId = userId → inWindow w₁ e.createdAt = inWindow w₂ e.createdAt) ∧
  (∀ p ∈ db.purchases, p.userId = userId → inWindow w₁ p.createdAt = inWindow w₂ p.createdAt)

instance (db : Db) (userId : ObjectId) (w₁ w₂ : Date × Date) :
    Decidable (sameRows db userId w₁ w₂) := by
  unfold sameRows; infer_instance

instance (db : Db) (userId : ObjectId) (dateRange : Date × Date) :
    Decidable (receivedOrPaid db userId dateRange) := by
  unfold receivedOrPaid; infer_instance

/-! ## Sample data

A numeral in the place of a `userId` is the `ObjectId` of that number; the
string that spells it is written `.string`.  The sample environments read the
same millisecond twice on a server in UTC. -/

/-- Two invoices, two payments and one expense of user 1. -/
def sampleDb : Db :=
  { invoices :=
      [ { userId := 1, createdAt := 1762300000000, totalAmount := 1180,
          items := [{ description := "Widget", quantity := 2, total := 1000 }],
          customerName := "Acme" },
        { userId := 1, createdAt := 1762200000000, totalAmount := 20,
          items := [{ description := "Widget", quantity := 1, total := 10 },
                    { description := "Nut", quantity := 1, total := 10 }],
          customerName := "Bob" } ]
    payments :=
      [ { userId := 1, paymentDate := 1762300000000, amount := 500,
          paymentMethod := "Cash", paymentType := "Received" },
        { userId := 1, paymentDate := 1762300000000, amount := 200,
          paymentMethod := "UPI", paymentType := "Paid" } ]
    expenses := [{ userId := 1, createdAt := 1762300000000, amount := 100 }]
    purchases := []
    customers := [{ userId := 1 }]
    items := [] }

/-- A run on 2025-11-05T08:00:00Z in which no database call fails. -/
def sampleEnv : Env := { faults := noFaults, now := 1762329600000, stamp := 1762329600001 }

/-- The snapshot of `sampleDb` for user 1 and period `30days` under `sampleEnv`. -/
def sampleSnapshot : Analytics :=
  { _id := 1
    userId := 1
    totalSales := 1200
    totalPurchases := 0
    totalExpenses := 100
    netProfit := 1100
    paymentMethods :=
      [ { method := "Cash", total := 500, count := 1, percentage := 500 / 7 },
        { method := "UPI", total := 200, count := 1, percentage := 200 / 7 } ]
    salesByDate :=
      [ { date := "2025-11-03", sales := 20, orders := 1 },
        { date := "2025-11-04", sales := 1180, orders := 1 } ]
    topProducts :=
      [ { productName := "Widget", totalQuantity := 3, totalAmount := 1010, orderCount := 2,
          rank := 1 },
        { productName := "Nut", totalQuantity := 1, totalAmount := 10, orderCount := 1,
          rank := 2 } ]
    topCustomers :=
      [ { customerName := "Acme", totalAmount := 1180, invoiceCount := 1, avgOrderValue := 1180,
          rank := 1 },
        { customerName := "Bob", totalAmount := 20, invoiceCount := 1, avgOrderValue := 20,
          rank := 2 } ]
    paymentFlow :=
      { moneyIn := { total := 500, count := 1 }, moneyOut := { total := 200, count := 1 } }
    dailyPayments := [{ date := "2025-11-04", received := 500, paid := 200 }]
    kpis :=
      { totalCustomers := 1, totalProducts := 0, totalInvoices := 2, avgOrderValue := 600,
        conversionRate := 0 }
    lastUpdated := 1762329600001
    dateRange :=
      { startDate := some 1759737600000, endDate := some 1762329600000, period := "30days" } }

/-- The outcome of the sample run on an empty store. -/
def sampleOutcome : Outcome :=
  { analytics := sampleSnapshot
    store := [sampleSnapshot]
    events := [Event.update "1" "30days" 1762329600001] }

/-- The snapshot of `sampleDb` for user 1 and period `30days` under `sampleEnv`
when the id arrives as the string of the JWT payload: only the three
`countDocuments` calls of `calculateKPIs` see the rows of the user. -/
def stringSnapshot : Analytics :=
  { _id := 1
    userId := 1
    totalSales := 0
    totalPurchases := 0
    totalExpenses := 0
    netProfit := 0
    paymentMethods := []
    salesByDate := []
    topProducts := []
    topCustomers := []
    paymentFlow := zeroPaymentFlow
    dailyPayments := []
    kpis :=
      { totalCustomers := 1, totalProducts := 0, totalInvoices := 2, avgOrderValue := 0,
        conversionRate := 0 }
    lastUpdated := 1762329600001
    dateRange :=
      { startDate := some 1759737600000, endDate := some 1762329600000, period := "30days" } }

/-- The outcome of the sample run with the string id on an empty store. -/
def stringOutcome : Outcome :=
  { analytics := stringSnapshot
    store := [stringSnapshot]
    events := [Event.update "1" "30days" 1762329600001] }

/-- A record whose single payment method has a negative total. -/
def refundOnly : Analytics :=
  { newAnalytics [] 0 1 "30days" with
    paymentMethods := [{ method := "Cash", total := -5, count := 1, percentage := 0 }] }

/-- The record handed to an extractor in the examples. -/
def blank : Analytics := newAnalytics [] 0 1 "30days"

/-- The window of `sampleEnv` for the period `30days`. -/
def sampleWindow : Date × Date := (1759737600000, 1762329600000)

/-- The sample record after `calculateTopProducts`. -/
def sampleTopProducts : Analytics := { blank with topProducts := sampleSnapshot.topProducts }

/-- The sample record after `calculateTopProducts` and `calculateTopCustomers`. -/
def sampleTopLists : Analytics :=
  { sampleTopProducts with topCustomers := sampleSnapshot.topCustomers }

/-- Two invoices of user 1 for different customers and different products
with the same amount. -/
def tieDb : Db :=
  { invoices :=
      [ { userId := 1, createdAt := 5, totalAmount := 100,
          items := [{ description := "Widget", quantity := 1, total := 100 }],
          customerName := "Acme" },
        { userId := 1, createdAt := 6, totalAmount := 100,
          items := [{ description := "Nut", quantity := 4, total := 100 }],
          customerName := "Bob" } ]
    payments := []
    expenses := []
    purchases := []
    customers := []
    items := [] }

/-- The top products of `tieDb`. -/
def tieTopProducts : List TopProduct :=
  [ { productName := "Widget", totalQuantity := 1, totalAmount := 100, orderCount := 1, rank := 1 },
    { productName := "Nut", totalQuantity := 4, totalAmount := 100, orderCount := 1, rank := 2 } ]

/-- The top customers of `tieDb`. -/
def tieTopCustomers : List TopCustomer :=
  [ { customerName := "Acme", totalAmount := 100, invoiceCount := 1, avgOrderValue := 100,
      rank := 1 },
    { customerName := "Bob", totalAmount := 100, invoiceCount := 1, avgOrderValue := 100,
      rank := 2 } ]

/-- The sample record after `calculateSalesTrends`. -/
def sampleSales : Analytics := { blank with salesByDate := sampleSnapshot.salesByDate }

/-- The sample record after `calculateSalesTrends` and `calculateDailyPayments`. -/
def sampleSeries : Analytics := { sampleSales with dailyPayments := sampleSnapshot.dailyPayments }

/-- The faults in which exactly the query of `calculateTopProducts` fails. -/
def topProductsDown : Faults := { noFaults with topProducts := true }

/-- The faults in which exactly the queries of `calculateFinancialOverview` fail. -/
def financialOverviewDown : Faults := { noFaults with financialOverview := true }

/-- A run in which the recompute cannot save and neither can the fallback. -/
def storeDownEnv : Env := { sampleEnv with faults := { noFaults with save := true } }

/-- A run in which the top-products query fails. -/
def topProductsDownEnv : Env := { sampleEnv with faults := topProductsDown }

/-- The all-zero record that `createEmptyAnalytics` adds to a store that
already holds `sampleSnapshot`. -/
def sampleFallback : Analytics := newAnalytics [sampleSnapshot] 1762329600002 1 "30days"

/-- One invoice of user 1, created exactly 30 days before the clock reading
of `sampleEnv`. -/
def edgeDb : Db :=
  { invoices :=
      [ { userId := 1, createdAt := 1759737600000, totalAmount := 100,
          items := [{ description := "Widget", quantity := 1, total := 100 }],
          customerName := "Acme" } ]
    payments := []
    expenses := []
    purchases := []
    customers := []
    items := [] }

/-- A run one millisecond after `sampleEnv` in which no database call fails. -/
def laterEnv : Env := { faults := noFaults, now := 1762329600001, stamp := 1762329600002 }

/-- A second run one second after `sampleEnv`, after the first run has
finished. -/
def repeatEnv : Env := { faults := noFaults, now := 1762329601000, stamp := 1762329601005 }

/-- A run one second after `sampleEnv` in which the queries of
`calculateFinancialOverview` fail and are caught. -/
def overviewDownEnv : Env := { repeatEnv with faults := financialOverviewDown }

/-- The outcome of the repeated sample run on the store of the first. -/
def repeatOutcome : Outcome :=
  { analytics :=
      { sampleSnapshot with
        lastUpdated := 1762329601005
        dateRange := { startDate := some 1759737601000, endDate := some 1762329601000,
                       period := "30days" } }
    store :=
      [{ sampleSnapshot with
         lastUpdated := 1762329601005
         dateRange := { startDate := some 1759737601000, endDate := some 1762329601000,
                        period := "30days" } }]
    events := [Event.update "1" "30days" 1762329601005] }

/-- Noon UTC of 2024-06-01; the year before it contains 2024-02-29. -/
def leapNow : Date := 1717243200000

/-- The zone of New York around the end of daylight saving time on 2025-11-02
at 06:00 UTC: four hours behind UTC before it, five hours behind after it; a
local time that occurs twice is read with the offset before the change. -/
def newYork : Zone :=
  { atUtc := fun t => if t < 1762063200000 then -14400000 else -18000000
    atLocal := fun t => if t < 1762048800000 then -14400000 else -18000000 }

/-- A stored snapshot of user 1 for `30days` with stale values in every
metric field. -/
def staleSnapshot : Analytics :=
  { sampleSnapshot with
    _id := 7
    totalSales := 999
    totalPurchases := 5
    totalExpenses := 1
    netProfit := -5
    paymentMethods := [{ method := "Gold", total := 1, count := 9, percentage := 50 }]
    salesByDate := [{ date := "1999-01-01", sales := 3, orders := 3 }]
    topProducts := [{ productName := "Ghost", totalQuantity := 1, totalAmount := 1,
                      orderCount := 1, rank := 4 }]
    topCustomers := []
    paymentFlow := { moneyIn := { total := 8, count := 8 }, moneyOut := { total := 9, count := 9 } }
    dailyPayments := [{ date := "1999-01-01", received := 1, paid := 1 }]
    kpis := { totalCustomers := 70, totalProducts := 70, totalInvoices := 70,
              avgOrderValue := 70, conversionRate := 70 }
    lastUpdated := 5
    dateRange := { startDate := some 1, endDate := some 2, period := "30days" } }

/-- The outcome of the sample run on the store `[staleSnapshot]`. -/
def staleOutcome : Outcome :=
  { analytics := { sampleSnapshot with _id := 7 }
    store := [{ sampleSnapshot with _id := 7 }]
    events := [Event.update "1" "30days" 1762329600001] }

/-- A store with the sample snapshot of user 1 for two periods and a snapshot
of user 2. -/
def twoUserStore : Store :=
  [ sampleSnapshot,
    { sampleSnapshot with _id := 2, userId := 2 },
    { sampleSnapshot with
      _id := 3
      dateRange := { startDate := none, endDate := none, period := "7days" } } ]

/-- The sample collections with rows of user 2 mixed in. -/
def noisyDb : Db :=
  { invoices :=
      { userId := 2, createdAt := 1762300000000, totalAmount := 5000,
        items := [{ description := "Widget", quantity := 50, total := 5000 }],
        customerName := "Acme" } :: sampleDb.invoices
    payments :=
      sampleDb.payments ++
        [{ userId := 2, paymentDate := 1762300000000, amount := 900,
           paymentMethod := "Cash", paymentType := "Received" }]
    expenses := { userId := 2, createdAt := 1762300000000, amount := 77 } :: sampleDb.expenses
    purchases := [{ userId := 2, createdAt := 1762300000000, totalAmount := 300 }]
    customers := [{ userId := 2 }, { userId := 1 }, { userId := 2 }]
    items := [{ userId := 2 }] }

/-- The sample record after `calculateFinancialOverview`. -/
def sampleOverview : Analytics := { blank with totalSales := 1200, totalExpenses := 100 }

/-- The sample record after `calculatePaymentMethods`. -/
def samplePaymentMethods : Analytics :=
  { blank with paymentMethods :=
      [ { method := "Cash", total := 500, count := 1, percentage := 0 },
        { method := "UPI", total := 200, count := 1, percentage := 0 } ] }

/-- The sample record after `calculatePaymentFlow`. -/
def samplePaymentFlow : Analytics := { blank with paymentFlow := sampleSnapshot.paymentFlow }

/-- One invoice of user 1: 1000 plus 180 of tax, dated 2025-11-04. -/
def singleInvoiceDb : Db :=
  { invoices :=
      [ { userId := 1, createdAt := 1762300000000, totalAmount := 1180,
          items := [{ description := "Widget", quantity := 1, total := 1000 }],
          customerName := "Acme" } ]
    payments := []
    expenses := []
    purchases := []
    customers := []
    items := [] }

/-- Two invoices of user 1 for two customers that share the name `Acme` and
differ in their e-mail address. -/
def sameNameDb : Db :=
  { invoices :=
      [ { userId := 1, createdAt := 1762300000000, totalAmount := 1180,
          items := [{ description := "Widget", quantity := 1, total := 1000 }],
          customerName := "Acme", customerEmail := "north@acme.example" },
        { userId := 1, createdAt := 1762200000000, totalAmount := 20,
          items := [{ description := "Nut", quantity := 2, total := 20 }],
          customerName := "Acme", customerEmail := "south@acme.example" } ]
    payments := []
    expenses := []
    purchases := []
    customers := []
    items := [] }

/-- The record after `calculateTopCustomers` on `singleInvoiceDb`. -/
def singleInvoiceTopCustomers : Analytics :=
  { blank with
    topCustomers :=
      [ { customerName := "Acme", totalAmount := 1180, invoiceCount := 1, avgOrderValue := 1180,
          rank := 1 } ] }

/-- The record after `calculateTopCustomers` on `sameNameDb`. -/
def sameNameTopCustomers : Analytics :=
  { blank with
    topCustomers :=
      [ { customerName := "Acme", totalAmount := 1200, invoiceCount := 2, avgOrderValue := 600,
          rank := 1 } ] }

/-- The record after `calculateKPIs` on `sampleDb` in the window of the sample. -/
def sampleKpis : Analytics :=
  { blank with
    kpis := { totalCustomers := 1, totalProducts := 0, totalInvoices := 2, avgOrderValue := 600,
              conversionRate := 0 } }

/-- A window that ends before the first invoice of `sampleDb`. -/
def earlyWindow : Date × Date := (0, 1000)

/-- The record after `calculateKPIs` on `sampleDb` in `earlyWindow`. -/
def earlyKpis : Analytics :=
  { blank with
    kpis := { totalCustomers := 1, totalProducts := 0, totalInvoices := 0, avgOrderValue := 0,
              conversionRate := 0 } }

/-- The database without any document. -/
def emptyDb : Db :=
  { invoices := [], payments := [], expenses := [], purchases := [], customers := [], items := [] }

/-- An invoice as `POST /api/invoices` builds it from a request that carries
one item of 1 x 1000, a tax rate of 18 and stale totals. -/
def postedInvoice : InvoiceDocument :=
  { items := [{ description := "Widget", quantity := 1, unitPrice := 1000, total := 7 }]
    subtotal := 5
    taxRate := 18
    taxAmount := 3
    totalAmount := 9 }

/-- The faults in which exactly the query of `calculatePaymentMethods` fails. -/
def paymentMethodsDown : Faults := { noFaults with paymentMethods := true }

/-- A run at the clock reading of `sampleEnv` in which the query of
`calculatePaymentMethods` fails. -/
def paymentMethodsDownEnv : Env := { sampleEnv with faults := paymentMethodsDown }

/-! ## Unfolding lemmas -/

/-- The uncast `$match` against an `ObjectId` is the comparison of the ids. -/
theorem UserId.matches_objectId (id stored : ObjectId) :
    (UserId.objectId id).matches stored = decide (stored = id) := rfl

/-- A successful `updateAnalytics` decomposes into its stages. -/
theorem updateAnalytics_ok_inv {db : Db} {env : Env} {s : Store} {userId : UserId}
    {period : String} {out : Outcome} (h : updateAnalytics db env s userId period = .ok out) :
    env.faults.findOne = false ∧
    ∃ a, calculateAll db env.faults userId
          (prepare s env.now userId.cast period (findOne s userId.cast period) (getDateRange env.zone env.now env.startNow period))
          (getDateRange env.zone env.now env.startNow period) = .ok a ∧
      out.analytics = derive a env.stamp ∧
      save env.faults.save (findOne s userId.cast period).isNone (derive a env.stamp) s = .ok out.store ∧
      out.events = [Event.update (toString userId) period env.stamp] := by
  unfold updateAnalytics at h
  cases hf : env.faults.findOne with
  | true => simp [hf, bind, Except.bind] at h
  | false =>
    refine ⟨rfl, ?_⟩
    simp only [hf, bind, Except.bind, pure, Except.pure] at h
    simp only [Bool.false_eq_true, if_false] at h
    split at h
    · cases h
    · rename_i a ha
      split at h
      · cases h
      · rename_i st hst
        cases h
        exact ⟨a, ha, rfl, hst, rfl⟩

/-- The stages of `updateAnalytics` compose into a successful call. -/
theorem updateAnalytics_ok_intro {db : Db} {env : Env} {s : Store} {userId : UserId}
    {period : String} {a : Analytics} {st : Store} (hf : env.faults.findOne = false)
    (ha : calculateAll db env.faults userId
          (prepare s env.now userId.cast period (findOne s userId.cast period) (getDateRange env.zone env.now env.startNow period))
          (getDateRange env.zone env.now env.startNow period) = .ok a)
    (hst : save env.faults.save (findOne s userId.cast period).isNone (derive a env.stamp) s = .ok st) :
    updateAnalytics db env s userId period =
      .ok { analytics := derive a env.stamp, store := st,
            events := [Event.update (toString userId) period env.stamp] } := by
  unfold updateAnalytics
  simp only [hf, bind, Except.bind, pure, Except.pure, Bool.false_eq_true, if_false, ha, hst]
  rfl

/-- The sample run evaluates to the sample outcome. -/
theorem updateAnalytics_sample :
    updateAnalytics sampleDb sampleEnv [] 1 "30days" = .ok sampleOutcome := by
  with_unfolding_all rfl

/-! ## Net profit -/

/-- Claim C1: the snapshot returned by a successful `updateAnalytics` has
`netProfit = totalSales - totalPurchases - totalExpenses`. -/
theorem updateAnalytics_netProfit (db : Db) (env : Env) (s : Store) (userId : UserId)
    (period : String) (out : Outcome)
    (h : updateAnalytics db env s userId period = .ok out) :
    out.analytics.netProfit
      = out.analytics.totalSales - out.analytics.totalPurchases - out.analytics.totalExpenses := by
  obtain ⟨_, a, _, hout, _, _⟩ := updateAnalytics_ok_inv h
  rw [hout]
  rfl

/-- The net-profit identity on the sample run, whose totals are 1200, 0 and 100. -/
theorem updateAnalytics_netProfit_witness :
    updateAnalytics sampleDb sampleEnv [] 1 "30days" = .ok sampleOutcome ∧
    sampleOutcome.analytics.netProfit
      = sampleOutcome.analytics.totalSales - sampleOutcome.analytics.totalPurchases
          - sampleOutcome.analytics.totalExpenses :=
  ⟨updateAnalytics_sample,
    updateAnalytics_netProfit sampleDb sampleEnv [] 1 "30days" sampleOutcome updateAnalytics_sample⟩

/-! ## Payment percentages -/

/-- The `reduce` of `calculatePaymentPercentages` is the sum of the totals. -/
theorem foldl_total_eq_sum (pm : List PaymentMethodEntry) (init : ℚ) :
    pm.foldl (fun sum method => sum + method.total) init
      = init + (pm.map fun m => m.total).sum := by
  induction pm generalizing init with
  | nil => simp
  | cons m ms ih => simp [List.foldl_cons, ih, add_assoc]

/-- Outside the range of the stored data, on a list whose totals sum to a
negative value, the code writes percentage 0 where `total / S * 100` is 100. -/
theorem calculatePaymentPercentages_negative_sum :
    totalOfPayments refundOnly = -5 ∧
    refundOnly.calculatePaymentPercentages.paymentMethods
      = [{ method := "Cash", total := -5, count := 1, percentage := 0 }] ∧
    specPercentages refundOnly.paymentMethods
      = [{ method := "Cash", total := -5, count := 1, percentage := 100 }] ∧
    refundOnly.calculatePaymentPercentages.paymentMethods
      ≠ specPercentages refundOnly.paymentMethods := by
  decide!

/-- On every list, also one with negative totals, `calculatePaymentPercentages`
sets every `percentage` to `total / S * 100` when the sum `S` of the totals is
positive and to `0` otherwise; the list keeps its length and order, every
entry keeps `method`, `total` and `count`, and no other field of the record
changes. -/
theorem calculatePaymentPercentages_any_list (a : Analytics) :
    List.Forall₂
      (fun m e =>
        e.method = m.method ∧ e.total = m.total ∧ e.count = m.count ∧
        e.percentage = if 0 < totalOfPayments a then m.total / totalOfPayments a * 100 else 0)
      a.paymentMethods a.calculatePaymentPercentages.paymentMethods ∧
    { a.calculatePaymentPercentages with paymentMethods := a.paymentMethods } = a := by
  refine ⟨?_, rfl⟩
  simp only [Analytics.calculatePaymentPercentages, foldl_total_eq_sum, zero_add,
    List.forall₂_map_right_iff, List.forall₂_same]
  intro m _
  simp [totalOfPayments]

/-- The totals that `calculatePaymentMethods` writes are sums of
`Payment.amount`, so they are not negative when no amount is (the schema keeps
`amount` at `min: 0`). -/
theorem paymentMethodsOf_nonneg (db : Db) (userObjectId : ObjectId) (dateRange : Date × Date)
    (h : ∀ p ∈ db.payments, 0 ≤ p.amount) :
    ∀ m ∈ paymentMethodsOf db userObjectId dateRange, 0 ≤ m.total := by
  intro m hm
  unfold paymentMethodsOf paymentMethodsAgg at hm
  obtain ⟨row, hrow, rfl⟩ := List.mem_map.mp hm
  rw [List.mem_insertionSort] at hrow
  unfold groupPayments at hrow
  obtain ⟨k, _, rfl⟩ := List.mem_map.mp hrow
  apply List.sum_nonneg
  intro x hx
  obtain ⟨p, hp, rfl⟩ := List.mem_map.mp hx
  exact h p (List.mem_of_mem_filter (List.mem_of_mem_filter hp))

/-- Claim C5: on a list of payment methods whose totals are not negative (they
are sums of `Payment.amount`, which the schema keeps at `min: 0`),
`calculatePaymentPercentages` sets every `percentage` to `total / S * 100`,
where `S` is the sum of the totals, and to `0` when `S` is `0` (in particular
on the empty list); the list keeps its length and order, every entry keeps
`method`, `total` and `count`, and no other field of the record changes. -/
theorem calculatePaymentPercentages_eq_spec (a : Analytics)
    (h : ∀ m ∈ a.paymentMethods, 0 ≤ m.total) :
    a.calculatePaymentPercentages.paymentMethods = specPercentages a.paymentMethods ∧
    List.Forall₂
      (fun m e =>
        e.method = m.method ∧ e.total = m.total ∧ e.count = m.count ∧
        e.percentage = if totalOfPayments a = 0 then 0 else m.total / totalOfPayments a * 100)
      a.paymentMethods a.calculatePaymentPercentages.paymentMethods ∧
    a.calculatePaymentPercentages.paymentMethods.length = a.paymentMethods.length ∧
    { a.calculatePaymentPercentages with paymentMethods := a.paymentMethods } = a := by
  have hS : 0 ≤ totalOfPayments a := by
    unfold totalOfPayments
    apply List.sum_nonneg
    intro x hx
    obtain ⟨m, hm, rfl⟩ := List.mem_map.mp hx
    exact h m hm
  have hiff : ∀ x : ℚ, (if 0 < totalOfPayments a then x else 0)
      = if totalOfPayments a = 0 then 0 else x := by
    intro x
    by_cases h0 : totalOfPayments a = 0
    · simp [h0]
    · simp [h0, lt_of_le_of_ne hS (Ne.symm h0)]
  refine ⟨?_, ?_, ?_, rfl⟩
  · simp only [Analytics.calculatePaymentPercentages, specPercentages, foldl_total_eq_sum,
      zero_add]
    apply List.map_congr_left
    intro m _
    have := hiff (m.total / totalOfPayments a * 100)
    simp only [totalOfPayments] at this
    simp only [gt_iff_lt, this]
  · simp only [Analytics.calculatePaymentPercentages, foldl_total_eq_sum, zero_add,
      List.forall₂_map_right_iff, List.forall₂_same]
    intro m _
    have := hiff (m.total / totalOfPayments a * 100)
    simp only [totalOfPayments] at this
    simp only [totalOfPayments, gt_iff_lt, this, and_self]
  · simp [Analytics.calculatePaymentPercentages]

/-- The percentages of the sample snapshot, whose totals 500 and 200 sum to
700, and of a record without payment methods. -/
theorem calculatePaymentPercentages_eq_spec_witness :
    (∀ m ∈ sampleSnapshot.paymentMethods, 0 ≤ m.total) ∧
    sampleSnapshot.calculatePaymentPercentages.paymentMethods
      = specPercentages sampleSnapshot.paymentMethods ∧
    specPercentages sampleSnapshot.paymentMethods
      = [ { method := "Cash", total := 500, count := 1, percentage := 500 / 7 },
          { method := "UPI", total := 200, count := 1, percentage := 200 / 7 } ] ∧
    blank.calculatePaymentPercentages.paymentMethods = specPercentages blank.paymentMethods :=
  ⟨by decide!, (calculatePaymentPercentages_eq_spec sampleSnapshot (by decide!)).1, by decide!,
    (calculatePaymentPercentages_eq_spec blank (by decide!)).1⟩

/-- Claim C6: when the totals of `paymentMethods` sum to a positive value, the
percentages written by `calculatePaymentPercentages` sum to exactly 100. -/
theorem calculatePaymentPercentages_sum (a : Analytics) (h : 0 < totalOfPayments a) :
    (a.calculatePaymentPercentages.paymentMethods.map fun m => m.percentage).sum = 100 := by
  have hS : totalOfPayments a ≠ 0 := ne_of_gt h
  have key : ∀ (pm : List PaymentMethodEntry) (S : ℚ),
      (pm.map fun m => m.total / S * 100).sum = (pm.map fun m => m.total).sum / S * 100 := by
    intro pm S
    induction pm with
    | nil => simp
    | cons m ms ih => simp only [List.map_cons, List.sum_cons, ih]; ring
  unfold totalOfPayments at h hS
  simp only [Analytics.calculatePaymentPercentages, foldl_total_eq_sum, zero_add, gt_iff_lt, h,
    if_true, List.map_map, Function.comp_def]
  rw [key, div_self hS]
  norm_num

/-- The percentages of the sample snapshot, 500/7 and 200/7 of 700, sum to 100. -/
theorem calculatePaymentPercentages_sum_witness :
    0 < totalOfPayments sampleSnapshot ∧
    (sampleSnapshot.calculatePaymentPercentages.paymentMethods.map fun m => m.percentage).sum
      = 100 :=
  ⟨by decide!, calculatePaymentPercentages_sum sampleSnapshot (by decide!)⟩

/-! ## Pipeline stages: generic facts -/

/-- A field that `f` copies from the element survives `mapIdx`. -/
theorem map_mapIdx_of_forall {α β γ : Type} (f : Nat → α → β) (g : β → γ) (h : α → γ)
    (hfg : ∀ i x, g (f i x) = h x) (l : List α) : (l.mapIdx f).map g = l.map h := by
  apply List.ext_getElem?
  intro i
  simp only [List.getElem?_map, List.getElem?_mapIdx, Option.map_map]
  cases l[i]? with
  | none => rfl
  | some x => simp [hfg]

/-- A field that `f` sets to the index plus one enumerates `1..N`. -/
theorem map_mapIdx_rank {α β : Type} (f : Nat → α → β) (rank : β → Nat)
    (hf : ∀ i x, rank (f i x) = i + 1) (l : List α) :
    (l.mapIdx f).map rank = List.range' 1 l.length := by
  apply List.ext_getElem
  · simp
  · intro i h₁ h₂
    simp [hf, Nat.add_comm]

/-- A list whose ranks enumerate `1..N` has rank `i + 1` at position `i`. -/
theorem rank_get_of_map_eq {β : Type} (rank : β → Nat) (l : List β)
    (h : l.map rank = List.range' 1 l.length) (i : Fin l.length) :
    rank (l.get i) = i.val + 1 := by
  have h1 : (l.map rank)[i.val]? = (List.range' 1 l.length)[i.val]? := by rw [h]
  have hi := i.isLt
  simp only [List.getElem?_map, List.getElem?_eq_getElem hi, Option.map_some'] at h1
  rw [List.getElem?_range' 1 1 hi] at h1
  simp only [Option.some.injEq] at h1
  simp only [List.get_eq_getElem, h1]
  omega

/-- The keys of a `$group` are pairwise distinct. -/
theorem nodup_groupKeys {α κ : Type} [DecidableEq κ] (key : α → κ) (docs : List α) :
    (groupKeys key docs).Nodup :=
  List.nodup_dedup _

/-- The keys of a `$group` are the keys of the grouped documents. -/
theorem mem_groupKeys {α κ : Type} [DecidableEq κ] (key : α → κ) (docs : List α) (k : κ) :
    k ∈ groupKeys key docs ↔ ∃ d ∈ docs, key d = k := by
  simp [groupKeys]

/-- A `$sort` on a field in ascending order, after a `$group` on that field,
yields strictly ascending distinct keys, the same keys as before. -/
theorem sorted_keys_of_insertionSort {ρ : Type} (id : ρ → String) (rows : List ρ)
    (hnd : (rows.map id).Nodup) :
    ((rows.insertionSort fun a b => id a ≤ id b).map id).Sorted (· < ·) ∧
    ((rows.insertionSort fun a b => id a ≤ id b).map id).Nodup ∧
    ∀ k, k ∈ (rows.insertionSort fun a b => id a ≤ id b).map id ↔ k ∈ rows.map id := by
  haveI : IsTotal ρ (fun a b => id a ≤ id b) := ⟨fun a b => le_total (id a) (id b)⟩
  haveI : IsTrans ρ (fun a b => id a ≤ id b) := ⟨fun _ _ _ h₁ h₂ => le_trans h₁ h₂⟩
  have hperm : ((rows.insertionSort fun a b => id a ≤ id b).map id).Perm (rows.map id) :=
    (List.perm_insertionSort _ rows).map id
  have hnd' := hperm.nodup_iff.mpr hnd
  have hs : ((rows.insertionSort fun a b => id a ≤ id b).map id).Sorted (· ≤ ·) := by
    have := List.sorted_insertionSort (fun a b : ρ => id a ≤ id b) rows
    exact List.pairwise_map.mpr this
  exact ⟨hs.lt_of_le hnd', hnd', fun k => hperm.mem_iff⟩

/-- A `$sort` on a numeric field in descending order followed by `$limit`
yields a list that is non-increasing in that field. -/
theorem pairwise_take_insertionSort_desc {ρ : Type} (amount : ρ → ℚ) (rows : List ρ) (n : Nat) :
    ((rows.insertionSort fun a b => amount a ≥ amount b).take n).Pairwise
      fun a b => amount a ≥ amount b := by
  haveI : IsTotal ρ (fun a b => amount a ≥ amount b) := ⟨fun a b => le_total (amount b) (amount a)⟩
  haveI : IsTrans ρ (fun a b => amount a ≥ amount b) := ⟨fun _ _ _ h₁ h₂ => le_trans h₂ h₁⟩
  have := List.sorted_insertionSort (fun a b : ρ => amount a ≥ amount b) rows
  exact List.Pairwise.sublist (List.take_sublist n _) this

/-! ## Top products and top customers -/

/-- The `topProducts` written by a resolved `calculateTopProducts`. -/
theorem calculateTopProducts_ok {db : Db} {fails : Bool} {userId : UserId}
    {a a' : Analytics} {dateRange : Date × Date}
    (h : calculateTopProducts db fails userId a dateRange = .ok a') :
    a'.topProducts = topProductsOf db userId dateRange := by
  unfold calculateTopProducts at h
  split at h
  · cases h
  · cases h; rfl

/-- The `topCustomers` written by a resolved `calculateTopCustomers`. -/
theorem calculateTopCustomers_ok {db : Db} {fails : Bool} {userId : UserId}
    {a a' : Analytics} {dateRange : Date × Date}
    (h : calculateTopCustomers db fails userId a dateRange = .ok a') :
    a'.topCustomers = topCustomersOf db userId dateRange := by
  unfold calculateTopCustomers at h
  split at h
  · cases h
  · cases h; rfl

/-- The aggregation behind `topProducts` returns at most 10 rows. -/
theorem length_topProductsAgg (db : Db) (userId : UserId) (dateRange : Date × Date) :
    (topProductsAgg db userId dateRange).length ≤ 10 := by
  simp only [topProductsAgg, List.length_take]
  exact Nat.min_le_left _ _

/-- The aggregation behind `topCustomers` returns at most 10 rows. -/
theorem length_topCustomersAgg (db : Db) (userId : UserId) (dateRange : Date × Date) :
    (topCustomersAgg db userId dateRange).length ≤ 10 := by
  simp only [topCustomersAgg, List.length_take]
  exact Nat.min_le_left _ _

/-- Claim C7: `topProducts` and `topCustomers`, as written by
`calculateTopProducts` and `calculateTopCustomers`, have at most 10 entries
and the entry at position `i` (from 0) has rank `i + 1`. -/
theorem top_lists_length_and_rank (db : Db) (userId : UserId) (dateRange : Date × Date)
    (fp fc : Bool) (a a' b b' : Analytics)
    (hp : calculateTopProducts db fp userId a dateRange = .ok a')
    (hc : calculateTopCustomers db fc userId b dateRange = .ok b') :
    a'.topProducts.length ≤ 10 ∧
    (a'.topProducts.map fun p => p.rank) = List.range' 1 a'.topProducts.length ∧
    (∀ i : Fin a'.topProducts.length, (a'.topProducts.get i).rank = i.val + 1) ∧
    b'.topCustomers.length ≤ 10 ∧
    (b'.topCustomers.map fun c => c.rank) = List.range' 1 b'.topCustomers.length ∧
    (∀ i : Fin b'.topCustomers.length, (b'.topCustomers.get i).rank = i.val + 1) := by
  have hp' := calculateTopProducts_ok hp
  have hc' := calculateTopCustomers_ok hc
  have lp : a'.topProducts.length = (topProductsAgg db userId dateRange).length := by
    rw [hp', topProductsOf, List.length_mapIdx]
  have lc : b'.topCustomers.length = (topCustomersAgg db userId dateRange).length := by
    rw [hc', topCustomersOf, List.length_mapIdx]
  have rp : (a'.topProducts.map fun p => p.rank) = List.range' 1 a'.topProducts.length := by
    rw [lp, hp', topProductsOf]; exact map_mapIdx_rank _ (fun p : TopProduct => p.rank) (fun _ _ => rfl) _
  have rc : (b'.topCustomers.map fun c => c.rank) = List.range' 1 b'.topCustomers.length := by
    rw [lc, hc', topCustomersOf]; exact map_mapIdx_rank _ (fun c : TopCustomer => c.rank) (fun _ _ => rfl) _
  refine ⟨?_, rp, rank_get_of_map_eq _ _ rp, ?_, rc, rank_get_of_map_eq _ _ rc⟩
  · rw [lp]; exact length_topProductsAgg db userId dateRange
  · rw [lc]; exact length_topCustomersAgg db userId dateRange

/-- The sample run of `calculateTopProducts`. -/
theorem calculateTopProducts_sample :
    calculateTopProducts sampleDb false 1 blank sampleWindow = .ok sampleTopProducts := by
  with_unfolding_all rfl

/-- The sample run of `calculateTopCustomers`. -/
theorem calculateTopCustomers_sample :
    calculateTopCustomers sampleDb false 1 sampleTopProducts sampleWindow = .ok sampleTopLists := by
  with_unfolding_all rfl

/-- The two top lists of the sample have two entries each, ranked 1 and 2. -/
theorem top_lists_length_and_rank_witness :
    sampleTopProducts.topProducts.length ≤ 10 ∧
    (sampleTopProducts.topProducts.map fun p => p.rank)
      = List.range' 1 sampleTopProducts.topProducts.length ∧
    (∀ i : Fin sampleTopProducts.topProducts.length,
      (sampleTopProducts.topProducts.get i).rank = i.val + 1) ∧
    sampleTopLists.topCustomers.length ≤ 10 ∧
    (sampleTopLists.topCustomers.map fun c => c.rank)
      = List.range' 1 sampleTopLists.topCustomers.length ∧
    (∀ i : Fin sampleTopLists.topCustomers.length,
      (sampleTopLists.topCustomers.get i).rank = i.val + 1) :=
  top_lists_length_and_rank sampleDb 1 sampleWindow false false blank sampleTopProducts
    sampleTopProducts sampleTopLists calculateTopProducts_sample calculateTopCustomers_sample

/-- Claim C8, as stated, fails when two groups have equal sums: on `tieDb`
both lists hold two adjacent entries with `totalAmount` 100, so neither is
strictly descending. -/
theorem top_lists_not_strictly_sorted :
    calculateTopProducts tieDb false 1 blank (0, 10)
      = .ok { blank with topProducts := tieTopProducts } ∧
    calculateTopCustomers tieDb false 1 blank (0, 10)
      = .ok { blank with topCustomers := tieTopCustomers } ∧
    ¬ List.Chain' (fun a b : TopProduct => a.totalAmount > b.totalAmount) tieTopProducts ∧
    ¬ List.Chain' (fun a b : TopCustomer => a.totalAmount > b.totalAmount) tieTopCustomers := by
  refine ⟨by with_unfolding_all rfl, by with_unfolding_all rfl, ?_, ?_⟩
  · simp [tieTopProducts]
  · simp [tieTopCustomers]

/-- Claim C8, amended: `topProducts` and `topCustomers` are sorted descending
by `totalAmount` without strictness: every entry `a` that comes before an
entry `b` (adjacent or not) has `a.totalAmount ≥ b.totalAmount`. -/
theorem top_lists_sorted_desc (db : Db) (userId : UserId) (dateRange : Date × Date)
    (fp fc : Bool) (a a' b b' : Analytics)
    (hp : calculateTopProducts db fp userId a dateRange = .ok a')
    (hc : calculateTopCustomers db fc userId b dateRange = .ok b') :
    a'.topProducts.Pairwise (fun x y => x.totalAmount ≥ y.totalAmount) ∧
    a'.topProducts.Chain' (fun x y => x.totalAmount ≥ y.totalAmount) ∧
    b'.topCustomers.Pairwise (fun x y => x.totalAmount ≥ y.totalAmount) ∧
    b'.topCustomers.Chain' (fun x y => x.totalAmount ≥ y.totalAmount) := by
  have hp' := calculateTopProducts_ok hp
  have hc' := calculateTopCustomers_ok hc
  have sp : a'.topProducts.Pairwise (fun x y => x.totalAmount ≥ y.totalAmount) := by
    have h1 : (a'.topProducts.map fun p => p.totalAmount)
        = (topProductsAgg db userId dateRange).map fun r => r.totalAmount := by
      rw [hp', topProductsOf]
      exact map_mapIdx_of_forall _ (fun p : TopProduct => p.totalAmount)
        (fun r : ProductRow => r.totalAmount) (fun _ _ => rfl) _
    have h2 : ((topProductsAgg db userId dateRange).map fun r => r.totalAmount).Pairwise
        (· ≥ ·) :=
      List.pairwise_map.mpr (pairwise_take_insertionSort_desc (fun r : ProductRow => r.totalAmount) _ 10)
    rw [← h1] at h2
    exact List.pairwise_map.mp h2
  have sc : b'.topCustomers.Pairwise (fun x y => x.totalAmount ≥ y.totalAmount) := by
    have h1 : (b'.topCustomers.map fun p => p.totalAmount)
        = (topCustomersAgg db userId dateRange).map fun r => r.totalAmount := by
      rw [hc', topCustomersOf]
      exact map_mapIdx_of_forall _ (fun p : TopCustomer => p.totalAmount)
        (fun r : CustomerRow => r.totalAmount) (fun _ _ => rfl) _
    have h2 : ((topCustomersAgg db userId dateRange).map fun r => r.totalAmount).Pairwise
        (· ≥ ·) :=
      List.pairwise_map.mpr (pairwise_take_insertionSort_desc (fun r : CustomerRow => r.totalAmount) _ 10)
    rw [← h1] at h2
    exact List.pairwise_map.mp h2
  exact ⟨sp, sp.chain', sc, sc.chain'⟩

/-- The top lists of the sample are in descending order of `totalAmount`. -/
theorem top_lists_sorted_desc_witness :
    sampleTopProducts.topProducts.Pairwise (fun x y => x.totalAmount ≥ y.totalAmount) ∧
    sampleTopProducts.topProducts.Chain' (fun x y => x.totalAmount ≥ y.totalAmount) ∧
    sampleTopLists.topCustomers.Pairwise (fun x y => x.totalAmount ≥ y.totalAmount) ∧
    sampleTopLists.topCustomers.Chain' (fun x y => x.totalAmount ≥ y.totalAmount) :=
  top_lists_sorted_desc sampleDb 1 sampleWindow false false blank sampleTopProducts
    sampleTopProducts sampleTopLists calculateTopProducts_sample calculateTopCustomers_sample

/-! ## Daily series -/

/-- The `salesByDate` written by a resolved `calculateSalesTrends`. -/
theorem calculateSalesTrends_ok {db : Db} {fails : Bool} {userId : UserId}
    {a a' : Analytics} {dateRange : Date × Date}
    (h : calculateSalesTrends db fails userId a dateRange = .ok a') :
    a'.salesByDate = salesByDateOf db userId dateRange := by
  unfold calculateSalesTrends at h
  split at h
  · cases h
  · cases h; rfl

/-- The `dailyPayments` written by a resolved `calculateDailyPayments`. -/
theorem calculateDailyPayments_ok {db : Db} {fails : Bool} {userId : UserId}
    {a a' : Analytics} {dateRange : Date × Date}
    (h : calculateDailyPayments db fails userId a dateRange = .ok a') :
    a'.dailyPayments = dailyPaymentsOf db userId dateRange := by
  unfold calculateDailyPayments at h
  split at h
  · cases h
  · cases h; rfl

/-- Membership in the `$match` stage on invoices. -/
theorem mem_matchInvoices (db : Db) (userId : ObjectId) (dateRange : Date × Date) (i : Invoice) :
    i ∈ matchInvoices db (.objectId userId) dateRange ↔
      i ∈ db.invoices ∧ i.userId = userId ∧
        dateRange.1 ≤ i.createdAt ∧ i.createdAt ≤ dateRange.2 := by
  simp [matchInvoices, UserId.matches, inWindow]

/-- Membership in the `$match` stage on payments. -/
theorem mem_matchPayments (db : Db) (userId : ObjectId) (dateRange : Date × Date) (p : Payment) :
    p ∈ matchPayments db (.objectId userId) dateRange ↔
      p ∈ db.payments ∧ p.userId = userId ∧
        dateRange.1 ≤ p.paymentDate ∧ p.paymentDate ≤ dateRange.2 := by
  simp [matchPayments, UserId.matches, inWindow]

/-- The dates of the sales-trend aggregation. -/
theorem salesByDateAgg_dates (db : Db) (userId : ObjectId) (dateRange : Date × Date) :
    ((salesByDateAgg db (.objectId userId) dateRange).map fun r => r._id).Sorted (· < ·) ∧
    ((salesByDateAgg db (.objectId userId) dateRange).map fun r => r._id).Nodup ∧
    ∀ d, d ∈ (salesByDateAgg db (.objectId userId) dateRange).map (fun r => r._id) ↔
      ∃ i ∈ db.invoices, i.userId = userId ∧ dateRange.1 ≤ i.createdAt ∧
        i.createdAt ≤ dateRange.2 ∧ dateToString i.createdAt = d := by
  have hkeys : ((salesByDateGroup (matchInvoices db (.objectId userId) dateRange)).map fun r => r._id)
      = groupKeys (fun i : Invoice => dateToString i.createdAt)
          (matchInvoices db (.objectId userId) dateRange) := by
    simp [salesByDateGroup, List.map_map, Function.comp_def]
  obtain ⟨h1, h2, h3⟩ := sorted_keys_of_insertionSort (fun r : SalesRow => r._id)
    (salesByDateGroup (matchInvoices db (.objectId userId) dateRange))
    (by rw [hkeys]; exact nodup_groupKeys _ _)
  refine ⟨h1, h2, fun d => ?_⟩
  unfold salesByDateAgg
  rw [h3 d, hkeys, mem_groupKeys]
  constructor
  · rintro ⟨i, hi, rfl⟩
    obtain ⟨m1, m2, m3, m4⟩ := (mem_matchInvoices db userId dateRange i).mp hi
    exact ⟨i, m1, m2, m3, m4, rfl⟩
  · rintro ⟨i, m1, m2, m3, m4, rfl⟩
    exact ⟨i, (mem_matchInvoices db userId dateRange i).mpr ⟨m1, m2, m3, m4⟩, rfl⟩

/-- The dates of the daily-payments aggregation. -/
theorem dailyPaymentsAgg_dates (db : Db) (userId : ObjectId) (dateRange : Date × Date) :
    ((dailyPaymentsAgg db (.objectId userId) dateRange).map fun r => r._id).Sorted (· < ·) ∧
    ((dailyPaymentsAgg db (.objectId userId) dateRange).map fun r => r._id).Nodup ∧
    ∀ d, d ∈ (dailyPaymentsAgg db (.objectId userId) dateRange).map (fun r => r._id) ↔
      ∃ p ∈ db.payments, p.userId = userId ∧ dateRange.1 ≤ p.paymentDate ∧
        p.paymentDate ≤ dateRange.2 ∧ dateToString p.paymentDate = d := by
  have hkeys : ((dailyPaymentsGroup (matchPayments db (.objectId userId) dateRange)).map fun r => r._id)
      = groupKeys (fun p : Payment => dateToString p.paymentDate)
          (matchPayments db (.objectId userId) dateRange) := by
    simp [dailyPaymentsGroup, List.map_map, Function.comp_def]
  obtain ⟨h1, h2, h3⟩ := sorted_keys_of_insertionSort (fun r : DailyRow => r._id)
    (dailyPaymentsGroup (matchPayments db (.objectId userId) dateRange))
    (by rw [hkeys]; exact nodup_groupKeys _ _)
  refine ⟨h1, h2, fun d => ?_⟩
  unfold dailyPaymentsAgg
  rw [h3 d, hkeys, mem_groupKeys]
  constructor
  · rintro ⟨p, hp, rfl⟩
    obtain ⟨m1, m2, m3, m4⟩ := (mem_matchPayments db userId dateRange p).mp hp
    exact ⟨p, m1, m2, m3, m4, rfl⟩
  · rintro ⟨p, m1, m2, m3, m4, rfl⟩
    exact ⟨p, (mem_matchPayments db userId dateRange p).mpr ⟨m1, m2, m3, m4⟩, rfl⟩

/-- For an `ObjectId`: `salesByDate` and `dailyPayments`, as written by
`calculateSalesTrends` and `calculateDailyPayments`, are strictly ascending in
their date string, hold no date twice, and hold a date exactly when a source
row of the user inside the window (invoice by `createdAt`, payment by
`paymentDate`) falls on that day. -/
theorem date_series_sorted_sparse_objectId (db : Db) (userId : ObjectId) (dateRange : Date × Date)
    (fs fd : Bool) (a a' b b' : Analytics)
    (hs : calculateSalesTrends db fs (.objectId userId) a dateRange = .ok a')
    (hd : calculateDailyPayments db fd (.objectId userId) b dateRange = .ok b') :
    ((a'.salesByDate.map fun e => e.date).Sorted (· < ·) ∧
      (a'.salesByDate.map fun e => e.date).Nodup ∧
      ∀ d, (∃ e ∈ a'.salesByDate, e.date = d) ↔
        ∃ i ∈ db.invoices, i.userId = userId ∧ dateRange.1 ≤ i.createdAt ∧
          i.createdAt ≤ dateRange.2 ∧ dateToString i.createdAt = d) ∧
    ((b'.dailyPayments.map fun e => e.date).Sorted (· < ·) ∧
      (b'.dailyPayments.map fun e => e.date).Nodup ∧
      ∀ d, (∃ e ∈ b'.dailyPayments, e.date = d) ↔
        ∃ p ∈ db.payments, p.userId = userId ∧ dateRange.1 ≤ p.paymentDate ∧
          p.paymentDate ≤ dateRange.2 ∧ dateToString p.paymentDate = d) := by
  have es : (a'.salesByDate.map fun e => e.date)
      = (salesByDateAgg db (.objectId userId) dateRange).map fun r => r._id := by
    rw [calculateSalesTrends_ok hs, salesByDateOf, List.map_map]; rfl
  have ed : (b'.dailyPayments.map fun e => e.date)
      = (dailyPaymentsAgg db (.objectId userId) dateRange).map fun r => r._id := by
    rw [calculateDailyPayments_ok hd, dailyPaymentsOf, List.map_map]; rfl
  obtain ⟨s1, s2, s3⟩ := salesByDateAgg_dates db userId dateRange
  obtain ⟨d1, d2, d3⟩ := dailyPaymentsAgg_dates db userId dateRange
  refine ⟨⟨es ▸ s1, es ▸ s2, fun d => ?_⟩, ⟨ed ▸ d1, ed ▸ d2, fun d => ?_⟩⟩
  · rw [← s3 d, ← es]; simp
  · rw [← d3 d, ← ed]; simp

/-- The sample run of `calculateSalesTrends`: invoices on two days. -/
theorem calculateSalesTrends_sample :
    calculateSalesTrends sampleDb false 1 blank sampleWindow = .ok sampleSales := by
  with_unfolding_all rfl

/-- The sample run of `calculateDailyPayments`: two payments on one day. -/
theorem calculateDailyPayments_sample :
    calculateDailyPayments sampleDb false 1 sampleSales sampleWindow = .ok sampleSeries := by
  with_unfolding_all rfl

/-- The two daily series of the sample: `2025-11-03 < 2025-11-04` for the
invoices, the single day `2025-11-04` for the payments. -/
theorem date_series_sorted_sparse_objectId_sample :
    ((sampleSales.salesByDate.map fun e => e.date).Sorted (· < ·) ∧
      (sampleSales.salesByDate.map fun e => e.date).Nodup ∧
      ∀ d, (∃ e ∈ sampleSales.salesByDate, e.date = d) ↔
        ∃ i ∈ sampleDb.invoices, i.userId = 1 ∧ sampleWindow.1 ≤ i.createdAt ∧
          i.createdAt ≤ sampleWindow.2 ∧ dateToString i.createdAt = d) ∧
    ((sampleSeries.dailyPayments.map fun e => e.date).Sorted (· < ·) ∧
      (sampleSeries.dailyPayments.map fun e => e.date).Nodup ∧
      ∀ d, (∃ e ∈ sampleSeries.dailyPayments, e.date = d) ↔
        ∃ p ∈ sampleDb.payments, p.userId = 1 ∧ sampleWindow.1 ≤ p.paymentDate ∧
          p.paymentDate ≤ sampleWindow.2 ∧ dateToString p.paymentDate = d) :=
  date_series_sorted_sparse_objectId sampleDb 1 sampleWindow false false blank sampleSales sampleSales
    sampleSeries calculateSalesTrends_sample calculateDailyPayments_sample

/-! ## The fan-out over the eight extractors -/

/-- The `Promise.all` rejects exactly when an extractor without `try` has a
failing query, and otherwise resolves with all eight groups written. -/
theorem calculateAll_eq (db : Db) (f : Faults) (userId : UserId) (a : Analytics)
    (dateRange : Date × Date) :
    calculateAll db f userId a dateRange =
      if unguardedFault f then .error .queryFailed
      else .ok (extracted db f.financialOverview f.paymentMethods userId a dateRange) := by
  obtain ⟨f0, fo, pm, st, tp, tc, pf, dp, k, f9⟩ := f
  cases userId <;> cases fo <;> cases pm <;> cases st <;> cases tp <;> cases tc <;> cases pf <;> cases dp <;>
    cases k <;> rfl

/-! ## Failure isolation in `updateAnalytics` -/

/-- An `updateAnalytics` whose `findOne` resolved rejects as soon as one of
the six extractors without `try` has a failing query. -/
theorem updateAnalytics_unguarded (db : Db) (env : Env) (s : Store) (userId : UserId)
    (period : String) (hf : env.faults.findOne = false) (hu : unguardedFault env.faults = true) :
    updateAnalytics db env s userId period = .error .queryFailed := by
  unfold updateAnalytics
  simp [hf, bind, Except.bind, pure, Except.pure, calculateAll_eq, hu]

/-- Claim C2 (defect of the code): when exactly one extractor's query fails,
`updateAnalytics` rejects for six of the eight extractors (sales trends, top
products, top customers, payment flow, daily payments, KPIs), whatever the
source rows, the store, the clock, the zone, the user (an `ObjectId` or a
string) and the period; nothing is
persisted and no snapshot is returned. -/
theorem updateAnalytics_single_fault_rejects (db : Db) (env : Env) (s : Store)
    (userId : UserId) (period : String) :
    updateAnalytics db { env with faults := { noFaults with salesTrends := true } } s userId period
      = .error .queryFailed ∧
    updateAnalytics db { env with faults := topProductsDown } s userId period
      = .error .queryFailed ∧
    updateAnalytics db { env with faults := { noFaults with topCustomers := true } } s userId period
      = .error .queryFailed ∧
    updateAnalytics db { env with faults := { noFaults with paymentFlow := true } } s userId period
      = .error .queryFailed ∧
    updateAnalytics db { env with faults := { noFaults with dailyPayments := true } } s userId period
      = .error .queryFailed ∧
    updateAnalytics db { env with faults := { noFaults with kpis := true } } s userId period
      = .error .queryFailed := by
  refine ⟨?_, ?_, ?_, ?_, ?_, ?_⟩ <;> exact updateAnalytics_unguarded _ _ _ _ _ rfl rfl

/-- The sibling path: a failing query of `calculateFinancialOverview` is
caught, and the sample run still resolves, with the three totals and the net
profit at 0 and every other group as in the run without faults. -/
theorem updateAnalytics_financialOverview_isolated :
    updateAnalytics sampleDb { sampleEnv with faults := financialOverviewDown } [] 1 "30days"
      = .ok
        { analytics :=
            { sampleSnapshot with totalSales := 0, totalExpenses := 0, netProfit := 0 }
          store := [{ sampleSnapshot with totalSales := 0, totalExpenses := 0, netProfit := 0 }]
          events := sampleOutcome.events } := by
  with_unfolding_all rfl

/-! ## The read path -/

/-- Claim C3 (defect of the code): `getAnalytics` propagates an error.  It
rejects when the save inside the `createEmptyAnalytics` of its `catch` block
fails as well, and for a period outside the schema `enum` it rejects even when
no database call fails, because both saves fail validation; so it does for
an `ObjectId` and for the string id that the routes pass. -/
theorem getAnalytics_propagates_error :
    getAnalytics sampleDb false storeDownEnv true 1762329600002 [] 1 "30days"
      = .error .saveFailed ∧
    getAnalytics sampleDb false sampleEnv false 1762329600002 [] 1 "weekly"
      = .error .validationFailed ∧
    getAnalytics sampleDb false storeDownEnv true 1762329600002 [] (.string 1) "30days"
      = .error .saveFailed ∧
    getAnalytics sampleDb false sampleEnv false 1762329600002 [] (.string 1) "weekly"
      = .error .validationFailed := by
  refine ⟨?_, ?_, ?_, ?_⟩ <;> with_unfolding_all rfl

/-- The three outcomes of `getAnalytics`: it returns the recomputed snapshot
when the recompute succeeds; when the recompute fails it returns an all-zero snapshot
with empty sequences and emits no event, provided the save inside
`createEmptyAnalytics` succeeds (the period is in the schema `enum` and the
write goes through); when that save fails too, the error is propagated. -/
theorem getAnalytics_outcomes (db : Db) (findFails : Bool) (env : Env) (emptySaveFails : Bool)
    (emptyNow : Date) (s : Store) (userId : UserId) (period : String) :
    (∀ out, findFails = false → updateAnalytics db env s userId period = .ok out →
      getAnalytics db findFails env emptySaveFails emptyNow s userId period = .ok out) ∧
    (recomputeFailed db findFails env s userId period = true →
      period ∈ periodEnum → emptySaveFails = false →
      returned (getAnalytics db findFails env emptySaveFails emptyNow s userId period)
          = .ok (newAnalytics s emptyNow userId.cast period, []) ∧
        isZeroSnapshot (newAnalytics s emptyNow userId.cast period) ∧
        (newAnalytics s emptyNow userId.cast period).userId = userId.cast ∧
        (newAnalytics s emptyNow userId.cast period).dateRange.period = period) ∧
    (recomputeFailed db findFails env s userId period = true →
      period ∉ periodEnum ∨ emptySaveFails = true →
      ∃ e, getAnalytics db findFails env emptySaveFails emptyNow s userId period = .error e) := by
  have hfall : recomputeFailed db findFails env s userId period = true →
      getAnalytics db findFails env emptySaveFails emptyNow s userId period
        = createEmptyAnalytics emptySaveFails emptyNow s userId period := by
    intro h
    unfold recomputeFailed at h
    unfold getAnalytics
    cases findFails
    · cases hup : updateAnalytics db env s userId period with
      | ok out => simp [hup, Except.toBool] at h
      | error e => simp
    · simp
  have hval : validate (newAnalytics s emptyNow userId.cast period)
      = decide (period ∈ periodEnum) := by
    simp [validate, newAnalytics]
  refine ⟨?_, ?_, ?_⟩
  · intro out hff hup
    simp [getAnalytics, hff, hup]
  · intro h hp hs
    refine ⟨?_, ?_, rfl, rfl⟩
    · rw [hfall h]
      simp [returned, createEmptyAnalytics, save, hval, hp, hs, bind, Except.bind, pure,
        Except.pure, Except.map]
    · simp [isZeroSnapshot, newAnalytics]
  · intro h hbad
    rw [hfall h]
    rcases hbad with hp | hs
    · exact ⟨.validationFailed, by
        simp [createEmptyAnalytics, save, hval, hp, bind, Except.bind]⟩
    · by_cases hp : period ∈ periodEnum
      · exact ⟨.saveFailed, by
          simp [createEmptyAnalytics, save, hval, hp, hs, bind, Except.bind]⟩
      · exact ⟨.validationFailed, by
          simp [createEmptyAnalytics, save, hval, hp, bind, Except.bind]⟩

/-- The fallback on the sample: the top-products query fails, the recompute
rejects, and `getAnalytics` returns an all-zero snapshot. -/
theorem getAnalytics_outcomes_sample :
    returned (getAnalytics sampleDb false topProductsDownEnv false 1762329600002 [] 1 "30days")
        = .ok (newAnalytics [] 1762329600002 1 "30days", []) ∧
      isZeroSnapshot (newAnalytics [] 1762329600002 1 "30days") ∧
      (newAnalytics [] 1762329600002 1 "30days").userId = 1 ∧
      (newAnalytics [] 1762329600002 1 "30days").dateRange.period = "30days" :=
  (getAnalytics_outcomes sampleDb false topProductsDownEnv false 1762329600002 [] 1 "30days").2.1
    (by with_unfolding_all rfl) (by decide) rfl

/-! ## One snapshot per user and period -/

/-- Claim C4 (defect of the code): from the store `[sampleSnapshot]`, which
holds one row for user 1 and period `30days`, a `getAnalytics` whose recompute
fails (the top-products query throws, or the save of `updateAnalytics` fails)
takes the `createEmptyAnalytics` fallback, which inserts a second row for the
same user and period. -/
theorem getAnalytics_fallback_duplicates :
    uniquePerKey [sampleSnapshot] ∧
    getAnalytics sampleDb false topProductsDownEnv false 1762329600002 [sampleSnapshot] 1 "30days"
      = .ok { analytics := sampleFallback, store := [sampleSnapshot, sampleFallback],
              events := [] } ∧
    getAnalytics sampleDb false storeDownEnv false 1762329600002 [sampleSnapshot] 1 "30days"
      = .ok { analytics := sampleFallback, store := [sampleSnapshot, sampleFallback],
              events := [] } ∧
    (sampleSnapshot.userId, sampleSnapshot.dateRange.period)
      = (sampleFallback.userId, sampleFallback.dateRange.period) ∧
    sampleSnapshot ≠ sampleFallback ∧
    ¬ uniquePerKey [sampleSnapshot, sampleFallback] := by
  refine ⟨?_, by with_unfolding_all rfl, by with_unfolding_all rfl, rfl, ?_, ?_⟩
  · simp [uniquePerKey]
  · intro h
    have := congrArg Analytics._id h
    revert this
    decide
  · simp [uniquePerKey, sampleSnapshot, sampleFallback, newAnalytics]

/-! ## Recomputing twice -/

/-- The extractors keep the identity, the owner, the timestamp and the window
of the record they write into. -/
theorem extracted_frame (db : Db) (fo pm : Bool) (userId : UserId) (a : Analytics)
    (dateRange : Date × Date) :
    (extracted db fo pm userId a dateRange)._id = a._id ∧
    (extracted db fo pm userId a dateRange).userId = a.userId ∧
    (extracted db fo pm userId a dateRange).lastUpdated = a.lastUpdated ∧
    (extracted db fo pm userId a dateRange).dateRange = a.dateRange := by
  cases userId <;> cases fo <;> cases pm <;> exact ⟨rfl, rfl, rfl, rfl⟩

/-- The extractors do not read the timestamp of the record they write into. -/
theorem extracted_lastUpdated (db : Db) (fo pm : Bool) (userId : UserId) (a : Analytics)
    (dateRange : Date × Date) (t : Date) :
    extracted db fo pm userId { a with lastUpdated := t } dateRange
      = { extracted db fo pm userId a dateRange with lastUpdated := t } := by
  cases userId <;> cases fo <;> cases pm <;> rfl

/-- A resolved `save` wrote the record: appended when new, in place otherwise. -/
theorem save_ok_inv {fails isNew : Bool} {a : Analytics} {s st : Store}
    (h : save fails isNew a s = .ok st) :
    st = if isNew then s ++ [a] else s.map fun r => if r._id = a._id then a else r := by
  unfold save at h
  split at h
  · cases h
  · split at h
    · cases h
    · split at h <;> cases h <;> simp_all

/-- Replacing the first match of a query in place, by a record with the same
`_id` that matches the query too, makes that record the first match. -/
theorem find?_map_replace (q : Analytics → Bool) (a e : Analytics) (s : Store)
    (hfind : s.find? q = some e) (hq : q a = true) (hid : e._id = a._id) :
    (s.map fun r => if r._id = a._id then a else r).find? q = some a := by
  induction s with
  | nil => simp at hfind
  | cons r t ih =>
    simp only [List.map_cons, List.find?_cons]
    by_cases hr : r._id = a._id
    · simp [hr, hq]
    · cases hqr : q r with
      | true =>
        simp only [List.find?_cons, hqr, Option.some.injEq] at hfind
        exact absurd (hfind ▸ hid) hr
      | false =>
        simp only [List.find?_cons, hqr] at hfind
        simp [hr, hqr, ih hfind]

/-- After a resolved `updateAnalytics`, `findOne` for the same user and period
returns the snapshot that was returned. -/
theorem findOne_after_updateAnalytics {db : Db} {env : Env} {s : Store} {userId : UserId}
    {period : String} {out : Outcome} (h : updateAnalytics db env s userId period = .ok out) :
    findOne out.store userId.cast period = some out.analytics := by
  obtain ⟨_, a, ha, hout, hsave, _⟩ := updateAnalytics_ok_inv h
  rw [calculateAll_eq] at ha
  split at ha
  · cases ha
  · cases ha
    have hst := save_ok_inv hsave
    have hfr := extracted_frame db env.faults.financialOverview env.faults.paymentMethods userId
      (prepare s env.now userId.cast period (findOne s userId.cast period) (getDateRange env.zone env.now env.startNow period))
      (getDateRange env.zone env.now env.startNow period)
    rw [← hout] at hst
    have hper : out.analytics.dateRange.period = period := by
      rw [hout]
      exact congrArg DateRange.period hfr.2.2.2
    have huid : out.analytics.userId
        = (prepare s env.now userId.cast period (findOne s userId.cast period)
            (getDateRange env.zone env.now env.startNow period)).userId := by
      rw [hout]; exact hfr.2.1
    have hid : out.analytics._id
        = (prepare s env.now userId.cast period (findOne s userId.cast period)
            (getDateRange env.zone env.now env.startNow period))._id := by
      rw [hout]; exact hfr.1
    cases hfound : findOne s userId.cast period with
    | none =>
      rw [hfound] at hst huid
      have hu : out.analytics.userId = userId.cast := huid
      simp only [Option.isNone_none, if_true] at hst
      rw [hst]
      unfold findOne at hfound ⊢
      rw [List.find?_append, hfound]
      simp [hu, hper]
    | some e =>
      rw [hfound] at hst huid hid
      have he := List.find?_some hfound
      simp only [Bool.and_eq_true, decide_eq_true_eq] at he
      have hu : out.analytics.userId = userId.cast := huid.trans he.1
      have hid' : e._id = out.analytics._id := hid.symm
      simp only [Option.isNone_some, Bool.false_eq_true, if_false] at hst
      rw [hst]
      exact find?_map_replace _ _ e s hfound (by simp [hu, hper]) hid'

/-- The record the second of two recomputes starts from is the record the
first one started from, with the window of the second call and the
`lastUpdated` of the first. -/
theorem prepare_after (db : Db) (fo pm : Bool) (s s' : Store) (now now' stamp : Date)
    (userId : UserId) (period : String) (found : Option Analytics) (w₁ w₂ : Date × Date) :
    prepare s' now' userId.cast period
        (some (derive (extracted db fo pm userId
          (prepare s now userId.cast period found w₁) w₁) stamp)) w₂
      = { prepare s now userId.cast period found w₂ with lastUpdated := stamp } := by
  cases found <;> cases userId <;> cases fo <;> cases pm <;> rfl

/-- An uncast `$match` selects only rows of the cast id. -/
theorem UserId.eq_cast_of_matches {userId : UserId} {stored : ObjectId}
    (h : userId.matches stored = true) : stored = userId.cast := by
  cases userId with
  | objectId id => simpa [UserId.matches] using h
  | string hex => simp [UserId.matches] at h

/-- A filter on the user and a window agrees for two windows that hold the same
rows of the user. -/
theorem and_inWindow_congr {userId : UserId} {stored : ObjectId} {w₁ w₂ : Date × Date}
    {t : Date} (h : stored = userId.cast → inWindow w₁ t = inWindow w₂ t) :
    (userId.matches stored && inWindow w₁ t) = (userId.matches stored && inWindow w₂ t) := by
  cases hm : userId.matches stored with
  | false => rfl
  | true => simp only [Bool.true_and]; exact h (UserId.eq_cast_of_matches hm)

/-- Two windows that hold the same rows select the same invoices. -/
theorem matchInvoices_sameRows {db : Db} {userId : UserId} {w₁ w₂ : Date × Date}
    (h : sameRows db userId.cast w₁ w₂) :
    matchInvoices db userId w₁ = matchInvoices db userId w₂ := by
  unfold matchInvoices
  apply List.filter_congr
  intro i hi
  exact and_inWindow_congr (h.1 i hi)

/-- Two windows that hold the same rows select the same payments. -/
theorem matchPayments_sameRows {db : Db} {userId : UserId} {w₁ w₂ : Date × Date}
    (h : sameRows db userId.cast w₁ w₂) :
    matchPayments db userId w₁ = matchPayments db userId w₂ := by
  unfold matchPayments
  apply List.filter_congr
  intro p hp
  exact and_inWindow_congr (h.2.1 p hp)

/-- The extractors write the same values for two windows that hold the same
rows of the user. -/
theorem extracted_sameRows {db : Db} {userId : UserId} {w₁ w₂ : Date × Date}
    (h : sameRows db userId.cast w₁ w₂) (fo pm : Bool) (a : Analytics) :
    extracted db fo pm userId a w₁ = extracted db fo pm userId a w₂ := by
  have hand : ∀ (stored : ObjectId) (t : Date),
      (stored = userId.cast → inWindow w₁ t = inWindow w₂ t) →
      (decide (stored = userId.cast) && inWindow w₁ t)
        = (decide (stored = userId.cast) && inWindow w₂ t) := by
    intro stored t ht
    by_cases hs : stored = userId.cast
    · simp only [hs, decide_True, Bool.true_and]; exact ht hs
    · simp only [hs, decide_False, Bool.false_and]
  have hp : purchasesTotal db userId.cast w₁ = purchasesTotal db userId.cast w₂ := by
    unfold purchasesTotal
    rw [List.filter_congr (fun p hp => hand p.userId p.createdAt (h.2.2.2 p hp))]
  have he : expensesTotal db userId.cast w₁ = expensesTotal db userId.cast w₂ := by
    unfold expensesTotal
    rw [List.filter_congr (fun e he => hand e.userId e.createdAt (h.2.2.1 e he))]
  have hi : matchInvoices db (.objectId userId.cast) w₁
      = matchInvoices db (.objectId userId.cast) w₂ :=
    @matchInvoices_sameRows db (.objectId userId.cast) w₁ w₂ h
  have hq : matchPayments db (.objectId userId.cast) w₁
      = matchPayments db (.objectId userId.cast) w₂ :=
    @matchPayments_sameRows db (.objectId userId.cast) w₁ w₂ h
  have hk : kpisOf db userId w₁ = kpisOf db userId w₂ := by
    have hc : (db.invoices.filter fun i =>
          decide (i.userId = userId.cast) && inWindow w₁ i.createdAt)
        = db.invoices.filter fun i =>
          decide (i.userId = userId.cast) && inWindow w₂ i.createdAt :=
      List.filter_congr (fun i hi => hand i.userId i.createdAt (h.1 i hi))
    unfold kpisOf
    rw [matchInvoices_sameRows h, hc]
  unfold extracted
  simp only [salesTotal, paymentMethodsOf, paymentMethodsAgg, salesByDateOf, salesByDateAgg,
    topProductsOf, topProductsAgg, topCustomersOf, topCustomersAgg, paymentFlowOf,
    dailyPaymentsOf, dailyPaymentsAgg, matchInvoices_sameRows h, matchPayments_sameRows h,
    hi, hq, hp, he, hk]

/-- Claim C10, amended: two successive successful `updateAnalytics` calls with
unchanged source data, of which the windows hold the same rows of the user and in
which the same failing queries were swallowed by `calculateFinancialOverview`
and `calculatePaymentMethods` (for instance none), return snapshots that agree
on every field except `lastUpdated`, `dateRange.startDate` and
`dateRange.endDate`; these three follow the clock of each call. -/
theorem updateAnalytics_idempotent (db : Db) (env₁ env₂ : Env) (s : Store) (userId : UserId)
    (period : String) (out₁ out₂ : Outcome)
    (hrows : sameRows db userId.cast (getDateRange env₁.zone env₁.now env₁.startNow period)
      (getDateRange env₂.zone env₂.now env₂.startNow period))
    (hfo : env₁.faults.financialOverview = env₂.faults.financialOverview)
    (hpm : env₁.faults.paymentMethods = env₂.faults.paymentMethods)
    (h₁ : updateAnalytics db env₁ s userId period = .ok out₁)
    (h₂ : updateAnalytics db env₂ out₁.store userId period = .ok out₂) :
    { out₂.analytics with
        lastUpdated := out₁.analytics.lastUpdated
        dateRange := out₁.analytics.dateRange } = out₁.analytics ∧
    out₁.analytics.dateRange
      = { startDate := some (getDateRange env₁.zone env₁.now env₁.startNow period).1
          endDate := some (getDateRange env₁.zone env₁.now env₁.startNow period).2
          period := period } ∧
    out₂.analytics.dateRange
      = { startDate := some (getDateRange env₂.zone env₂.now env₂.startNow period).1
          endDate := some (getDateRange env₂.zone env₂.now env₂.startNow period).2
          period := period } ∧
    out₁.analytics.lastUpdated = env₁.stamp ∧ out₂.analytics.lastUpdated = env₂.stamp := by
  have hfind := findOne_after_updateAnalytics h₁
  obtain ⟨_, a₁, ha₁, hout₁, _, _⟩ := updateAnalytics_ok_inv h₁
  obtain ⟨_, a₂, ha₂, hout₂, _, _⟩ := updateAnalytics_ok_inv h₂
  rw [calculateAll_eq] at ha₁ ha₂
  split at ha₁
  · cases ha₁
  · split at ha₂
    · cases ha₂
    · cases ha₁
      cases ha₂
      rw [hfind, ← hfo, ← hpm] at hout₂
      rw [hout₁] at hout₂
      rw [prepare_after, extracted_lastUpdated, ← extracted_sameRows hrows] at hout₂
      rw [hout₂, hout₁]
      cases findOne s userId.cast period <;> exact ⟨rfl, rfl, rfl, rfl, rfl⟩

/-- Claim C10, as stated, fails: a second successful call one millisecond
later, on unchanged source data, returns another `dateRange` (the window is
derived from the clock of each call) and other totals (the invoice at the
edge of the first window has left the second); and a second successful call
one second later, with the same rows in its window, in which the
financial-overview query fails returns total sales 0 instead of 1200.  With
the string id that the routes pass, the second call one second later returns
another `dateRange` as well. -/
theorem updateAnalytics_not_idempotent :
    salesAndWindow (updateAnalytics edgeDb sampleEnv [] 1 "30days")
      = .ok (100, { startDate := some 1759737600000, endDate := some 1762329600000,
                    period := "30days" }) ∧
    salesAndWindow (updateAnalytics edgeDb laterEnv
        (storeAfter (updateAnalytics edgeDb sampleEnv [] 1 "30days") []) 1 "30days")
      = .ok (0, { startDate := some 1759737600001, endDate := some 1762329600001,
                  period := "30days" }) ∧
    salesAndWindow (updateAnalytics sampleDb sampleEnv [] 1 "30days")
      = .ok (1200, { startDate := some 1759737600000, endDate := some 1762329600000,
                     period := "30days" }) ∧
    salesAndWindow (updateAnalytics sampleDb overviewDownEnv
        (storeAfter (updateAnalytics sampleDb sampleEnv [] 1 "30days") []) 1 "30days")
      = .ok (0, { startDate := some 1759737601000, endDate := some 1762329601000,
                  period := "30days" }) ∧
    salesAndWindow (updateAnalytics sampleDb sampleEnv [] (.string 1) "30days")
      = .ok (0, { startDate := some 1759737600000, endDate := some 1762329600000,
                  period := "30days" }) ∧
    salesAndWindow (updateAnalytics sampleDb repeatEnv
        (storeAfter (updateAnalytics sampleDb sampleEnv [] (.string 1) "30days") [])
        (.string 1) "30days")
      = .ok (0, { startDate := some 1759737601000, endDate := some 1762329601000,
                  period := "30days" }) := by
  refine ⟨?_, ?_, ?_, ?_, ?_, ?_⟩ <;> with_unfolding_all rfl

/-- The sample run repeated one second later on its own store: the same rows
are in both windows, and the second snapshot is the first with a new
`lastUpdated` and the window moved by one second. -/
theorem updateAnalytics_idempotent_witness :
    sampleEnv.stamp < repeatEnv.now ∧
    sameRows sampleDb 1 (getDateRange sampleEnv.zone sampleEnv.now sampleEnv.startNow "30days")
      (getDateRange repeatEnv.zone repeatEnv.now repeatEnv.startNow "30days") ∧
    updateAnalytics sampleDb repeatEnv sampleOutcome.store 1 "30days" = .ok repeatOutcome ∧
    { repeatOutcome.analytics with
        lastUpdated := sampleOutcome.analytics.lastUpdated
        dateRange := sampleOutcome.analytics.dateRange } = sampleOutcome.analytics ∧
    repeatOutcome.analytics.dateRange
      = { startDate := some 1759737601000, endDate := some 1762329601000, period := "30days" } :=
  have h₂ : updateAnalytics sampleDb repeatEnv sampleOutcome.store 1 "30days"
      = .ok repeatOutcome := by with_unfolding_all rfl
  have h := updateAnalytics_idempotent sampleDb sampleEnv repeatEnv [] 1 "30days" sampleOutcome
    repeatOutcome (by decide) rfl rfl updateAnalytics_sample h₂
  ⟨by decide, by decide, h₂, h.1, rfl⟩

/-! ## The upsert path keeps one snapshot per user and period -/

/-- Every stored `_id` is below `freshId`. -/
theorem lt_freshId (s : Store) (r : Analytics) (hr : r ∈ s) : r._id < freshId s := by
  unfold freshId
  induction s with
  | nil => cases hr
  | cons x t ih =>
    simp only [List.map_cons, List.foldr_cons]
    rcases List.mem_cons.mp hr with h | h
    · subst h; omega
    · have := ih h; omega

/-- The upsert path keeps the invariant: a resolved `updateAnalytics` on a
store with one row per `(userId, period)` and distinct `_id`s leaves such a
store. -/
theorem updateAnalytics_preserves_unique {db : Db} {env : Env} {s : Store} {userId : UserId}
    {period : String} {out : Outcome} (h : updateAnalytics db env s userId period = .ok out)
    (hk : uniquePerKey s) (hi : uniqueIds s) :
    uniquePerKey out.store ∧ uniqueIds out.store := by
  obtain ⟨_, a, ha, hout, hsave, _⟩ := updateAnalytics_ok_inv h
  rw [calculateAll_eq] at ha
  split at ha
  · cases ha
  · cases ha
    have hst := save_ok_inv hsave
    have hfr := extracted_frame db env.faults.financialOverview env.faults.paymentMethods userId
      (prepare s env.now userId.cast period (findOne s userId.cast period) (getDateRange env.zone env.now env.startNow period))
      (getDateRange env.zone env.now env.startNow period)
    rw [← hout] at hst
    have hper : out.analytics.dateRange.period = period := by
      rw [hout]
      exact congrArg DateRange.period hfr.2.2.2
    have huid : out.analytics.userId
        = (prepare s env.now userId.cast period (findOne s userId.cast period)
            (getDateRange env.zone env.now env.startNow period)).userId := by
      rw [hout]; exact hfr.2.1
    have hid : out.analytics._id
        = (prepare s env.now userId.cast period (findOne s userId.cast period)
            (getDateRange env.zone env.now env.startNow period))._id := by
      rw [hout]; exact hfr.1
    cases hfound : findOne s userId.cast period with
    | none =>
      rw [hfound] at hst huid hid
      have hu : out.analytics.userId = userId.cast := huid
      have hfresh : out.analytics._id = freshId s := hid
      simp only [Option.isNone_none, if_true] at hst
      have hno : ∀ r ∈ s, ¬ (r.userId = userId.cast ∧ r.dateRange.period = period) := by
        intro r hr
        have := List.find?_eq_none.mp hfound r hr
        simpa using this
      rw [hst]
      unfold uniquePerKey uniqueIds at *
      simp only [List.map_append, List.map_cons, List.map_nil]
      constructor
      · refine List.Nodup.append hk (List.nodup_singleton _) ?_
        simp only [List.disjoint_singleton, List.mem_map, not_exists, not_and, hu, hper]
        intro r hr heq
        exact hno r hr ⟨congrArg Prod.fst heq, congrArg Prod.snd heq⟩
      · refine List.Nodup.append hi (List.nodup_singleton _) ?_
        simp only [List.disjoint_singleton, List.mem_map, not_exists, not_and, hfresh]
        intro r hr heq
        exact absurd heq (Nat.ne_of_lt (lt_freshId s r hr))
    | some e =>
      rw [hfound] at hst huid hid
      have he := List.find?_some hfound
      have hmem := List.mem_of_find?_eq_some hfound
      simp only [Bool.and_eq_true, decide_eq_true_eq] at he
      have hu : out.analytics.userId = userId.cast := huid.trans he.1
      have hid' : out.analytics._id = e._id := hid
      simp only [Option.isNone_some, Bool.false_eq_true, if_false] at hst
      have hsame : ∀ r ∈ s, r._id = out.analytics._id → r = e := by
        intro r hr hre
        exact List.inj_on_of_nodup_map hi hr hmem (hre.trans hid')
      rw [hst]
      unfold uniquePerKey uniqueIds
      have e1 : (s.map fun r => if r._id = out.analytics._id then out.analytics else r).map
          (fun a => (a.userId, a.dateRange.period))
          = s.map fun a => (a.userId, a.dateRange.period) := by
        rw [List.map_map]
        apply List.map_congr_left
        intro r hr
        by_cases hre : r._id = out.analytics._id
        · have := hsame r hr hre
          subst this
          simp [hre, hu, hper, he.1, he.2]
        · simp [hre]
      have e2 : (s.map fun r => if r._id = out.analytics._id then out.analytics else r).map
          (fun a => a._id) = s.map fun a => a._id := by
        rw [List.map_map]
        apply List.map_congr_left
        intro r hr
        by_cases hre : r._id = out.analytics._id
        · simp [hre]
        · simp [hre]
      rw [e1, e2]
      exact ⟨hk, hi⟩

/-- The purge keeps the invariant. -/
theorem clearAnalytics_preserves_unique {fails : Bool} {s : Store} {userId : UserId}
    {out : ClearOutcome} (h : clearAnalytics fails s userId = .ok out)
    (hk : uniquePerKey s) (hi : uniqueIds s) :
    uniquePerKey out.store ∧ uniqueIds out.store := by
  unfold clearAnalytics at h
  split at h
  · cases h
  · cases h
    exact ⟨(List.filter_sublist s).map _ |>.nodup hk, (List.filter_sublist s).map _ |>.nodup hi⟩

/-! ## The window of `getDateRange` -/

/-- The year-of-era computed by `civilFromDays` lies in `0..399`. -/
theorem yoe_range (doe : Int) (h0 : 0 ≤ doe) (h1 : doe ≤ 146096) :
    0 ≤ (doe - doe / 1460 + doe / 36524 - doe / 146096) / 365 ∧
    (doe - doe / 1460 + doe / 36524 - doe / 146096) / 365 ≤ 399 := by
  omega

/-- The day-of-year computed by `civilFromDays` lies in `0..365`. -/
theorem doy_range (doe : Int) (h0 : 0 ≤ doe) (h1 : doe ≤ 146096) :
    0 ≤ doe - (365 * ((doe - doe / 1460 + doe / 36524 - doe / 146096) / 365)
        + ((doe - doe / 1460 + doe / 36524 - doe / 146096) / 365) / 4
        - ((doe - doe / 1460 + doe / 36524 - doe / 146096) / 365) / 100) ∧
    doe - (365 * ((doe - doe / 1460 + doe / 36524 - doe / 146096) / 365)
        + ((doe - doe / 1460 + doe / 36524 - doe / 146096) / 365) / 4
        - ((doe - doe / 1460 + doe / 36524 - doe / 146096) / 365) / 100) ≤ 365 := by
  have hf : doe / 36524 = 0 ∨ doe / 36524 = 1 ∨ doe / 36524 = 2 ∨ doe / 36524 = 3 ∨
      doe / 36524 = 4 := by omega
  have hg : doe / 146096 = 0 ∨ doe / 146096 = 1 := by omega
  generalize hb : (doe - doe / 1460 + doe / 36524 - doe / 146096) / 365 = b
  have hd : b / 100 = 0 ∨ b / 100 = 1 ∨ b / 100 = 2 ∨ b / 100 = 3 := by omega
  rcases hf with hf | hf | hf | hf | hf <;> rcases hg with hg | hg <;>
    rcases hd with hd | hd | hd | hd <;> omega

/-- The inverse computation of `daysFromCivil` on the intermediate values of
`civilFromDays`. -/
theorem daysFromCivil_core (era yoe doy mp k : Int) (hy0 : 0 ≤ yoe) (hy1 : yoe ≤ 399)
    (hm0 : 0 ≤ mp) (hm1 : mp ≤ 11) :
    daysFromCivil
        (if (if mp < 10 then mp + 3 else mp - 9) ≤ 2 then yoe + era * 400 + 1
          else yoe + era * 400)
        (if mp < 10 then mp + 3 else mp - 9)
        (doy - (153 * mp + 2) / 5 + 1 + k)
      = era * 146097 + (yoe * 365 + yoe / 4 - yoe / 100 + doy) - 719468 + k := by
  have h1 : (yoe + era * 400) / 400 = era := by omega
  have h2 : yoe + era * 400 - era * 400 = yoe := by omega
  simp only [daysFromCivil]
  split_ifs <;> simp only [add_sub_cancel_right, h1, h2] <;> omega

/-- The day number of the civil date of a day number, with the day of the
month moved by `k`, is that day number moved by `k`. -/
theorem daysFromCivil_civilFromDays (z k : Int) :
    daysFromCivil (civilFromDays z).1 (civilFromDays z).2.1 ((civilFromDays z).2.2 + k)
      = z + k := by
  have hdoe0 : 0 ≤ z + 719468 - (z + 719468) / 146097 * 146097 := by omega
  have hdoe1 : z + 719468 - (z + 719468) / 146097 * 146097 ≤ 146096 := by omega
  obtain ⟨hy0, hy1⟩ := yoe_range _ hdoe0 hdoe1
  obtain ⟨hd0, hd1⟩ := doy_range _ hdoe0 hdoe1
  simp only [civilFromDays]
  rw [daysFromCivil_core _ _ _ _ k hy0 hy1 (by omega) (by omega)]
  omega

/-- The same month and day one year earlier lies 365 or 366 days back. -/
theorem daysFromCivil_pred_year (y m d : Int) :
    daysFromCivil (y - 1) m d = daysFromCivil y m d - 365 ∨
    daysFromCivil (y - 1) m d = daysFromCivil y m d - 366 := by
  simp only [daysFromCivil]
  split_ifs <;> omega

/-- Moving the day of the month of a time value back by `k` moves the time
value back by `k` days; the time of day is kept. -/
theorem makeDate_dateFromTime_sub (t : Date) (k : Int) :
    makeDate (yearFromTime t) (monthFromTime t) (dateFromTime t - k) (timeWithinDay t)
      = t - k * msPerDay := by
  have h := daysFromCivil_civilFromDays (dayOf t) (-k)
  simp only [makeDate, yearFromTime, monthFromTime, dateFromTime, sub_eq_add_neg, h]
  simp only [dayOf, timeWithinDay, msPerDay]
  change (_ : Int) = _
  omega

/-- Moving the year of a time value back by one moves the time value back by
365 or by 366 days; the time of day is kept. -/
theorem makeDate_pred_year (t : Date) :
    makeDate (yearFromTime t - 1) (monthFromTime t) (dateFromTime t) (timeWithinDay t)
        = t - 365 * msPerDay ∨
    makeDate (yearFromTime t - 1) (monthFromTime t) (dateFromTime t) (timeWithinDay t)
        = t - 366 * msPerDay := by
  have h := daysFromCivil_civilFromDays (dayOf t) 0
  simp only [add_zero] at h
  have hp := daysFromCivil_pred_year (civilFromDays (dayOf t)).1 (civilFromDays (dayOf t)).2.1
    (civilFromDays (dayOf t)).2.2
  rw [h] at hp
  simp only [makeDate, yearFromTime, monthFromTime, dateFromTime]
  rcases hp with hp | hp
  · left
    rw [hp]
    simp only [dayOf, timeWithinDay, msPerDay]
    change (_ : Int) = _
    omega
  · right
    rw [hp]
    simp only [dayOf, timeWithinDay, msPerDay]
    change (_ : Int) = _
    omega

/-- The method `setDate` with the day of the month of the same instant moved
back by `k`: `k` days back on the local clock, read in the offset of that
local time. -/
theorem setDate_getDate_sub (zone : Zone) (t : Date) (k : Int) :
    setDate zone t (getDate zone t - k)
      = localTime zone t - k * msPerDay - zone.atLocal (localTime zone t - k * msPerDay) := by
  simp only [setDate, getDate, utcOfLocal, makeDate_dateFromTime_sub]

/-- When the offset of the local time `k` days back is the offset of the
instant itself, `setDate` moves the instant back by exactly `k` days. -/
theorem setDate_getDate_sub_of_offset (zone : Zone) (t : Date) (k : Int)
    (h : zone.atLocal (localTime zone t - k * msPerDay) = zone.atUtc t) :
    setDate zone t (getDate zone t - k) = t - k * msPerDay := by
  rw [setDate_getDate_sub, h]
  simp only [localTime]
  change (_ : Int) = _
  omega

/-- When the offsets of the local times 365 and 366 days back are the offset
of the instant itself, `setFullYear` with the year before moves the instant
back by exactly 365 or exactly 366 days. -/
theorem setFullYear_pred (zone : Zone) (t : Date)
    (h365 : zone.atLocal (localTime zone t - 365 * msPerDay) = zone.atUtc t)
    (h366 : zone.atLocal (localTime zone t - 366 * msPerDay) = zone.atUtc t) :
    setFullYear zone t (getFullYear zone t - 1) = t - 365 * msPerDay ∨
    setFullYear zone t (getFullYear zone t - 1) = t - 366 * msPerDay := by
  simp only [setFullYear, getFullYear, utcOfLocal]
  rcases makeDate_pred_year (localTime zone t) with hp | hp
  · left
    rw [hp, h365]
    simp only [localTime]
    change (_ : Int) = _
    omega
  · right
    rw [hp, h366]
    simp only [localTime]
    change (_ : Int) = _
    omega

/-- Claim C11, as stated, fails in three ways.  For `'1year'` at noon of
2024-06-01 (UTC, one clock reading) the window starts 366 days earlier, not
365.  On a server in New York, `'30days'` at 2025-11-05T08:00Z starts 30 days
and one hour earlier, because daylight saving time ended in between.  And when
the second clock reading is one millisecond after the first, the window of
`'7days'` is one millisecond short of 7 days. -/
theorem getDateRange_not_exact :
    getDateRange utc leapNow leapNow "1year" = (leapNow - 366 * msPerDay, leapNow) ∧
    dateToString (getDateRange utc leapNow leapNow "1year").1 = "2023-06-01" ∧
    dateToString leapNow = "2024-06-01" ∧
    (getDateRange utc leapNow leapNow "1year").1 ≠ leapNow - 365 * msPerDay ∧
    getDateRange newYork sampleEnv.now sampleEnv.now "30days"
      = (sampleEnv.now - 30 * msPerDay - 3600000, sampleEnv.now) ∧
    getDateRange utc sampleEnv.now (sampleEnv.now + 1) "7days"
      = (sampleEnv.now - 7 * msPerDay + 1, sampleEnv.now) := by
  decide

/-- Claim C11, amended: `getDateRange` returns as `endDate` its first clock
reading.  When both clock readings are the same instant `now` and the offset
of the server's zone at the local time `N` days before `now` is its offset at
`now`, `startDate` is `now` minus exactly `N` days, with `N` = 7, 30 and 90 for
`'7days'`, `'30days'` and `'90days'` and `N` = 30 for `'custom'` and every other
string; `'custom'` gives what `'30days'` gives.  For `'1year'`, `startDate` is
`setFullYear` of the previous year: the same local month, day and time of day
one calendar year earlier (the day normalised, so that 29 February becomes
1 March), which under the same condition for 365 and 366 days is `now` minus
365 or minus 366 days. -/
theorem getDateRange_spec (zone : Zone) (now : Date) (period : String) :
    (∀ startNow, (getDateRange zone now startNow period).2 = now) ∧
    (period = "7days" → zone.atLocal (localTime zone now - 7 * msPerDay) = zone.atUtc now →
      (getDateRange zone now now period).1 = now - 7 * msPerDay) ∧
    (period = "30days" → zone.atLocal (localTime zone now - 30 * msPerDay) = zone.atUtc now →
      (getDateRange zone now now period).1 = now - 30 * msPerDay) ∧
    (period = "90days" → zone.atLocal (localTime zone now - 90 * msPerDay) = zone.atUtc now →
      (getDateRange zone now now period).1 = now - 90 * msPerDay) ∧
    (period = "1year" →
      (getDateRange zone now now period).1 = setFullYear zone now (getFullYear zone now - 1) ∧
      (zone.atLocal (localTime zone now - 365 * msPerDay) = zone.atUtc now →
        zone.atLocal (localTime zone now - 366 * msPerDay) = zone.atUtc now →
        (getDateRange zone now now period).1 = now - 365 * msPerDay ∨
          (getDateRange zone now now period).1 = now - 366 * msPerDay)) ∧
    (period ≠ "7days" → period ≠ "30days" → period ≠ "90days" → period ≠ "1year" →
      zone.atLocal (localTime zone now - 30 * msPerDay) = zone.atUtc now →
      (getDateRange zone now now period).1 = now - 30 * msPerDay) ∧
    (∀ startNow, getDateRange zone now startNow "custom"
      = getDateRange zone now startNow "30days") := by
  refine ⟨fun _ => rfl, ?_, ?_, ?_, ?_, ?_, ?_⟩
  · rintro rfl h
    simp [getDateRange, setDate_getDate_sub_of_offset zone now 7 h]
  · rintro rfl h
    simp [getDateRange, setDate_getDate_sub_of_offset zone now 30 h]
  · rintro rfl h
    simp [getDateRange, setDate_getDate_sub_of_offset zone now 90 h]
  · rintro rfl
    refine ⟨by simp [getDateRange], fun h365 h366 => ?_⟩
    have := setFullYear_pred zone now h365 h366
    simpa [getDateRange] using this
  · intro h7 h30 h90 h1 h
    simp [getDateRange, h7, h30, h90, h1, setDate_getDate_sub_of_offset zone now 30 h]
  · intro startNow
    simp [getDateRange]

/-- The windows of `sampleEnv`, on a server in UTC: 30 days for an unknown
period, and the year before 2025-11-05, which has 365 days. -/
theorem getDateRange_spec_witness :
    (getDateRange utc sampleEnv.now sampleEnv.now "weekly").1
      = sampleEnv.now - 30 * msPerDay ∧
    ((getDateRange utc sampleEnv.now sampleEnv.now "1year").1
        = sampleEnv.now - 365 * msPerDay ∨
      (getDateRange utc sampleEnv.now sampleEnv.now "1year").1
        = sampleEnv.now - 366 * msPerDay) :=
  ⟨(getDateRange_spec utc sampleEnv.now "weekly").2.2.2.2.2.1 (by decide) (by decide) (by decide)
      (by decide) rfl,
    ((getDateRange_spec utc sampleEnv.now "1year").2.2.2.2.1 rfl).2 rfl rfl⟩

/-! ## A normal form of `updateAnalytics` -/

/-- The record handed to `save` is `snapshotOf` with the `_id` of the row
found or of the new record; nothing else of the store enters it. -/
theorem derive_extracted_prepare (db : Db) (env : Env) (s : Store) (userId : UserId)
    (period : String) :
    derive
        (extracted db env.faults.financialOverview env.faults.paymentMethods userId
          (prepare s env.now userId.cast period (findOne s userId.cast period)
            (getDateRange env.zone env.now env.startNow period))
          (getDateRange env.zone env.now env.startNow period))
        env.stamp
      = { snapshotOf db env userId period with _id := idFor s userId.cast period } := by
  unfold idFor snapshotOf
  cases hfound : findOne s userId.cast period with
  | none =>
    cases userId <;> cases env.faults.financialOverview <;> cases env.faults.paymentMethods <;>
      rfl
  | some e =>
    have he := List.find?_some hfound
    simp only [Bool.and_eq_true, decide_eq_true_eq] at he
    obtain ⟨hu, _⟩ := he
    cases userId <;> simp only [UserId.cast] at hu <;> subst hu <;>
      cases env.faults.financialOverview <;> cases env.faults.paymentMethods <;> rfl

/-- Validation does not read the `_id`. -/
theorem validate_with_id (a : Analytics) (n : Nat) : validate { a with _id := n } = validate a :=
  rfl

/-- The normal form of `updateAnalytics`: which calls reject it, and what it
returns, stores and emits otherwise. -/
theorem updateAnalytics_eq (db : Db) (env : Env) (s : Store) (userId : UserId)
    (period : String) :
    updateAnalytics db env s userId period =
      if env.faults.findOne || unguardedFault env.faults then .error .queryFailed
      else if !validate (snapshotOf db env userId period) then .error .validationFailed
      else if env.faults.save then .error .saveFailed
      else .ok
        { analytics := { snapshotOf db env userId period with _id := idFor s userId.cast period }
          store := savedStore s userId.cast period
            { snapshotOf db env userId period with _id := idFor s userId.cast period }
          events := [Event.update (toString userId) period env.stamp] } := by
  unfold updateAnalytics
  cases hf : env.faults.findOne with
  | true => simp [bind, Except.bind]
  | false =>
    simp only [bind, Except.bind, pure, Except.pure, Bool.false_eq_true, if_false,
      Bool.false_or, calculateAll_eq]
    cases hu : unguardedFault env.faults with
    | true => simp
    | false =>
      simp only [Bool.false_eq_true, if_false, derive_extracted_prepare, save, validate_with_id,
        savedStore]
      cases hv : validate (snapshotOf db env userId period) with
      | false => simp
      | true =>
        cases hs : env.faults.save with
        | true => simp
        | false =>
          cases hn : (findOne s userId.cast period).isNone <;> simp <;> rfl

/-! ## Stale data and the read path -/

/-- The sample run on a store that holds a stale snapshot. -/
theorem updateAnalytics_stale_sample :
    updateAnalytics sampleDb sampleEnv [staleSnapshot] 1 "30days" = .ok staleOutcome := by
  with_unfolding_all rfl

/-- Whether `updateAnalytics` resolves, and with which snapshot apart from the
`_id`, does not depend on the store. -/
theorem updateAnalytics_any_store {db : Db} {env : Env} {s : Store} {userId : UserId}
    {period : String} {out : Outcome} (h : updateAnalytics db env s userId period = .ok out)
    (s' : Store) :
    out.analytics = { snapshotOf db env userId period with _id := out.analytics._id } ∧
    ∃ out', updateAnalytics db env s' userId period = .ok out' ∧
      { out.analytics with _id := out'.analytics._id } = out'.analytics := by
  rw [updateAnalytics_eq] at h
  rw [updateAnalytics_eq]
  split at h
  · cases h
  · split at h
    · cases h
    · split at h
      · cases h
      · rename_i h1 h2 h3
        cases h
        rw [if_neg h1, if_neg h2, if_neg h3]
        exact ⟨rfl, _, rfl, rfl⟩

/-- Claim C12: a successful `updateAnalytics` on a store that holds a snapshot
for the user and period, whatever its field values, returns what it returns
on any other store (in particular one without such a snapshot), apart from
the `_id`: all metric fields, `netProfit`, `dateRange`, `userId` and
`lastUpdated` are those of `snapshotOf`, which is computed from the source
rows, the swallowed faults and the clock. -/
theorem updateAnalytics_no_stale_data (db : Db) (env : Env) (s : Store) (userId : UserId)
    (period : String) (existing : Analytics) (out : Outcome)
    (hfound : findOne s userId.cast period = some existing)
    (h : updateAnalytics db env s userId period = .ok out) :
    out.analytics = { snapshotOf db env userId period with _id := existing._id } ∧
    ∀ s', findOne s' userId.cast period = none →
      ∃ out', updateAnalytics db env s' userId period = .ok out' ∧
        { out.analytics with _id := out'.analytics._id } = out'.analytics := by
  have hid : out.analytics._id = existing._id := by
    rw [updateAnalytics_eq] at h
    split at h
    · cases h
    · split at h
      · cases h
      · split at h
        · cases h
        · cases h
          simp [idFor, hfound]
  obtain ⟨h1, _⟩ := updateAnalytics_any_store h s
  refine ⟨hid ▸ h1, fun s' _ => (updateAnalytics_any_store h s').2⟩

/-- The sample run on the stale store returns the sample snapshot: none of the
stale values survives. -/
theorem updateAnalytics_no_stale_data_witness :
    staleOutcome.analytics
        = { snapshotOf sampleDb sampleEnv 1 "30days" with _id := staleSnapshot._id } ∧
    ∃ out', updateAnalytics sampleDb sampleEnv [] 1 "30days" = .ok out' ∧
      { staleOutcome.analytics with _id := out'.analytics._id } = out'.analytics :=
  have h := updateAnalytics_no_stale_data sampleDb sampleEnv [staleSnapshot] 1 "30days"
    staleSnapshot staleOutcome (by decide) updateAnalytics_stale_sample
  ⟨h.1, h.2 [] rfl⟩

/-- Claim C13: whenever the `updateAnalytics` call of `getAnalytics` succeeds,
`getAnalytics` returns exactly its snapshot and leaves the store (and the
events) exactly as `updateAnalytics` does; the result is the recomputed
snapshot whatever the store held before, up to the `_id`. -/
theorem getAnalytics_always_recomputes (db : Db) (env : Env) (emptySaveFails : Bool)
    (emptyNow : Date) (s : Store) (userId : UserId) (period : String) (out : Outcome)
    (h : updateAnalytics db env s userId period = .ok out) :
    getAnalytics db false env emptySaveFails emptyNow s userId period = .ok out ∧
    out.analytics = { snapshotOf db env userId period with _id := out.analytics._id } ∧
    ∀ s', ∃ out', getAnalytics db false env emptySaveFails emptyNow s' userId period = .ok out' ∧
      { out.analytics with _id := out'.analytics._id } = out'.analytics := by
  refine ⟨by simp [getAnalytics, h], (updateAnalytics_any_store h s).1, fun s' => ?_⟩
  obtain ⟨out', h', heq⟩ := (updateAnalytics_any_store h s').2
  exact ⟨out', by simp [getAnalytics, h'], heq⟩

/-- The read of the sample on the stale store returns the recomputed sample
snapshot. -/
theorem getAnalytics_always_recomputes_witness :
    getAnalytics sampleDb false sampleEnv false 0 [staleSnapshot] 1 "30days"
      = .ok staleOutcome ∧
    staleOutcome.analytics
      = { snapshotOf sampleDb sampleEnv 1 "30days" with _id := staleOutcome.analytics._id } ∧
    ∃ out', getAnalytics sampleDb false sampleEnv false 0 [] 1 "30days" = .ok out' ∧
      { staleOutcome.analytics with _id := out'.analytics._id } = out'.analytics :=
  have h := getAnalytics_always_recomputes sampleDb sampleEnv false 0 [staleSnapshot] 1 "30days"
    staleOutcome updateAnalytics_stale_sample
  ⟨h.1, h.2.1, h.2.2 []⟩

/-! ## Persistence, events and the bulk trigger -/

/-- Claim C14: when the save of `updateAnalytics` fails (validation or write),
`updateAnalytics` rejects with that error and has emitted no event; when
`updateAnalytics` resolves, the returned store is the one its save produced
and exactly one `'analytics:update'` event was emitted, carrying the user id
as a string, the period and the `lastUpdated` of the returned snapshot. -/
theorem updateAnalytics_save_and_event (db : Db) (env : Env) (s : Store) (userId : UserId)
    (period : String) :
    (∀ a e, env.faults.findOne = false →
      calculateAll db env.faults userId
        (prepare s env.now userId.cast period (findOne s userId.cast period)
          (getDateRange env.zone env.now env.startNow period))
        (getDateRange env.zone env.now env.startNow period) = .ok a →
      save env.faults.save (findOne s userId.cast period).isNone (derive a env.stamp) s = .error e →
      updateAnalytics db env s userId period = .error e ∧
        emitted (updateAnalytics db env s userId period) = []) ∧
    (env.faults.save = true →
      (updateAnalytics db env s userId period).toBool = false ∧
        emitted (updateAnalytics db env s userId period) = []) ∧
    (∀ out, updateAnalytics db env s userId period = .ok out →
      save env.faults.save (findOne s userId.cast period).isNone out.analytics s = .ok out.store ∧
      out.events = [Event.update (toString userId) period out.analytics.lastUpdated] ∧
      emitted (updateAnalytics db env s userId period) = out.events) := by
  refine ⟨?_, ?_, ?_⟩
  · intro a e hf ha hs
    have : updateAnalytics db env s userId period = .error e := by
      unfold updateAnalytics
      simp only [hf, bind, Except.bind, pure, Except.pure, Bool.false_eq_true, if_false, ha, hs]
    simp [this, emitted]
  · intro hs
    rw [updateAnalytics_eq]
    split
    · simp [emitted, Except.toBool]
    · split
      · simp [emitted, Except.toBool]
      · simp [hs, emitted, Except.toBool]
  · intro out h
    obtain ⟨_, a, _, hout, hsave, hev⟩ := updateAnalytics_ok_inv h
    refine ⟨hout ▸ hsave, ?_, by simp [h, emitted]⟩
    rw [hev, hout]
    rfl

/-- The sample run stored its snapshot and emitted one event for user `"1"`,
period `30days`, stamped like the snapshot. -/
theorem updateAnalytics_save_and_event_witness :
    save sampleEnv.faults.save (findOne [] 1 "30days").isNone sampleOutcome.analytics []
      = .ok sampleOutcome.store ∧
    sampleOutcome.events = [Event.update (toString 1) "30days" sampleOutcome.analytics.lastUpdated] ∧
    emitted (updateAnalytics sampleDb sampleEnv [] 1 "30days") = sampleOutcome.events :=
  (updateAnalytics_save_and_event sampleDb sampleEnv [] 1 "30days").2.2 sampleOutcome
    updateAnalytics_sample

/-- Claim C15: the promise returned by `triggerUpdate` resolves, whichever of
the three recomputes reject. -/
theorem triggerUpdate_never_rejects (db : Db) (env7 env30 env90 : Env) (s : Store)
    (userId : UserId) :
    triggerUpdatePromise db env7 env30 env90 s userId = .ok () := by
  unfold triggerUpdatePromise
  simp only []
  cases awaitAll (updateAnalytics db env7 s userId "7days")
      (updateAnalytics db env30 (storeAfter (updateAnalytics db env7 s userId "7days") s) userId
        "30days")
      (updateAnalytics db env90
        (storeAfter
          (updateAnalytics db env30 (storeAfter (updateAnalytics db env7 s userId "7days") s)
            userId "30days")
          (storeAfter (updateAnalytics db env7 s userId "7days") s))
        userId "90days") <;> rfl

/-- A resolved `updateAnalytics` emitted one `'analytics:update'` event for
its user and period, a rejected one none. -/
theorem emitted_updateAnalytics (db : Db) (env : Env) (s : Store) (userId : UserId)
    (period : String) :
    emitted (updateAnalytics db env s userId period)
      = if (updateAnalytics db env s userId period).toBool then
          [Event.update (toString userId) period env.stamp]
        else [] := by
  cases h : updateAnalytics db env s userId period with
  | error e => rfl
  | ok out =>
    obtain ⟨_, _, _, _, _, hev⟩ := updateAnalytics_ok_inv h
    simp [emitted, Except.toBool, hev]

/-- The three recomputes all resolved exactly when their `Promise.all` did. -/
theorem awaitAll_toBool (r7 r30 r90 : Except Err Outcome) :
    (awaitAll r7 r30 r90).toBool = (r7.toBool && r30.toBool && r90.toBool) := by
  cases r7 <;> cases r30 <;> cases r90 <;> rfl

/-- Claim C16: `triggerUpdate` runs `updateAnalytics` for `'7days'`, `'30days'`
and `'90days'` and for nothing else: its store is the one the three calls
leave in turn, and its events are their `'analytics:update'` events followed
by one `'analytics:bulkUpdate'` event, with the user id and the three
periods, exactly when all three calls resolved; when one of them rejected
there is no bulk event. -/
theorem triggerUpdate_spec (db : Db) (env7 env30 env90 : Env) (bulkStamp : Date) (s : Store)
    (userId : UserId) :
    let r7 := updateAnalytics db env7 s userId "7days"
    let r30 := updateAnalytics db env30 (storeAfter r7 s) userId "30days"
    let r90 := updateAnalytics db env90 (storeAfter r30 (storeAfter r7 s)) userId "90days"
    let out := triggerUpdate db env7 env30 env90 bulkStamp s userId
    out.1 = storeAfter r90 (storeAfter r30 (storeAfter r7 s)) ∧
    out.2.filter (fun ev => !ev.isBulk)
      = (if r7.toBool then [Event.update (toString userId) "7days" env7.stamp] else [])
        ++ (if r30.toBool then [Event.update (toString userId) "30days" env30.stamp] else [])
        ++ (if r90.toBool then [Event.update (toString userId) "90days" env90.stamp] else []) ∧
    out.2.filter Event.isBulk
      = (if (awaitAll r7 r30 r90).toBool then
          [Event.bulkUpdate (toString userId) ["7days", "30days", "90days"] bulkStamp]
        else []) ∧
    ((out.2.filter Event.isBulk).length = 1 ↔
      (r7.toBool = true ∧ r30.toBool = true ∧ r90.toBool = true)) := by
  intro r7 r30 r90 out
  have hs : out.1 = storeAfter r90 (storeAfter r30 (storeAfter r7 s)) := by
    show (triggerUpdate db env7 env30 env90 bulkStamp s userId).1 = _
    unfold triggerUpdate
    rfl
  have he : out.2 = emitted r7 ++ emitted r30 ++ emitted r90
      ++ (if r7.toBool && r30.toBool && r90.toBool then
            [Event.bulkUpdate (toString userId) ["7days", "30days", "90days"] bulkStamp]
          else []) := by
    show (triggerUpdate db env7 env30 env90 bulkStamp s userId).2 = _
    unfold triggerUpdate
    rfl
  have e7 := emitted_updateAnalytics db env7 s userId "7days"
  have e30 := emitted_updateAnalytics db env30 (storeAfter r7 s) userId "30days"
  have e90 := emitted_updateAnalytics db env90 (storeAfter r30 (storeAfter r7 s)) userId "90days"
  refine ⟨hs, ?_, ?_, ?_⟩
  · rw [he]
    show List.filter _ (emitted r7 ++ emitted r30 ++ emitted r90 ++ _) = _
    rw [show emitted r7 = _ from e7, show emitted r30 = _ from e30,
      show emitted r90 = _ from e90]
    cases r7.toBool <;> cases r30.toBool <;> cases r90.toBool <;> simp [Event.isBulk]
  · rw [he, awaitAll_toBool]
    rw [show emitted r7 = _ from e7, show emitted r30 = _ from e30,
      show emitted r90 = _ from e90]
    cases r7.toBool <;> cases r30.toBool <;> cases r90.toBool <;> simp [Event.isBulk]
  · rw [he]
    rw [show emitted r7 = _ from e7, show emitted r30 = _ from e30,
      show emitted r90 = _ from e90]
    cases r7.toBool <;> cases r30.toBool <;> cases r90.toBool <;> simp [Event.isBulk]

/-! ## The purge -/

/-- Claim C17: a resolved `clearAnalytics(userId)` leaves a store without any
row of that user, for whatever period; the rows of every other user are all
still there, unchanged and in the same order; the `deletedCount` is the number
of rows removed, which is the number of rows of that user; and no event was
emitted. -/
theorem clearAnalytics_spec (fails : Bool) (s : Store) (userId : UserId) (out : ClearOutcome)
    (h : clearAnalytics fails s userId = .ok out) :
    (∀ a ∈ out.store, a.userId ≠ userId.cast) ∧
    (∀ a ∈ s, a.userId ≠ userId.cast → a ∈ out.store) ∧
    out.store = s.filter (fun a => decide (a.userId ≠ userId.cast)) ∧
    out.store.Sublist s ∧
    out.deletedCount + out.store.length = s.length ∧
    out.deletedCount = s.countP (fun a => decide (a.userId = userId.cast)) ∧
    out.events = [] := by
  unfold clearAnalytics at h
  split at h
  · cases h
  · cases h
    have hfil : (s.filter fun a => !decide (a.userId = userId.cast))
        = s.filter (fun a => decide (a.userId ≠ userId.cast)) := by
      congr 1
      funext a
      simp
    refine ⟨?_, ?_, hfil, List.filter_sublist s, ?_, ?_, rfl⟩
    · intro a ha
      simpa using (List.mem_filter.mp ha).2
    · intro a ha hne
      exact List.mem_filter.mpr ⟨ha, by simpa using hne⟩
    · exact (List.length_eq_length_filter_add (fun a : Analytics =>
        decide (a.userId = userId.cast))).symm
    · exact (List.countP_eq_length_filter _ s).symm

/-- The purge of user 1 on a store with two rows of user 1 and one of user 2. -/
theorem clearAnalytics_spec_witness :
    clearAnalytics false twoUserStore 1
      = .ok { deletedCount := 2, store := [{ sampleSnapshot with _id := 2, userId := 2 }],
              events := [] } ∧
    ((∀ a ∈ [{ sampleSnapshot with _id := 2, userId := 2 }], a.userId ≠ 1) ∧
      (∀ a ∈ twoUserStore, a.userId ≠ 1 → a ∈ [{ sampleSnapshot with _id := 2, userId := 2 }]) ∧
      [{ sampleSnapshot with _id := 2, userId := 2 }]
        = twoUserStore.filter (fun a => decide (a.userId ≠ 1)) ∧
      [{ sampleSnapshot with _id := 2, userId := 2 }].Sublist twoUserStore ∧
      2 + [{ sampleSnapshot with _id := 2, userId := 2 }].length = twoUserStore.length ∧
      2 = twoUserStore.countP (fun a => decide (a.userId = 1)) ∧
      ([] : List Event) = []) :=
  have h : clearAnalytics false twoUserStore 1
      = .ok { deletedCount := 2, store := [{ sampleSnapshot with _id := 2, userId := 2 }],
              events := [] } := by with_unfolding_all rfl
  ⟨h, clearAnalytics_spec false twoUserStore 1 _ h⟩

/-! ## Tenant isolation -/

/-- Filtering on the owner first does not change a `$match` on the owner. -/
theorem filter_owner_filter {α : Type} (owner : α → ObjectId) (q : α → Bool)
    (userId : ObjectId) (l : List α) :
    (l.filter fun x => decide (owner x = userId)).filter
        (fun x => decide (owner x = userId) && q x)
      = l.filter fun x => decide (owner x = userId) && q x := by
  rw [List.filter_filter]
  congr 1
  funext x
  cases decide (owner x = userId) <;> simp

/-- Filtering on the owner twice is filtering once. -/
theorem filter_owner_idem {α : Type} (owner : α → ObjectId) (userId : ObjectId) (l : List α) :
    (l.filter fun x => decide (owner x = userId)).filter (fun x => decide (owner x = userId))
      = l.filter fun x => decide (owner x = userId) := by
  rw [List.filter_filter]
  congr 1
  funext x
  cases decide (owner x = userId) <;> simp

/-- The `$match` on invoices for an `ObjectId` reads the rows of the user only. -/
theorem matchInvoices_ownRows_objectId (db : Db) (id : ObjectId) (dateRange : Date × Date) :
    matchInvoices (ownRows db id) (.objectId id) dateRange
      = matchInvoices db (.objectId id) dateRange :=
  filter_owner_filter (fun i : Invoice => i.userId) (fun i => inWindow dateRange i.createdAt)
    id db.invoices

/-- The `$match` on payments for an `ObjectId` reads the rows of the user only. -/
theorem matchPayments_ownRows_objectId (db : Db) (id : ObjectId) (dateRange : Date × Date) :
    matchPayments (ownRows db id) (.objectId id) dateRange
      = matchPayments db (.objectId id) dateRange :=
  filter_owner_filter (fun p : Payment => p.userId) (fun p => inWindow dateRange p.paymentDate)
    id db.payments

/-- The `$match` on invoices for a string matches no row. -/
theorem matchInvoices_string (db : Db) (hex : ObjectId) (dateRange : Date × Date) :
    matchInvoices db (.string hex) dateRange = [] := by
  simp [matchInvoices, UserId.matches]

/-- The `$match` on payments for a string matches no row. -/
theorem matchPayments_string (db : Db) (hex : ObjectId) (dateRange : Date × Date) :
    matchPayments db (.string hex) dateRange = [] := by
  simp [matchPayments, UserId.matches]

/-- The `$match` on invoices reads the rows of the user only. -/
theorem matchInvoices_ownRows (db : Db) (userId : UserId) (dateRange : Date × Date) :
    matchInvoices (ownRows db userId.cast) userId dateRange
      = matchInvoices db userId dateRange := by
  cases userId with
  | objectId id => exact matchInvoices_ownRows_objectId db id dateRange
  | string hex => rw [matchInvoices_string, matchInvoices_string]

/-- The `$match` on payments reads the rows of the user only. -/
theorem matchPayments_ownRows (db : Db) (userId : UserId) (dateRange : Date × Date) :
    matchPayments (ownRows db userId.cast) userId dateRange
      = matchPayments db userId dateRange := by
  cases userId with
  | objectId id => exact matchPayments_ownRows_objectId db id dateRange
  | string hex => rw [matchPayments_string, matchPayments_string]

/-- The eight extractors read the rows of the user only. -/
theorem extracted_ownRows (db : Db) (fo pm : Bool) (userId : UserId) (a : Analytics)
    (dateRange : Date × Date) :
    extracted (ownRows db userId.cast) fo pm userId a dateRange
      = extracted db fo pm userId a dateRange := by
  have hp : purchasesTotal (ownRows db userId.cast) userId.cast dateRange
      = purchasesTotal db userId.cast dateRange := by
    unfold purchasesTotal
    exact congrArg (fun l : List Purchase => (l.map fun p => p.totalAmount).sum)
      (filter_owner_filter (fun p : Purchase => p.userId)
        (fun p => inWindow dateRange p.createdAt) userId.cast db.purchases)
  have he : expensesTotal (ownRows db userId.cast) userId.cast dateRange
      = expensesTotal db userId.cast dateRange := by
    unfold expensesTotal
    exact congrArg (fun l : List Expense => (l.map fun e => e.amount).sum)
      (filter_owner_filter (fun e : Expense => e.userId)
        (fun e => inWindow dateRange e.createdAt) userId.cast db.expenses)
  have hk : kpisOf (ownRows db userId.cast) userId dateRange = kpisOf db userId dateRange := by
    unfold kpisOf
    simp only [matchInvoices_ownRows]
    have hc := filter_owner_idem (fun c : Customer => c.userId) userId.cast db.customers
    have hi := filter_owner_idem (fun i : Item => i.userId) userId.cast db.items
    have hn := filter_owner_filter (fun i : Invoice => i.userId)
      (fun i => inWindow dateRange i.createdAt) userId.cast db.invoices
    simp only [ownRows, hc, hi, hn]
  unfold extracted
  simp only [salesTotal, paymentMethodsOf, paymentMethodsAgg, salesByDateOf, salesByDateAgg,
    topProductsOf, topProductsAgg, topCustomersOf, topCustomersAgg, paymentFlowOf,
    dailyPaymentsOf, dailyPaymentsAgg, matchInvoices_ownRows, matchPayments_ownRows,
    matchInvoices_ownRows_objectId, matchPayments_ownRows_objectId, hp, he, hk]

/-- A run of `updateAnalytics` reads the rows of the user only. -/
theorem updateAnalytics_ownRows (db : Db) (env : Env) (s : Store) (userId : UserId)
    (period : String) :
    updateAnalytics (ownRows db userId.cast) env s userId period
      = updateAnalytics db env s userId period := by
  have hsnap : snapshotOf (ownRows db userId.cast) env userId period
      = snapshotOf db env userId period := by
    unfold snapshotOf
    rw [extracted_ownRows]
  rw [updateAnalytics_eq, updateAnalytics_eq, hsnap]

/-- Claim C18: two runs of `updateAnalytics(u, period)`, for `u` an `ObjectId`
or the string that spells it, at the same clock, on
the same store and with the same faults, over source collections that agree on
the rows of user `u` and differ arbitrarily on the rows of other users, have
the same result: the same snapshot (all metric fields included), store and
events, or the same rejection. -/
theorem updateAnalytics_tenant_isolation (db₁ db₂ : Db) (env : Env) (s : Store)
    (userId : UserId) (period : String) (h : ownRows db₁ userId.cast = ownRows db₂ userId.cast) :
    updateAnalytics db₁ env s userId period = updateAnalytics db₂ env s userId period := by
  rw [← updateAnalytics_ownRows db₁, ← updateAnalytics_ownRows db₂, h]

/-- The sample with and without the rows of user 2. -/
theorem updateAnalytics_tenant_isolation_witness :
    ownRows noisyDb 1 = ownRows sampleDb 1 ∧
    updateAnalytics noisyDb sampleEnv [] 1 "30days"
      = updateAnalytics sampleDb sampleEnv [] 1 "30days" :=
  have h : ownRows noisyDb 1 = ownRows sampleDb 1 := by with_unfolding_all rfl
  ⟨h, updateAnalytics_tenant_isolation noisyDb sampleDb sampleEnv [] 1 "30days" h⟩

/-! ## Financial overview and payment methods -/

/-- The sample run of `calculateFinancialOverview`. -/
theorem calculateFinancialOverview_sample :
    calculateFinancialOverview sampleDb false 1 blank sampleWindow = .ok sampleOverview := by
  with_unfolding_all rfl

/-- For an `ObjectId`: with its queries answered, `calculateFinancialOverview` sets
`totalSales` to the sum of `totalAmount` over the invoices of the user with
`startDate ≤ createdAt ≤ endDate`, `totalPurchases` to the same sum over the
purchases and `totalExpenses` to the sum of `amount` over the expenses in the
same window; a total is `0` when no row matches; no other field changes. -/
theorem calculateFinancialOverview_objectId (db : Db) (userId : ObjectId) (a a' : Analytics)
    (dateRange : Date × Date)
    (h : calculateFinancialOverview db false (.objectId userId) a dateRange = .ok a') :
    a'.totalSales
      = ((db.invoices.filter fun i => decide (i.userId = userId ∧
          dateRange.1 ≤ i.createdAt ∧ i.createdAt ≤ dateRange.2)).map fun i => i.totalAmount).sum ∧
    a'.totalPurchases
      = ((db.purchases.filter fun p => decide (p.userId = userId ∧
          dateRange.1 ≤ p.createdAt ∧ p.createdAt ≤ dateRange.2)).map fun p => p.totalAmount).sum ∧
    a'.totalExpenses
      = ((db.expenses.filter fun e => decide (e.userId = userId ∧
          dateRange.1 ≤ e.createdAt ∧ e.createdAt ≤ dateRange.2)).map fun e => e.amount).sum ∧
    ((∀ i ∈ db.invoices, ¬ (i.userId = userId ∧
        dateRange.1 ≤ i.createdAt ∧ i.createdAt ≤ dateRange.2)) → a'.totalSales = 0) ∧
    ((∀ p ∈ db.purchases, ¬ (p.userId = userId ∧
        dateRange.1 ≤ p.createdAt ∧ p.createdAt ≤ dateRange.2)) → a'.totalPurchases = 0) ∧
    ((∀ e ∈ db.expenses, ¬ (e.userId = userId ∧
        dateRange.1 ≤ e.createdAt ∧ e.createdAt ≤ dateRange.2)) → a'.totalExpenses = 0) ∧
    { a' with totalSales := a.totalSales, totalPurchases := a.totalPurchases,
              totalExpenses := a.totalExpenses } = a := by
  have hpred : ∀ (owner : ObjectId) (t : Date),
      (decide (owner = userId) && inWindow dateRange t)
        = decide (owner = userId ∧ dateRange.1 ≤ t ∧ t ≤ dateRange.2) := by
    intro owner t
    simp [inWindow, Bool.decide_and]
  have hs : a'.totalSales
      = ((db.invoices.filter fun i => decide (i.userId = userId ∧
          dateRange.1 ≤ i.createdAt ∧ i.createdAt ≤ dateRange.2)).map
            fun i => i.totalAmount).sum := by
    simp only [calculateFinancialOverview, Bool.false_eq_true, if_false, Except.ok.injEq] at h
    rw [← h]
    simp only [salesTotal, matchInvoices, UserId.matches, hpred]
  have hp : a'.totalPurchases
      = ((db.purchases.filter fun p => decide (p.userId = userId ∧
          dateRange.1 ≤ p.createdAt ∧ p.createdAt ≤ dateRange.2)).map
            fun p => p.totalAmount).sum := by
    simp only [calculateFinancialOverview, Bool.false_eq_true, if_false, Except.ok.injEq] at h
    rw [← h]
    simp only [purchasesTotal, hpred]
  have he : a'.totalExpenses
      = ((db.expenses.filter fun e => decide (e.userId = userId ∧
          dateRange.1 ≤ e.createdAt ∧ e.createdAt ≤ dateRange.2)).map fun e => e.amount).sum := by
    simp only [calculateFinancialOverview, Bool.false_eq_true, if_false, Except.ok.injEq] at h
    rw [← h]
    simp only [expensesTotal, hpred]
  refine ⟨hs, hp, he, ?_, ?_, ?_, ?_⟩
  · intro hno
    rw [hs, List.filter_eq_nil_iff.mpr (fun i hi => by simpa using hno i hi)]
    rfl
  · intro hno
    rw [hp, List.filter_eq_nil_iff.mpr (fun i hi => by simpa using hno i hi)]
    rfl
  · intro hno
    rw [he, List.filter_eq_nil_iff.mpr (fun i hi => by simpa using hno i hi)]
    rfl
  · simp only [calculateFinancialOverview, Bool.false_eq_true, if_false, Except.ok.injEq] at h
    rw [← h]

/-- The overview of the sample: sales 1180 + 20, no purchase (total 0),
expenses 100. -/
theorem calculateFinancialOverview_objectId_sample :
    sampleOverview.totalSales = 1200 ∧ sampleOverview.totalExpenses = 100 ∧
    sampleOverview.totalPurchases = 0 :=
  have h := calculateFinancialOverview_objectId sampleDb 1 blank sampleOverview sampleWindow
    calculateFinancialOverview_sample
  ⟨h.1.trans (by with_unfolding_all rfl), h.2.2.1.trans (by with_unfolding_all rfl),
    h.2.2.2.2.1 (by simp [sampleDb])⟩

/-- The sample run of `calculatePaymentMethods`. -/
theorem calculatePaymentMethods_sample :
    calculatePaymentMethods sampleDb false 1 blank sampleWindow = .ok samplePaymentMethods := by
  with_unfolding_all rfl

/-- The list written by `calculatePaymentMethods`: a rearrangement of one
entry per distinct method, in non-increasing order of `total`. -/
theorem paymentMethodsOf_spec (db : Db) (userId : ObjectId) (dateRange : Date × Date) :
    (paymentMethodsOf db userId dateRange).Perm
      ((groupKeys (fun p : Payment => p.paymentMethod) (matchPayments db (.objectId userId) dateRange)).map
        (methodEntry (matchPayments db (.objectId userId) dateRange))) ∧
    (paymentMethodsOf db userId dateRange).Pairwise (fun x y => x.total ≥ y.total) := by
  constructor
  · unfold paymentMethodsOf paymentMethodsAgg groupPayments
    refine ((List.perm_insertionSort _ _).map _).trans ?_
    rw [List.map_map]
    exact List.Perm.refl _
  · have h1 : ((paymentMethodsOf db userId dateRange).map fun e => e.total)
        = (paymentMethodsAgg db userId dateRange).map fun r => r.total := by
      unfold paymentMethodsOf
      rw [List.map_map]
      rfl
    have h2 : ((paymentMethodsAgg db userId dateRange).map fun r => r.total).Pairwise (· ≥ ·) := by
      apply List.pairwise_map.mpr
      have := pairwise_take_insertionSort_desc (fun r : TotalCountRow => r.total)
        (groupPayments (fun p => p.paymentMethod) (matchPayments db (.objectId userId) dateRange))
        (groupPayments (fun p => p.paymentMethod) (matchPayments db (.objectId userId) dateRange)).length
      rw [List.take_of_length_le (by rw [List.length_insertionSort])] at this
      exact this
    rw [← h1] at h2
    exact List.pairwise_map.mp h2

/-- For an `ObjectId`: with its query answered, `calculatePaymentMethods` writes one
entry per distinct `paymentMethod` of the payments of the user whose
`paymentDate` lies in the window, with `total` the sum of their `amount`,
`count` their number and `percentage` 0, in non-increasing order of `total`;
and `paymentMethods` is still in non-increasing order of `total` in the
snapshot returned by `updateAnalytics`. -/
theorem calculatePaymentMethods_objectId (db : Db) (userId : ObjectId) (a a' : Analytics)
    (dateRange : Date × Date)
    (h : calculatePaymentMethods db false (.objectId userId) a dateRange = .ok a') :
    a'.paymentMethods.Perm
      ((groupKeys (fun p : Payment => p.paymentMethod) (matchPayments db (.objectId userId) dateRange)).map
        (methodEntry (matchPayments db (.objectId userId) dateRange))) ∧
    (groupKeys (fun p : Payment => p.paymentMethod) (matchPayments db (.objectId userId) dateRange)).Nodup ∧
    (∀ k, k ∈ groupKeys (fun p : Payment => p.paymentMethod)
          (matchPayments db (.objectId userId) dateRange) ↔
      ∃ p ∈ db.payments, p.userId = userId ∧ dateRange.1 ≤ p.paymentDate ∧
        p.paymentDate ≤ dateRange.2 ∧ p.paymentMethod = k) ∧
    a'.paymentMethods.Pairwise (fun x y => x.total ≥ y.total) ∧
    (∀ e ∈ a'.paymentMethods, e.percentage = 0) ∧
    (∀ env s period out, updateAnalytics db env s (.objectId userId) period = .ok out →
      out.analytics.paymentMethods.Pairwise (fun x y => x.total ≥ y.total)) := by
  have ha : a'.paymentMethods = paymentMethodsOf db userId dateRange := by
    simp only [calculatePaymentMethods, Bool.false_eq_true, if_false, Except.ok.injEq] at h
    rw [← h]
  obtain ⟨hperm, hsorted⟩ := paymentMethodsOf_spec db userId dateRange
  refine ⟨ha ▸ hperm, nodup_groupKeys _ _, fun k => ?_, ha ▸ hsorted, ?_, ?_⟩
  · rw [mem_groupKeys]
    constructor
    · rintro ⟨p, hp, rfl⟩
      obtain ⟨m1, m2, m3, m4⟩ := (mem_matchPayments db userId dateRange p).mp hp
      exact ⟨p, m1, m2, m3, m4, rfl⟩
    · rintro ⟨p, m1, m2, m3, m4, rfl⟩
      exact ⟨p, (mem_matchPayments db userId dateRange p).mpr ⟨m1, m2, m3, m4⟩, rfl⟩
  · intro e he
    rw [ha] at he
    obtain ⟨k, _, rfl⟩ := List.mem_map.mp (hperm.mem_iff.mp he)
    rfl
  · intro env s period out hout
    obtain ⟨hsnap, _⟩ := updateAnalytics_any_store hout s
    have hpm : out.analytics.paymentMethods
        = (snapshotOf db env (.objectId userId) period).paymentMethods := by rw [hsnap]
    rw [hpm]
    obtain ⟨_, hsorted'⟩ := paymentMethodsOf_spec db userId (getDateRange env.zone env.now env.startNow period)
    have hx : (extracted db env.faults.financialOverview env.faults.paymentMethods (.objectId userId)
        (prepare [] env.now userId period none (getDateRange env.zone env.now env.startNow period))
        (getDateRange env.zone env.now env.startNow period)).paymentMethods.Pairwise
          (fun x y => x.total ≥ y.total) := by
      cases env.faults.paymentMethods
      · exact hsorted'
      · exact List.Pairwise.nil
    show ((extracted db env.faults.financialOverview env.faults.paymentMethods (.objectId userId)
        (prepare [] env.now userId period none (getDateRange env.zone env.now env.startNow period))
        (getDateRange env.zone env.now env.startNow period)).calculateNetProfit.calculatePaymentPercentages
          ).paymentMethods.Pairwise _
    simp only [Analytics.calculatePaymentPercentages, Analytics.calculateNetProfit]
    exact List.pairwise_map.mpr hx

/-- The payment methods of the sample: Cash 500 before UPI 200, before and
after the percentages are derived. -/
theorem calculatePaymentMethods_objectId_sample :
    samplePaymentMethods.paymentMethods.Pairwise (fun x y => x.total ≥ y.total) ∧
    (∀ e ∈ samplePaymentMethods.paymentMethods, e.percentage = 0) ∧
    sampleOutcome.analytics.paymentMethods.Pairwise (fun x y => x.total ≥ y.total) :=
  have h := calculatePaymentMethods_objectId sampleDb 1 blank samplePaymentMethods sampleWindow
    calculatePaymentMethods_sample
  ⟨h.2.2.2.1, h.2.2.2.2.1, h.2.2.2.2.2 sampleEnv [] "30days" sampleOutcome updateAnalytics_sample⟩

/-! ## Sums over the groups of a `$group` -/

/-- A sum over distinct keys in which only the key `a` contributes. -/
theorem sum_map_ite_eq_of_nodup {κ M : Type} [DecidableEq κ] [AddCommMonoid M] (a : κ) (c : M)
    (ks : List κ) (hnd : ks.Nodup) (ha : a ∈ ks) :
    (ks.map fun k => if a = k then c else 0).sum = c := by
  induction ks with
  | nil => cases ha
  | cons k t ih =>
    have hk : k ∉ t := (List.nodup_cons.mp hnd).1
    have ht : t.Nodup := (List.nodup_cons.mp hnd).2
    by_cases h : a = k
    · subst h
      have hz : (t.map fun k => if a = k then c else 0) = t.map fun _ => (0 : M) := by
        apply List.map_congr_left
        intro k' hk'
        have : a ≠ k' := fun e => hk (e ▸ hk')
        simp [this]
      simp [hz]
    · have hat : a ∈ t := by
        rcases List.mem_cons.mp ha with h' | h'
        · exact absurd h' h
        · exact h'
      simp [h, ih ht hat]

/-- Summing group by group is summing over all documents, for any list of
distinct keys that covers the documents. -/
theorem sum_over_keys {α κ M : Type} [DecidableEq κ] [AddCommMonoid M] (key : α → κ)
    (f : α → M) (ks : List κ) (hnd : ks.Nodup) (docs : List α)
    (hall : ∀ d ∈ docs, key d ∈ ks) :
    (ks.map fun k => ((groupOf key docs k).map f).sum).sum = (docs.map f).sum := by
  induction docs with
  | nil => simp [groupOf]
  | cons x xs ih =>
    have hx : key x ∈ ks := hall x (List.mem_cons_self _ _)
    have hxs : ∀ d ∈ xs, key d ∈ ks := fun d hd => hall d (List.mem_cons_of_mem _ hd)
    have hstep : (ks.map fun k => ((groupOf key (x :: xs) k).map f).sum)
        = ks.map fun k => (if key x = k then f x else 0) + ((groupOf key xs k).map f).sum := by
      apply List.map_congr_left
      intro k _
      by_cases h : key x = k
      · simp [groupOf, List.filter_cons, h]
      · simp [groupOf, List.filter_cons, h]
    rw [hstep, List.sum_map_add, sum_map_ite_eq_of_nodup (key x) (f x) ks hnd hx, ih hxs]
    simp

/-- Summing the groups of a `$group` is summing over all documents. -/
theorem sum_groups {α κ M : Type} [DecidableEq κ] [AddCommMonoid M] (key : α → κ) (f : α → M)
    (docs : List α) :
    ((groupKeys key docs).map fun k => ((groupOf key docs k).map f).sum).sum
      = (docs.map f).sum :=
  sum_over_keys key f _ (nodup_groupKeys key docs) docs
    (fun d hd => (mem_groupKeys key docs (key d)).mpr ⟨d, hd, rfl⟩)

/-- The sizes of the groups of a `$group` add up to the number of documents. -/
theorem length_groups {α κ : Type} [DecidableEq κ] (key : α → κ) (docs : List α) :
    ((groupKeys key docs).map fun k => (groupOf key docs k).length).sum = docs.length := by
  have h := sum_groups key (fun _ : α => (1 : Nat)) docs
  simpa using h

/-- A conditional sum is the sum over the documents that meet the condition. -/
theorem sum_map_ite_eq_sum_filter {α : Type} (p : α → Prop) [DecidablePred p] (f : α → ℚ)
    (docs : List α) :
    (docs.map fun d => if p d then f d else 0).sum
      = ((docs.filter fun d => decide (p d)).map f).sum := by
  induction docs with
  | nil => rfl
  | cons x xs ih =>
    by_cases h : p x
    · simp [List.filter_cons, h, ih]
    · simp [List.filter_cons, h, ih]

/-- The row of the key `k` is what `find` returns in the rows of a `$group`,
when `k` is among the keys. -/
theorem find?_map_key {ρ : Type} (id : ρ → String) (row : String → ρ)
    (hid : ∀ k, id (row k) = k) (k : String) (ks : List String) :
    (ks.map row).find? (fun r => decide (id r = k)) = if k ∈ ks then some (row k) else none := by
  induction ks with
  | nil => rfl
  | cons a t ih =>
    by_cases h : a = k
    · subst h
      simp [List.find?_cons, hid]
    · have h' : ¬ k = a := fun e => h e.symm
      simp [List.find?_cons, hid, h, h', ih]

/-! ## Payment flow -/

/-- The payments of a type are the `$match`ed payments grouped under that type. -/
theorem groupOf_paymentType (db : Db) (userId : ObjectId) (dateRange : Date × Date)
    (ty : String) :
    groupOf (fun p : Payment => p.paymentType) (matchPayments db (.objectId userId) dateRange) ty
      = paymentsOfType db userId dateRange ty := by
  unfold groupOf matchPayments paymentsOfType
  rw [List.filter_filter]
  congr 1
  funext p
  simp only [UserId.matches_objectId, inWindow, Bool.decide_and, Bool.and_assoc, Bool.and_comm (decide (p.paymentType = ty))]

/-- The side of the payment flow picked by `find` for the type `ty`, with its
fallback `{ total: 0, count: 0 }`. -/
theorem paymentFlow_side (docs : List Payment) (ty : String) :
    (((groupPayments (fun p => p.paymentType) docs).find? fun r => decide (r._id = ty)).getD
        { _id := "", total := 0, count := 0 }).total
      = ((groupOf (fun p : Payment => p.paymentType) docs ty).map fun p => p.amount).sum ∧
    (((groupPayments (fun p => p.paymentType) docs).find? fun r => decide (r._id = ty)).getD
        { _id := "", total := 0, count := 0 }).count
      = (groupOf (fun p : Payment => p.paymentType) docs ty).length := by
  unfold groupPayments
  rw [find?_map_key (fun r : TotalCountRow => r._id) _ (fun _ => rfl)]
  by_cases h : ty ∈ groupKeys (fun p : Payment => p.paymentType) docs
  · simp [h]
  · have hnil : groupOf (fun p : Payment => p.paymentType) docs ty = [] := by
      unfold groupOf
      apply List.filter_eq_nil_iff.mpr
      intro d hd
      have : d.paymentType ≠ ty := fun e =>
        h ((mem_groupKeys (fun p : Payment => p.paymentType) docs ty).mpr ⟨d, hd, e⟩)
      simpa using this
    simp [h, hnil]

/-- The value written by `calculatePaymentFlow`. -/
theorem paymentFlowOf_eq (db : Db) (userId : ObjectId) (dateRange : Date × Date) :
    paymentFlowOf db (.objectId userId) dateRange =
      { moneyIn :=
          { total := ((paymentsOfType db userId dateRange "Received").map fun p => p.amount).sum
            count := (paymentsOfType db userId dateRange "Received").length }
        moneyOut :=
          { total := ((paymentsOfType db userId dateRange "Paid").map fun p => p.amount).sum
            count := (paymentsOfType db userId dateRange "Paid").length } } := by
  obtain ⟨hi1, hi2⟩ := paymentFlow_side (matchPayments db (.objectId userId) dateRange) "Received"
  obtain ⟨ho1, ho2⟩ := paymentFlow_side (matchPayments db (.objectId userId) dateRange) "Paid"
  rw [groupOf_paymentType] at hi1 hi2 ho1 ho2
  unfold paymentFlowOf
  simp only [hi1, hi2, ho1, ho2]

/-- The sample run of `calculatePaymentFlow`. -/
theorem calculatePaymentFlow_sample :
    calculatePaymentFlow sampleDb false 1 blank sampleWindow = .ok samplePaymentFlow := by
  with_unfolding_all rfl

/-- For an `ObjectId`: with its query answered, `calculatePaymentFlow` sets
`paymentFlow.moneyIn` to the sum of `amount` and the number of the in-window
payments of the user with `paymentType` `'Received'`, and `paymentFlow.moneyOut`
to the same for `'Paid'`; a side without any such payment is exactly
`{ total: 0, count: 0 }`; no other field changes. -/
theorem calculatePaymentFlow_objectId (db : Db) (userId : ObjectId) (a a' : Analytics)
    (dateRange : Date × Date)
    (h : calculatePaymentFlow db false (.objectId userId) a dateRange = .ok a') :
    a'.paymentFlow.moneyIn =
      { total := ((paymentsOfType db userId dateRange "Received").map fun p => p.amount).sum
        count := (paymentsOfType db userId dateRange "Received").length } ∧
    a'.paymentFlow.moneyOut =
      { total := ((paymentsOfType db userId dateRange "Paid").map fun p => p.amount).sum
        count := (paymentsOfType db userId dateRange "Paid").length } ∧
    (paymentsOfType db userId dateRange "Received" = [] →
      a'.paymentFlow.moneyIn = { total := 0, count := 0 }) ∧
    (paymentsOfType db userId dateRange "Paid" = [] →
      a'.paymentFlow.moneyOut = { total := 0, count := 0 }) ∧
    { a' with paymentFlow := a.paymentFlow } = a := by
  simp only [calculatePaymentFlow, Bool.false_eq_true, if_false, Except.ok.injEq] at h
  have hflow : a'.paymentFlow = paymentFlowOf db (.objectId userId) dateRange := by rw [← h]
  rw [paymentFlowOf_eq] at hflow
  refine ⟨by rw [hflow], by rw [hflow], ?_, ?_, by rw [← h]⟩
  · intro he
    rw [hflow, he]
    rfl
  · intro he
    rw [hflow, he]
    rfl

/-- The payment flow of the sample, one `Received` 500 and one `Paid` 200, and
of `edgeDb`, which has no payment. -/
theorem calculatePaymentFlow_objectId_sample :
    samplePaymentFlow.paymentFlow.moneyIn = { total := 500, count := 1 } ∧
    samplePaymentFlow.paymentFlow.moneyOut = { total := 200, count := 1 } ∧
    blank.paymentFlow.moneyIn = { total := 0, count := 0 } ∧
    blank.paymentFlow.moneyOut = { total := 0, count := 0 } :=
  have h := calculatePaymentFlow_objectId sampleDb 1 blank samplePaymentFlow sampleWindow
    calculatePaymentFlow_sample
  have h0 := calculatePaymentFlow_objectId edgeDb 1 blank blank sampleWindow
    (by with_unfolding_all rfl)
  ⟨h.1.trans (by with_unfolding_all rfl), h.2.1.trans (by with_unfolding_all rfl),
    h0.2.2.1 rfl, h0.2.2.2.1 rfl⟩

/-! ## Daily payments -/

/-- The payments of a day and type inside the group of that day. -/
theorem filter_groupOf_day (db : Db) (userId : ObjectId) (dateRange : Date × Date)
    (d ty : String) :
    (groupOf (fun p : Payment => dateToString p.paymentDate)
        (matchPayments db (.objectId userId) dateRange) d).filter (fun p => decide (p.paymentType = ty))
      = paymentsOnDay db userId dateRange d ty := by
  unfold groupOf matchPayments paymentsOnDay
  rw [List.filter_filter, List.filter_filter]
  congr 1
  funext p
  simp only [UserId.matches_objectId, inWindow, Bool.decide_and]
  cases decide (p.paymentType = ty) <;> cases decide (p.userId = userId) <;>
    cases decide (dateRange.1 ≤ p.paymentDate) <;> cases decide (p.paymentDate ≤ dateRange.2) <;>
    cases decide (dateToString p.paymentDate = d) <;> rfl

/-- Every entry written by `calculateDailyPayments` carries the sums of its day. -/
theorem dailyPaymentsOf_entry (db : Db) (userId : ObjectId) (dateRange : Date × Date)
    (e : DailyPayment) (he : e ∈ dailyPaymentsOf db (.objectId userId) dateRange) :
    e.received
      = ((paymentsOnDay db userId dateRange e.date "Received").map fun p => p.amount).sum ∧
    e.paid = ((paymentsOnDay db userId dateRange e.date "Paid").map fun p => p.amount).sum := by
  unfold dailyPaymentsOf dailyPaymentsAgg at he
  obtain ⟨row, hrow, rfl⟩ := List.mem_map.mp he
  rw [List.mem_insertionSort] at hrow
  unfold dailyPaymentsGroup at hrow
  obtain ⟨k, _, rfl⟩ := List.mem_map.mp hrow
  constructor
  · show ((groupOf _ _ k).map fun p : Payment =>
        if p.paymentType = "Received" then p.amount else 0).sum = _
    rw [sum_map_ite_eq_sum_filter (fun p : Payment => p.paymentType = "Received"),
      filter_groupOf_day]
  · show ((groupOf _ _ k).map fun p : Payment =>
        if p.paymentType = "Paid" then p.amount else 0).sum = _
    rw [sum_map_ite_eq_sum_filter (fun p : Payment => p.paymentType = "Paid"),
      filter_groupOf_day]

/-- For an `ObjectId`: with its query answered, `calculateDailyPayments` writes, for
every calendar day on which the user has a payment in the window, one entry
(and none for other days), whose `received` is the sum of `amount` over the
`'Received'` payments of that day and whose `paid` is the sum over the `'Paid'`
payments of that day (0 for a type without payment that day); no other field
changes. -/
theorem calculateDailyPayments_objectId (db : Db) (userId : ObjectId) (a a' : Analytics)
    (dateRange : Date × Date)
    (h : calculateDailyPayments db false (.objectId userId) a dateRange = .ok a') :
    (∀ e ∈ a'.dailyPayments,
      e.received
        = ((paymentsOnDay db userId dateRange e.date "Received").map fun p => p.amount).sum ∧
      e.paid
        = ((paymentsOnDay db userId dateRange e.date "Paid").map fun p => p.amount).sum) ∧
    (a'.dailyPayments.map fun e => e.date).Nodup ∧
    (∀ d, (∃ e ∈ a'.dailyPayments, e.date = d) ↔
      ∃ p ∈ db.payments, p.userId = userId ∧ dateRange.1 ≤ p.paymentDate ∧
        p.paymentDate ≤ dateRange.2 ∧ dateToString p.paymentDate = d) ∧
    (∀ e ∈ a'.dailyPayments, paymentsOnDay db userId dateRange e.date "Received" = [] →
      e.received = 0) ∧
    (∀ e ∈ a'.dailyPayments, paymentsOnDay db userId dateRange e.date "Paid" = [] →
      e.paid = 0) ∧
    { a' with dailyPayments := a.dailyPayments } = a := by
  have hd := calculateDailyPayments_ok h
  have ed : (a'.dailyPayments.map fun e => e.date)
      = (dailyPaymentsAgg db (.objectId userId) dateRange).map fun r => r._id := by
    rw [hd, dailyPaymentsOf, List.map_map]; rfl
  obtain ⟨_, d2, d3⟩ := dailyPaymentsAgg_dates db userId dateRange
  refine ⟨fun e he => dailyPaymentsOf_entry db userId dateRange e (hd ▸ he), ed ▸ d2,
    fun d => ?_, fun e he hnil => ?_, fun e he hnil => ?_, ?_⟩
  · rw [← d3 d, ← ed]; simp
  · rw [(dailyPaymentsOf_entry db userId dateRange e (hd ▸ he)).1, hnil]; rfl
  · rw [(dailyPaymentsOf_entry db userId dateRange e (hd ▸ he)).2, hnil]; rfl
  · simp only [calculateDailyPayments, Bool.false_eq_true, if_false, Except.ok.injEq] at h
    rw [← h]

/-- The daily payments of the sample: one `Received` 500 and one `Paid` 200 on
2025-11-04 give the single entry of that day. -/
theorem calculateDailyPayments_objectId_sample :
    sampleSeries.dailyPayments = [{ date := "2025-11-04", received := 500, paid := 200 }] ∧
    (∀ e ∈ sampleSeries.dailyPayments,
      e.received
        = ((paymentsOnDay sampleDb 1 sampleWindow e.date "Received").map fun p => p.amount).sum ∧
      e.paid
        = ((paymentsOnDay sampleDb 1 sampleWindow e.date "Paid").map fun p => p.amount).sum) ∧
    (sampleSeries.dailyPayments.map fun e => e.date).Nodup :=
  have h := calculateDailyPayments_objectId sampleDb 1 sampleSales sampleSeries sampleWindow
    calculateDailyPayments_sample
  ⟨rfl, h.1, h.2.1⟩

/-! ## Top products: the groups and the cut to ten -/

/-- An element of `mapIdx f l` agrees with some element of `l` on every
projection that `f` copies. -/
theorem exists_of_mem_mapIdx {α β γ : Type} (f : Nat → α → β) (g : β → γ) (h : α → γ)
    (hfg : ∀ i x, g (f i x) = h x) (l : List α) (e : β) (he : e ∈ l.mapIdx f) :
    ∃ r ∈ l, h r = g e := by
  have : g e ∈ (l.mapIdx f).map g := List.mem_map_of_mem g he
  rw [map_mapIdx_of_forall f g h hfg l] at this
  obtain ⟨r, hr, e'⟩ := List.mem_map.mp this
  exact ⟨r, hr, e'⟩

/-- After a descending `$sort` and a `$limit`, a row that was cut off is not
above any row that was kept. -/
theorem le_of_not_mem_take {ρ : Type} (amount : ρ → ℚ) (rows : List ρ) (n : Nat) (g : ρ)
    (hg : g ∈ rows) (hn : g ∉ (rows.insertionSort fun a b => amount a ≥ amount b).take n) :
    ∀ e ∈ (rows.insertionSort fun a b => amount a ≥ amount b).take n, amount g ≤ amount e := by
  haveI : IsTotal ρ (fun a b => amount a ≥ amount b) := ⟨fun a b => le_total (amount b) (amount a)⟩
  haveI : IsTrans ρ (fun a b => amount a ≥ amount b) := ⟨fun _ _ _ h₁ h₂ => le_trans h₂ h₁⟩
  have hs := List.sorted_insertionSort (fun a b : ρ => amount a ≥ amount b) rows
  have hmem : g ∈ rows.insertionSort fun a b => amount a ≥ amount b :=
    (List.perm_insertionSort _ rows).mem_iff.mpr hg
  rw [← List.take_append_drop n (rows.insertionSort fun a b => amount a ≥ amount b)] at hs hmem
  have hp := (List.pairwise_append.mp hs).2.2
  rcases List.mem_append.mp hmem with h | h
  · exact absurd h hn
  · exact fun e he => hp e he g h

/-- The pipeline of `calculateTopProducts` is its groups, sorted and cut. -/
theorem topProductsAgg_eq (db : Db) (userId : ObjectId) (dateRange : Date × Date) :
    topProductsAgg db (.objectId userId) dateRange
      = ((productGroups db userId dateRange).insertionSort
          fun a b => a.totalAmount ≥ b.totalAmount).take 10 := rfl

/-- The group of a description is a row of `productGroups`. -/
theorem mem_productGroups (db : Db) (userId : ObjectId) (dateRange : Date × Date)
    (r : ProductRow) :
    r ∈ productGroups db userId dateRange ↔
      (∃ it ∈ lineItems db userId dateRange, it.description = r._id) ∧
      r = { _id := r._id
            totalQuantity := ((lineItemsOf db userId dateRange r._id).map fun it => it.quantity).sum
            totalAmount := ((lineItemsOf db userId dateRange r._id).map fun it => it.total).sum
            orderCount := (lineItemsOf db userId dateRange r._id).length } := by
  unfold productGroups
  rw [List.mem_map]
  constructor
  · rintro ⟨k, hk, rfl⟩
    exact ⟨(mem_groupKeys _ _ k).mp hk, rfl⟩
  · rintro ⟨hk, hr⟩
    exact ⟨r._id, (mem_groupKeys _ _ r._id).mpr hk, hr.symm⟩

/-- The rows of `productGroups` have pairwise distinct descriptions. -/
theorem nodup_productGroups (db : Db) (userId : ObjectId) (dateRange : Date × Date) :
    ((productGroups db userId dateRange).map fun r => r._id).Nodup := by
  unfold productGroups
  rw [List.map_map]
  have : ((fun r : ProductRow => r._id) ∘ fun k : String =>
      ({ _id := k
         totalQuantity := ((lineItemsOf db userId dateRange k).map fun it => it.quantity).sum
         totalAmount := ((lineItemsOf db userId dateRange k).map fun it => it.total).sum
         orderCount := (lineItemsOf db userId dateRange k).length } : ProductRow)) = id := rfl
  rw [this, List.map_id]
  exact nodup_groupKeys _ _

/-- For an `ObjectId`: with its query answered, `calculateTopProducts` groups the line
items of the user's in-window invoices by description: every returned entry
carries the sum of `quantity`, the sum of `total` and the number of the line
items with its description, no description is returned twice, every group
that is not returned has a `totalAmount` less than or equal to that of every
returned entry, and all groups are returned when there are at most 10. -/
theorem calculateTopProducts_objectId (db : Db) (userId : ObjectId) (a a' : Analytics)
    (dateRange : Date × Date)
    (h : calculateTopProducts db false (.objectId userId) a dateRange = .ok a') :
    (∀ e ∈ a'.topProducts,
      (∃ it ∈ lineItems db userId dateRange, it.description = e.productName) ∧
      e.totalQuantity
        = ((lineItemsOf db userId dateRange e.productName).map fun it => it.quantity).sum ∧
      e.totalAmount
        = ((lineItemsOf db userId dateRange e.productName).map fun it => it.total).sum ∧
      e.orderCount = (lineItemsOf db userId dateRange e.productName).length) ∧
    (a'.topProducts.map fun e => e.productName).Nodup ∧
    (∀ it ∈ lineItems db userId dateRange,
      it.description ∉ a'.topProducts.map (fun e => e.productName) →
      ∀ e ∈ a'.topProducts,
        ((lineItemsOf db userId dateRange it.description).map fun x => x.total).sum
          ≤ e.totalAmount) ∧
    ((groupKeys (fun it : InvoiceItem => it.description)
        (lineItems db userId dateRange)).length ≤ 10 →
      ∀ it ∈ lineItems db userId dateRange,
        it.description ∈ a'.topProducts.map fun e => e.productName) := by
  have hp := calculateTopProducts_ok h
  have hsub : ∀ r ∈ topProductsAgg db (.objectId userId) dateRange, r ∈ productGroups db userId dateRange := by
    intro r hr
    rw [topProductsAgg_eq] at hr
    exact (List.perm_insertionSort _ _).mem_iff.mp (List.mem_of_mem_take hr)
  have hnames : (a'.topProducts.map fun e => e.productName)
      = (topProductsAgg db (.objectId userId) dateRange).map fun r => r._id := by
    rw [hp, topProductsOf]
    exact map_mapIdx_of_forall _ (fun e : TopProduct => e.productName)
      (fun r : ProductRow => r._id) (fun _ _ => rfl) _
  have hrow : ∀ e ∈ a'.topProducts, ∃ r ∈ topProductsAgg db (.objectId userId) dateRange,
      (r._id, r.totalQuantity, r.totalAmount, r.orderCount)
        = (e.productName, e.totalQuantity, e.totalAmount, e.orderCount) := by
    intro e he
    rw [hp, topProductsOf] at he
    exact exists_of_mem_mapIdx _
      (fun e : TopProduct => (e.productName, e.totalQuantity, e.totalAmount, e.orderCount))
      (fun r : ProductRow => (r._id, r.totalQuantity, r.totalAmount, r.orderCount))
      (fun _ _ => rfl) _ e he
  refine ⟨?_, ?_, ?_, ?_⟩
  · intro e he
    obtain ⟨r, hr, hre⟩ := hrow e he
    simp only [Prod.mk.injEq] at hre
    obtain ⟨h1, h2, h3, h4⟩ := hre
    obtain ⟨hk, hr'⟩ := (mem_productGroups db userId dateRange r).mp (hsub r hr)
    rw [← h1, ← h2, ← h3, ← h4]
    refine ⟨hk, ?_, ?_, ?_⟩
    · exact congrArg ProductRow.totalQuantity hr'
    · exact congrArg ProductRow.totalAmount hr'
    · exact congrArg ProductRow.orderCount hr'
  · rw [hnames, topProductsAgg_eq]
    have hsl : ((productGroups db userId dateRange).insertionSort
        fun a b => a.totalAmount ≥ b.totalAmount).take 10
        |>.map (fun r => r._id)
        |>.Sublist (((productGroups db userId dateRange).insertionSort
          fun a b => a.totalAmount ≥ b.totalAmount).map fun r => r._id) :=
      (List.take_sublist 10 _).map _
    exact (((List.perm_insertionSort _ _).map _).nodup_iff.mpr
      (nodup_productGroups db userId dateRange)).sublist hsl
  · intro it hit hnot e he
    let g : ProductRow :=
      { _id := it.description
        totalQuantity :=
          ((lineItemsOf db userId dateRange it.description).map fun it => it.quantity).sum
        totalAmount := ((lineItemsOf db userId dateRange it.description).map fun it => it.total).sum
        orderCount := (lineItemsOf db userId dateRange it.description).length }
    have hg : g ∈ productGroups db userId dateRange :=
      (mem_productGroups db userId dateRange g).mpr ⟨⟨it, hit, rfl⟩, rfl⟩
    have hgn : g ∉ ((productGroups db userId dateRange).insertionSort
        fun a b => a.totalAmount ≥ b.totalAmount).take 10 := by
      intro hin
      apply hnot
      rw [hnames, topProductsAgg_eq]
      exact List.mem_map.mpr ⟨g, hin, rfl⟩
    obtain ⟨r, hr, hre⟩ := hrow e he
    simp only [Prod.mk.injEq] at hre
    rw [topProductsAgg_eq] at hr
    have := le_of_not_mem_take (fun r : ProductRow => r.totalAmount) _ 10 g hg hgn r hr
    rw [← hre.2.2.1]
    exact this
  · intro hlen it hit
    rw [hnames, topProductsAgg_eq, List.take_of_length_le]
    · refine List.mem_map.mpr ⟨_, (List.perm_insertionSort _ _).mem_iff.mpr
        ((mem_productGroups db userId dateRange
          { _id := it.description
            totalQuantity :=
              ((lineItemsOf db userId dateRange it.description).map fun it => it.quantity).sum
            totalAmount :=
              ((lineItemsOf db userId dateRange it.description).map fun it => it.total).sum
            orderCount := (lineItemsOf db userId dateRange it.description).length }).mpr
          ⟨⟨it, hit, rfl⟩, rfl⟩), rfl⟩
    · rw [List.length_insertionSort]
      unfold productGroups
      rw [List.length_map]
      exact hlen

/-- The top products of the sample: `Widget` sums two line items (quantity 3,
amount 1010, 2 lines), `Nut` one; both groups are returned. -/
theorem calculateTopProducts_objectId_sample :
    sampleTopProducts.topProducts
      = [ { productName := "Widget", totalQuantity := 3, totalAmount := 1010, orderCount := 2,
            rank := 1 },
          { productName := "Nut", totalQuantity := 1, totalAmount := 10, orderCount := 1,
            rank := 2 } ] ∧
    (lineItemsOf sampleDb 1 sampleWindow "Widget").length = 2 ∧
    (∀ e ∈ sampleTopProducts.topProducts,
      e.totalAmount
        = ((lineItemsOf sampleDb 1 sampleWindow e.productName).map fun it => it.total).sum) ∧
    (∀ it ∈ lineItems sampleDb 1 sampleWindow,
      it.description ∈ sampleTopProducts.topProducts.map fun e => e.productName) :=
  have h := calculateTopProducts_objectId sampleDb 1 blank sampleTopProducts sampleWindow
    calculateTopProducts_sample
  ⟨rfl, by decide, fun e he => (h.1 e he).2.2.1, h.2.2.2 (by decide)⟩

/-! ## Top customers: grouping by name -/

/-- The pipeline of `calculateTopCustomers` is its groups, sorted and cut. -/
theorem topCustomersAgg_eq (db : Db) (userId : ObjectId) (dateRange : Date × Date) :
    topCustomersAgg db (.objectId userId) dateRange
      = ((customerGroups db userId dateRange).insertionSort
          fun a b => a.totalAmount ≥ b.totalAmount).take 10 := rfl

/-- The group of a customer name is a row of `customerGroups`. -/
theorem mem_customerGroups (db : Db) (userId : ObjectId) (dateRange : Date × Date)
    (r : CustomerRow) :
    r ∈ customerGroups db userId dateRange ↔
      (∃ i ∈ matchInvoices db (.objectId userId) dateRange, i.customerName = r._id) ∧
      r = { _id := r._id
            totalAmount :=
              ((invoicesOfCustomer db userId dateRange r._id).map fun i => i.totalAmount).sum
            invoiceCount := (invoicesOfCustomer db userId dateRange r._id).length
            avgOrderValue :=
              avg ((invoicesOfCustomer db userId dateRange r._id).map fun i => i.totalAmount) } := by
  unfold customerGroups
  rw [List.mem_map]
  constructor
  · rintro ⟨k, hk, rfl⟩
    exact ⟨(mem_groupKeys _ _ k).mp hk, rfl⟩
  · rintro ⟨hk, hr⟩
    exact ⟨r._id, (mem_groupKeys _ _ r._id).mpr hk, hr.symm⟩

/-- The rows of `customerGroups` have pairwise distinct names. -/
theorem nodup_customerGroups (db : Db) (userId : ObjectId) (dateRange : Date × Date) :
    ((customerGroups db userId dateRange).map fun r => r._id).Nodup := by
  unfold customerGroups
  rw [List.map_map]
  have : ((fun r : CustomerRow => r._id) ∘ fun k : String =>
      ({ _id := k
         totalAmount := ((invoicesOfCustomer db userId dateRange k).map fun i => i.totalAmount).sum
         invoiceCount := (invoicesOfCustomer db userId dateRange k).length
         avgOrderValue :=
           avg ((invoicesOfCustomer db userId dateRange k).map fun i => i.totalAmount) } :
        CustomerRow)) = id := rfl
  rw [this, List.map_id]
  exact nodup_groupKeys _ _

/-- The sample run of `calculateTopCustomers` on one invoice. -/
theorem calculateTopCustomers_single :
    calculateTopCustomers singleInvoiceDb false 1 blank sampleWindow
      = .ok singleInvoiceTopCustomers := by
  with_unfolding_all rfl

/-- The sample run of `calculateTopCustomers` on two customers of one name. -/
theorem calculateTopCustomers_sameName :
    calculateTopCustomers sameNameDb false 1 blank sampleWindow = .ok sameNameTopCustomers := by
  with_unfolding_all rfl

/-- For an `ObjectId`: with its query answered, `calculateTopCustomers` groups the
user's in-window invoices by `customerName` only: every entry carries the
number and the sum of `totalAmount` of the invoices with its name, and
`avgOrderValue = totalAmount / invoiceCount`; invoices with equal
`customerName` are counted in one and the same entry, whatever their other
customer fields; with at most 10 names every name has its entry. -/
theorem calculateTopCustomers_objectId (db : Db) (userId : ObjectId) (a a' : Analytics)
    (dateRange : Date × Date)
    (h : calculateTopCustomers db false (.objectId userId) a dateRange = .ok a') :
    (∀ e ∈ a'.topCustomers,
      (∃ i ∈ matchInvoices db (.objectId userId) dateRange, i.customerName = e.customerName) ∧
      e.invoiceCount = (invoicesOfCustomer db userId dateRange e.customerName).length ∧
      e.totalAmount
        = ((invoicesOfCustomer db userId dateRange e.customerName).map fun i => i.totalAmount).sum ∧
      e.avgOrderValue = e.totalAmount / e.invoiceCount) ∧
    (a'.topCustomers.map fun e => e.customerName).Nodup ∧
    (∀ i ∈ matchInvoices db (.objectId userId) dateRange, ∀ j ∈ matchInvoices db (.objectId userId) dateRange,
      i.customerName = j.customerName →
      ∀ e ∈ a'.topCustomers, ∀ e' ∈ a'.topCustomers,
        e.customerName = i.customerName → e'.customerName = j.customerName →
        e = e' ∧ i ∈ invoicesOfCustomer db userId dateRange e.customerName ∧
          j ∈ invoicesOfCustomer db userId dateRange e.customerName) ∧
    ((groupKeys (fun i : Invoice => i.customerName)
        (matchInvoices db (.objectId userId) dateRange)).length ≤ 10 →
      ∀ i ∈ matchInvoices db (.objectId userId) dateRange,
        i.customerName ∈ a'.topCustomers.map fun e => e.customerName) := by
  have hc := calculateTopCustomers_ok h
  have hsub : ∀ r ∈ topCustomersAgg db (.objectId userId) dateRange,
      r ∈ customerGroups db userId dateRange := by
    intro r hr
    rw [topCustomersAgg_eq] at hr
    exact (List.perm_insertionSort _ _).mem_iff.mp (List.mem_of_mem_take hr)
  have hnames : (a'.topCustomers.map fun e => e.customerName)
      = (topCustomersAgg db (.objectId userId) dateRange).map fun r => r._id := by
    rw [hc, topCustomersOf]
    exact map_mapIdx_of_forall _ (fun e : TopCustomer => e.customerName)
      (fun r : CustomerRow => r._id) (fun _ _ => rfl) _
  have hrow : ∀ e ∈ a'.topCustomers, ∃ r ∈ topCustomersAgg db (.objectId userId) dateRange,
      (r._id, r.totalAmount, r.invoiceCount, r.avgOrderValue)
        = (e.customerName, e.totalAmount, e.invoiceCount, e.avgOrderValue) := by
    intro e he
    rw [hc, topCustomersOf] at he
    exact exists_of_mem_mapIdx _
      (fun e : TopCustomer => (e.customerName, e.totalAmount, e.invoiceCount, e.avgOrderValue))
      (fun r : CustomerRow => (r._id, r.totalAmount, r.invoiceCount, r.avgOrderValue))
      (fun _ _ => rfl) _ e he
  have hnd : (a'.topCustomers.map fun e => e.customerName).Nodup := by
    rw [hnames, topCustomersAgg_eq]
    have hsl : ((customerGroups db userId dateRange).insertionSort
        fun a b => a.totalAmount ≥ b.totalAmount).take 10
        |>.map (fun r => r._id)
        |>.Sublist (((customerGroups db userId dateRange).insertionSort
          fun a b => a.totalAmount ≥ b.totalAmount).map fun r => r._id) :=
      (List.take_sublist 10 _).map _
    exact (((List.perm_insertionSort _ _).map _).nodup_iff.mpr
      (nodup_customerGroups db userId dateRange)).sublist hsl
  refine ⟨?_, hnd, ?_, ?_⟩
  · intro e he
    obtain ⟨r, hr, hre⟩ := hrow e he
    simp only [Prod.mk.injEq] at hre
    obtain ⟨h1, h2, h3, h4⟩ := hre
    obtain ⟨hk, hr'⟩ := (mem_customerGroups db userId dateRange r).mp (hsub r hr)
    rw [← h1, ← h2, ← h3, ← h4]
    refine ⟨hk, ?_, ?_, ?_⟩
    · exact congrArg CustomerRow.invoiceCount hr'
    · exact congrArg CustomerRow.totalAmount hr'
    · have e1 := congrArg CustomerRow.avgOrderValue hr'
      have e2 := congrArg CustomerRow.totalAmount hr'
      have e3 := congrArg CustomerRow.invoiceCount hr'
      simp only at e1 e2 e3
      rw [e1, avg, List.length_map, ← e2, ← e3]
  · intro i hi j hj hij e he e' he' hei hej
    refine ⟨List.inj_on_of_nodup_map hnd he he' (by rw [hei, hej, hij]), ?_, ?_⟩
    · exact List.mem_filter.mpr ⟨hi, by simp [hei]⟩
    · exact List.mem_filter.mpr ⟨hj, by simp [hei, hij]⟩
  · intro hlen i hi
    rw [hnames, topCustomersAgg_eq, List.take_of_length_le]
    · refine List.mem_map.mpr ⟨_, (List.perm_insertionSort _ _).mem_iff.mpr
        ((mem_customerGroups db userId dateRange
          { _id := i.customerName
            totalAmount :=
              ((invoicesOfCustomer db userId dateRange i.customerName).map
                fun i => i.totalAmount).sum
            invoiceCount := (invoicesOfCustomer db userId dateRange i.customerName).length
            avgOrderValue :=
              avg ((invoicesOfCustomer db userId dateRange i.customerName).map
                fun i => i.totalAmount) }).mpr
          ⟨⟨i, hi, rfl⟩, rfl⟩), rfl⟩
    · rw [List.length_insertionSort]
      unfold customerGroups
      rw [List.length_map]
      exact hlen

/-- A single invoice of total 1180 gives the one entry of the claim, and two
invoices of customers that share a name and differ in their e-mail address are
counted in one entry. -/
theorem calculateTopCustomers_objectId_sample :
    singleInvoiceTopCustomers.topCustomers
      = [ { customerName := "Acme", totalAmount := 1180, invoiceCount := 1, avgOrderValue := 1180,
            rank := 1 } ] ∧
    (∀ e ∈ singleInvoiceTopCustomers.topCustomers,
      e.avgOrderValue = e.totalAmount / e.invoiceCount) ∧
    sameNameTopCustomers.topCustomers
      = [ { customerName := "Acme", totalAmount := 1200, invoiceCount := 2, avgOrderValue := 600,
            rank := 1 } ] ∧
    (∀ e ∈ sameNameTopCustomers.topCustomers,
      e.invoiceCount = (invoicesOfCustomer sameNameDb 1 sampleWindow e.customerName).length) :=
  have h1 := calculateTopCustomers_objectId singleInvoiceDb 1 blank singleInvoiceTopCustomers
    sampleWindow calculateTopCustomers_single
  have h2 := calculateTopCustomers_objectId sameNameDb 1 blank sameNameTopCustomers
    sampleWindow calculateTopCustomers_sameName
  ⟨rfl, fun e he => (h1.1 e he).2.2.2, rfl, fun e he => (h2.1 e he).2.1⟩

/-! ## Key figures -/

/-- The sample run of `calculateKPIs`. -/
theorem calculateKPIs_sample :
    calculateKPIs sampleDb false 1 blank sampleWindow = .ok sampleKpis := by
  with_unfolding_all rfl

/-- The sample run of `calculateKPIs` in a window without invoices. -/
theorem calculateKPIs_early :
    calculateKPIs sampleDb false 1 blank earlyWindow = .ok earlyKpis := by
  with_unfolding_all rfl

/-- For an `ObjectId`: with its queries answered, `calculateKPIs` writes the number of
all the user's customers and of all the user's items, the same for every
window; `totalInvoices` counts the invoices with `createdAt` in the window,
`avgOrderValue` is the mean `totalAmount` of those invoices and 0 when there
are none, and `conversionRate` is 0. -/
theorem calculateKPIs_objectId (db : Db) (userId : ObjectId) (a a' b b' : Analytics)
    (dateRange other : Date × Date)
    (h : calculateKPIs db false (.objectId userId) a dateRange = .ok a')
    (h' : calculateKPIs db false (.objectId userId) b other = .ok b') :
    a'.kpis.totalCustomers = (db.customers.filter fun c => decide (c.userId = userId)).length ∧
    a'.kpis.totalProducts = (db.items.filter fun i => decide (i.userId = userId)).length ∧
    b'.kpis.totalCustomers = a'.kpis.totalCustomers ∧
    b'.kpis.totalProducts = a'.kpis.totalProducts ∧
    a'.kpis.totalInvoices
      = (db.invoices.filter fun i => decide (i.userId = userId ∧
          dateRange.1 ≤ i.createdAt ∧ i.createdAt ≤ dateRange.2)).length ∧
    (a'.kpis.totalInvoices = 0 → a'.kpis.avgOrderValue = 0) ∧
    (a'.kpis.totalInvoices ≠ 0 →
      a'.kpis.avgOrderValue
        = ((db.invoices.filter fun i => decide (i.userId = userId ∧
            dateRange.1 ≤ i.createdAt ∧ i.createdAt ≤ dateRange.2)).map
              fun i => i.totalAmount).sum / a'.kpis.totalInvoices) ∧
    a'.kpis.conversionRate = 0 ∧
    { a' with kpis := a.kpis } = a := by
  simp only [calculateKPIs, Bool.false_eq_true, if_false, Except.ok.injEq] at h h'
  subst h
  subst h'
  have hm : matchInvoices db (.objectId userId) dateRange
      = db.invoices.filter fun i => decide (i.userId = userId ∧
          dateRange.1 ≤ i.createdAt ∧ i.createdAt ≤ dateRange.2) := by
    unfold matchInvoices
    congr 1
    funext i
    simp only [UserId.matches_objectId, inWindow, Bool.decide_and]
  refine ⟨rfl, rfl, rfl, rfl, ?_, ?_, ?_, rfl, rfl⟩
  · show (matchInvoices db (.objectId userId) dateRange).length = _
    rw [hm]
  · intro h0
    have h0' : (matchInvoices db (.objectId userId) dateRange).length = 0 := h0
    show (if matchInvoices db (.objectId userId) dateRange = [] then (0 : ℚ) else _) = 0
    rw [if_pos (List.length_eq_zero.mp h0')]
  · intro h0
    have h0' : (matchInvoices db (.objectId userId) dateRange).length ≠ 0 := h0
    show (if matchInvoices db (.objectId userId) dateRange = [] then (0 : ℚ) else _)
      = _ / ((matchInvoices db (.objectId userId) dateRange).length : ℚ)
    rw [if_neg (fun hnil => h0' (List.length_eq_zero.mpr hnil)), avg, List.length_map, hm]

/-- The key figures of the sample in its window (two invoices, mean 600) and in
a window without invoices (none, mean 0): the customer and item counts agree. -/
theorem calculateKPIs_objectId_sample :
    sampleKpis.kpis = { totalCustomers := 1, totalProducts := 0, totalInvoices := 2,
                        avgOrderValue := 600, conversionRate := 0 } ∧
    earlyKpis.kpis = { totalCustomers := 1, totalProducts := 0, totalInvoices := 0,
                       avgOrderValue := 0, conversionRate := 0 } ∧
    earlyKpis.kpis.totalCustomers = sampleKpis.kpis.totalCustomers ∧
    earlyKpis.kpis.totalProducts = sampleKpis.kpis.totalProducts ∧
    sampleKpis.kpis.conversionRate = 0 :=
  have h := calculateKPIs_objectId sampleDb 1 blank sampleKpis blank earlyKpis sampleWindow
    earlyWindow calculateKPIs_sample calculateKPIs_early
  ⟨rfl, rfl, h.2.2.1, h.2.2.2.1, h.2.2.2.2.2.2.2.1⟩

/-! ## The empty tenant -/

/-- The rows of a user without documents are the empty database. -/
theorem ownRows_of_emptyTenant {db : Db} {userId : ObjectId} (h : emptyTenant db userId) :
    ownRows db userId = emptyDb := by
  obtain ⟨h1, h2, h3, h4, h5, h6⟩ := h
  unfold ownRows emptyDb
  congr 1 <;> (rw [List.filter_eq_nil_iff]; intro x hx; simp [*])

/-- The snapshot computed over the empty database. -/
theorem snapshotOf_emptyDb (env : Env) (userId : UserId) (period : String) :
    isZeroSnapshot (snapshotOf emptyDb { env with faults := noFaults } userId period) ∧
    (snapshotOf emptyDb { env with faults := noFaults } userId period).lastUpdated = env.stamp ∧
    (snapshotOf emptyDb { env with faults := noFaults } userId period).userId = userId.cast ∧
    (snapshotOf emptyDb { env with faults := noFaults } userId period).dateRange.period
      = period ∧
    validate (snapshotOf emptyDb { env with faults := noFaults } userId period)
      = decide (period ∈ periodEnum) := by
  refine ⟨⟨?_, ?_, ?_, ?_, ?_, ?_, ?_, ?_, ?_, ?_, ?_⟩, rfl, rfl, rfl, ?_⟩
  · cases userId <;> rfl
  · cases userId <;> rfl
  · cases userId <;> rfl
  · cases userId <;>
      (show (0 : ℚ) - 0 - 0 = 0
       norm_num)
  · cases userId <;> rfl
  · rfl
  · rfl
  · rfl
  · rfl
  · rfl
  · cases userId <;> rfl
  · cases userId <;>
      (show (decide (period ∈ periodEnum) && true && true && true && true && true) = _
       simp)

/-- Claim C26: for a user without invoices, payments, expenses, purchases,
customers and items, `getAnalytics(user, '30days')` with every database call
answered returns a snapshot whose four totals are 0, whose five sequences are
empty, whose payment-flow sides are `{ total: 0, count: 0 }`, whose kpis are
all 0 and whose `lastUpdated` is the clock reading of the call; this holds for
an `ObjectId` and for the string that spells it, in every zone. -/
theorem getAnalytics_empty_tenant (db : Db) (env : Env) (emptyNow : Date)
    (emptySaveFails : Bool) (s : Store) (userId : UserId) (h : emptyTenant db userId.cast) :
    ∃ out, getAnalytics db false { env with faults := noFaults } emptySaveFails emptyNow s userId
        "30days" = .ok out ∧
      isZeroSnapshot out.analytics ∧ out.analytics.lastUpdated = env.stamp ∧
      out.analytics.userId = userId.cast ∧ out.analytics.dateRange.period = "30days" := by
  obtain ⟨hz, hl, hu, hp, hv⟩ := snapshotOf_emptyDb env userId "30days"
  have hok : updateAnalytics db { env with faults := noFaults } s userId "30days"
      = .ok { analytics := { snapshotOf emptyDb { env with faults := noFaults } userId "30days" with
                _id := idFor s userId.cast "30days" }
              store := savedStore s userId.cast "30days"
                { snapshotOf emptyDb { env with faults := noFaults } userId "30days" with
                  _id := idFor s userId.cast "30days" }
              events := [Event.update (toString userId) "30days" env.stamp] } := by
    rw [← updateAnalytics_ownRows, ownRows_of_emptyTenant h, updateAnalytics_eq]
    have hv' : validate (snapshotOf emptyDb { env with faults := noFaults } userId "30days")
        = true := by
      rw [hv]; decide
    have h1 : (({ env with faults := noFaults } : Env).faults.findOne
        || unguardedFault ({ env with faults := noFaults } : Env).faults) = false := rfl
    have h2 : ({ env with faults := noFaults } : Env).faults.save = false := rfl
    rw [h1, hv', h2]
    rfl
  have hg : getAnalytics db false { env with faults := noFaults } emptySaveFails emptyNow s userId
        "30days"
      = updateAnalytics db { env with faults := noFaults } s userId "30days" := by
    unfold getAnalytics
    simp only [Bool.false_eq_true, if_false, hok]
  exact ⟨_, hg.trans hok, hz, hl, hu, hp⟩

/-- User 3 has no document in `noisyDb`: for the string id that the routes
pass, the snapshot is all zero and stamped with the clock reading of the run. -/
theorem getAnalytics_empty_tenant_witness :
    emptyTenant noisyDb (UserId.string 3).cast ∧
    ∃ out, getAnalytics noisyDb false { sampleEnv with faults := noFaults } false
        1762329600002 [] (.string 3) "30days" = .ok out ∧
      isZeroSnapshot out.analytics ∧ out.analytics.lastUpdated = sampleEnv.stamp ∧
      out.analytics.userId = (UserId.string 3).cast ∧
      out.analytics.dateRange.period = "30days" :=
  ⟨by decide, getAnalytics_empty_tenant noisyDb sampleEnv 1762329600002 false [] (.string 3)
    (by decide)⟩

/-! ## The analytics stream: teardown -/

/-- A client that closes after the handler has finished leaves no listener. -/
theorem stream_close_after_registration :
    runStream [.snapshotSettles, .clientCloses]
      = { isClosed := true, handlersInitialised := true, onUpdate := 0, onBulkUpdate := 0,
          responseEnded := true, closeCallbackThrew := false, handlerFinished := true } := by
  decide

/-- Claim C27 fails for a client that closes while the initial snapshot is
awaited: the `'close'` callback throws before it removes anything or ends the
response, and when the handler then finishes, the connection is closed and
both its `'analytics:update'` listener and its `'analytics:bulkUpdate'`
listener are registered; no later step removes them. -/
theorem stream_close_during_snapshot :
    runStream [.clientCloses] = { streamOpened with isClosed := true, closeCallbackThrew := true } ∧
    runStream [.clientCloses, .snapshotSettles]
      = { isClosed := true, handlersInitialised := true, onUpdate := 1, onBulkUpdate := 1,
          responseEnded := false, closeCallbackThrew := true, handlerFinished := true } ∧
    ∀ later : List StreamStep,
      runStream ([.clientCloses, .snapshotSettles] ++ later)
        = runStream [.clientCloses, .snapshotSettles] := by
  refine ⟨by decide, by decide, fun later => ?_⟩
  unfold runStream
  rw [List.foldl_append]
  generalize hs : List.foldl StreamState.step streamOpened [.clientCloses, .snapshotSettles] = s
  have h1 : s.isClosed = true := by rw [← hs]; decide
  have h2 : s.handlerFinished = true := by rw [← hs]; decide
  clear hs
  induction later with
  | nil => rfl
  | cons st rest ih =>
    rw [List.foldl_cons]
    have : s.step st = s := by
      cases st
      · simp [StreamState.step, resumeHandler, h2]
      · simp [StreamState.step, closeCallback, h1]
    rw [this]
    exact ih

/-! ## The invoice totals hook -/

/-- A `reduce` that adds a field, as a sum. -/
theorem foldl_add_eq_sum {α : Type} (f : α → ℚ) (l : List α) (init : ℚ) :
    l.foldl (fun sum x => sum + f x) init = init + (l.map f).sum := by
  induction l generalizing init with
  | nil => simp
  | cons x xs ih => simp [List.foldl_cons, ih, add_assoc]

/-- Claim C28: after the hook `Calculate totals before saving`, every
`item.total` is `item.quantity * item.unitPrice`, `subtotal` is the sum of the
item totals, `taxAmount = subtotal * taxRate / 100` and
`totalAmount = subtotal + taxAmount`, whatever `subtotal`, `taxAmount` and
`totalAmount` were before; quantities, unit prices and the tax rate are kept;
running the hook twice gives what running it once gives; one item 1 x 1000
with tax rate 18 gives `taxAmount` 180 and `totalAmount` 1180. -/
theorem calculateTotals_spec (doc : InvoiceDocument) :
    (∀ item ∈ (calculateTotals doc).items, item.total = item.quantity * item.unitPrice) ∧
    ((calculateTotals doc).items.map fun item => (item.description, item.quantity, item.unitPrice))
      = (doc.items.map fun item => (item.description, item.quantity, item.unitPrice)) ∧
    (calculateTotals doc).taxRate = doc.taxRate ∧
    (calculateTotals doc).subtotal = ((calculateTotals doc).items.map fun item => item.total).sum ∧
    (calculateTotals doc).subtotal
      = (doc.items.map fun item => item.quantity * item.unitPrice).sum ∧
    (calculateTotals doc).taxAmount = (calculateTotals doc).subtotal * doc.taxRate / 100 ∧
    (calculateTotals doc).totalAmount
      = (calculateTotals doc).subtotal + (calculateTotals doc).taxAmount ∧
    (∀ subtotal taxAmount totalAmount : ℚ,
      calculateTotals
          { doc with subtotal := subtotal, taxAmount := taxAmount, totalAmount := totalAmount }
        = calculateTotals doc) ∧
    calculateTotals (calculateTotals doc) = calculateTotals doc ∧
    calculateTotals postedInvoice
      = { items := [{ description := "Widget", quantity := 1, unitPrice := 1000, total := 1000 }]
          subtotal := 1000
          taxRate := 18
          taxAmount := 180
          totalAmount := 1180 } := by
  have hitems : (calculateTotals doc).items
      = doc.items.map fun item => { item with total := item.quantity * item.unitPrice } := rfl
  have hsub : (calculateTotals doc).subtotal
      = ((calculateTotals doc).items.map fun item => item.total).sum := by
    show ((calculateTotals doc).items.foldl (fun sum item => sum + item.total) 0) = _
    rw [foldl_add_eq_sum, zero_add]
  have hidem : (calculateTotals doc).items.map
      (fun item : InvoiceLine => { item with total := item.quantity * item.unitPrice })
      = (calculateTotals doc).items := by
    rw [hitems, List.map_map]
    rfl
  refine ⟨?_, ?_, rfl, hsub, ?_, rfl, rfl, fun _ _ _ => rfl, ?_, ?_⟩
  · intro item hitem
    rw [hitems] at hitem
    obtain ⟨x, _, rfl⟩ := List.mem_map.mp hitem
    rfl
  · rw [hitems, List.map_map]
    rfl
  · rw [hsub, hitems, List.map_map]
    rfl
  · show ({ items := (calculateTotals doc).items.map
              (fun item : InvoiceLine => { item with total := item.quantity * item.unitPrice })
            subtotal := _, taxRate := _, taxAmount := _, totalAmount := _ } : InvoiceDocument) = _
    simp only [hidem]
    rfl
  · decide!

/-! ## Consistency across metrics -/

/-- The snapshot returned by a resolved `updateAnalytics`, field by field. -/
theorem updateAnalytics_fields {db : Db} {env : Env} {s : Store} {userId : UserId}
    {period : String} {out : Outcome} (h : updateAnalytics db env s userId period = .ok out) :
    out.analytics.totalSales
      = (if env.faults.financialOverview || userId.isString then 0
          else salesTotal db userId.cast (getDateRange env.zone env.now env.startNow period)) ∧
    out.analytics.salesByDate
      = salesByDateOf db userId (getDateRange env.zone env.now env.startNow period) ∧
    out.analytics.kpis = kpisOf db userId (getDateRange env.zone env.now env.startNow period) ∧
    out.analytics.paymentFlow
      = paymentFlowOf db userId (getDateRange env.zone env.now env.startNow period) ∧
    out.analytics.dailyPayments
      = dailyPaymentsOf db userId (getDateRange env.zone env.now env.startNow period) ∧
    (out.analytics.paymentMethods.map fun m => (m.total, m.count))
      = ((if env.faults.paymentMethods || userId.isString then []
          else paymentMethodsOf db userId.cast
            (getDateRange env.zone env.now env.startNow period)).map
            fun m => (m.total, m.count)) := by
  have ha := (updateAnalytics_any_store h []).1
  rw [ha]
  refine ⟨rfl, rfl, rfl, rfl, rfl, ?_⟩
  show (((if env.faults.paymentMethods || userId.isString then []
    else paymentMethodsOf db userId.cast
      (getDateRange env.zone env.now env.startNow period)).map _).map _) = _
  rw [List.map_map]
  rfl

/-- The sales series for a string id is empty. -/
theorem salesByDateOf_string (db : Db) (hex : ObjectId) (dateRange : Date × Date) :
    salesByDateOf db (.string hex) dateRange = [] := by
  unfold salesByDateOf salesByDateAgg
  rw [matchInvoices_string]
  rfl

/-- The top products for a string id are empty. -/
theorem topProductsOf_string (db : Db) (hex : ObjectId) (dateRange : Date × Date) :
    topProductsOf db (.string hex) dateRange = [] := by
  unfold topProductsOf topProductsAgg
  rw [matchInvoices_string]
  rfl

/-- The top customers for a string id are empty. -/
theorem topCustomersOf_string (db : Db) (hex : ObjectId) (dateRange : Date × Date) :
    topCustomersOf db (.string hex) dateRange = [] := by
  unfold topCustomersOf topCustomersAgg
  rw [matchInvoices_string]
  rfl

/-- The payment flow for a string id has both sides at zero. -/
theorem paymentFlowOf_string (db : Db) (hex : ObjectId) (dateRange : Date × Date) :
    paymentFlowOf db (.string hex) dateRange = zeroPaymentFlow := by
  unfold paymentFlowOf
  rw [matchPayments_string]
  rfl

/-- The daily payments for a string id are empty. -/
theorem dailyPaymentsOf_string (db : Db) (hex : ObjectId) (dateRange : Date × Date) :
    dailyPaymentsOf db (.string hex) dateRange = [] := by
  unfold dailyPaymentsOf dailyPaymentsAgg
  rw [matchPayments_string]
  rfl

/-- The key figures for a string id: the three counts are those of the user,
the mean is 0. -/
theorem kpisOf_string (db : Db) (hex : ObjectId) (dateRange : Date × Date) :
    kpisOf db (.string hex) dateRange
      = { totalCustomers := (db.customers.filter fun c => decide (c.userId = hex)).length
          totalProducts := (db.items.filter fun i => decide (i.userId = hex)).length
          totalInvoices := (db.invoices.filter fun i =>
            decide (i.userId = hex) && inWindow dateRange i.createdAt).length
          avgOrderValue := 0
          conversionRate := 0 } := by
  unfold kpisOf
  rw [matchInvoices_string]
  rfl

/-- The daily sales of the series add up to the sum over the matched invoices,
and its daily orders to their number. -/
theorem salesByDateOf_sums (db : Db) (userId : ObjectId) (dateRange : Date × Date) :
    ((salesByDateOf db (.objectId userId) dateRange).map fun d => d.sales).sum
      = salesTotal db userId dateRange ∧
    ((salesByDateOf db (.objectId userId) dateRange).map fun d => d.orders).sum
      = (matchInvoices db (.objectId userId) dateRange).length := by
  have hperm := List.perm_insertionSort (fun a b : SalesRow => a._id ≤ b._id)
    (salesByDateGroup (matchInvoices db (.objectId userId) dateRange))
  constructor
  · unfold salesByDateOf salesByDateAgg salesTotal
    rw [List.map_map, ((hperm.map _).sum_eq), ← sum_groups
      (fun i : Invoice => dateToString i.createdAt) (fun i : Invoice => i.totalAmount)]
    unfold salesByDateGroup
    rw [List.map_map]
    rfl
  · unfold salesByDateOf salesByDateAgg
    rw [List.map_map, ((hperm.map _).sum_eq), ← length_groups
      (fun i : Invoice => dateToString i.createdAt) (matchInvoices db (.objectId userId) dateRange)]
    unfold salesByDateGroup
    rw [List.map_map]
    rfl

/-- For an `ObjectId`, in every snapshot returned by a successful
`updateAnalytics` whose sales query was answered, the `sales` of `salesByDate`
add up to `totalSales` and its `orders` add up to `kpis.totalInvoices`. -/
theorem sales_series_consistent_objectId (db : Db) (env : Env) (s : Store) (userId : ObjectId)
    (period : String) (out : Outcome)
    (h : updateAnalytics db env s (.objectId userId) period = .ok out)
    (hfo : env.faults.financialOverview = false) :
    (out.analytics.salesByDate.map fun d => d.sales).sum = out.analytics.totalSales ∧
    (out.analytics.salesByDate.map fun d => d.orders).sum = out.analytics.kpis.totalInvoices := by
  obtain ⟨h1, h2, h3, -⟩ := updateAnalytics_fields h
  obtain ⟨s1, s2⟩ := salesByDateOf_sums db userId (getDateRange env.zone env.now env.startNow period)
  rw [h1, h2, h3, hfo]
  exact ⟨s1, s2⟩

/-- The sample snapshot: daily sales 20 and 1180 add up to `totalSales` 1200,
daily orders 1 and 1 to `totalInvoices` 2. -/
theorem sales_series_consistent_objectId_sample :
    sampleOutcome.analytics.totalSales = 1200 ∧
    sampleOutcome.analytics.kpis.totalInvoices = 2 ∧
    (sampleOutcome.analytics.salesByDate.map fun d => d.sales).sum
      = sampleOutcome.analytics.totalSales ∧
    (sampleOutcome.analytics.salesByDate.map fun d => d.orders).sum
      = sampleOutcome.analytics.kpis.totalInvoices :=
  have h := sales_series_consistent_objectId sampleDb sampleEnv [] 1 "30days" sampleOutcome
    updateAnalytics_sample rfl
  ⟨rfl, rfl, h.1, h.2⟩

/-- A list of payments that are all `Received` or `Paid` splits into the two. -/
theorem sum_received_paid (docs : List Payment)
    (hty : ∀ p ∈ docs, p.paymentType = "Received" ∨ p.paymentType = "Paid") :
    (docs.map fun p => p.amount).sum
      = ((groupOf (fun p : Payment => p.paymentType) docs "Received").map fun p => p.amount).sum
        + ((groupOf (fun p : Payment => p.paymentType) docs "Paid").map fun p => p.amount).sum ∧
    docs.length
      = (groupOf (fun p : Payment => p.paymentType) docs "Received").length
        + (groupOf (fun p : Payment => p.paymentType) docs "Paid").length := by
  show (docs.map fun p => p.amount).sum
      = ((docs.filter fun p => decide (p.paymentType = "Received")).map fun p => p.amount).sum
        + ((docs.filter fun p => decide (p.paymentType = "Paid")).map fun p => p.amount).sum ∧
    docs.length
      = (docs.filter fun p => decide (p.paymentType = "Received")).length
        + (docs.filter fun p => decide (p.paymentType = "Paid")).length
  induction docs with
  | nil => simp
  | cons p ps ih =>
    obtain ⟨ih1, ih2⟩ := ih fun q hq => hty q (List.mem_cons_of_mem _ hq)
    have hne : ("Received" : String) ≠ "Paid" := by decide
    rcases hty p (List.mem_cons_self _ _) with hp | hp
    · have hp' : ¬ p.paymentType = "Paid" := by rw [hp]; exact hne
      rw [List.filter_cons_of_pos (by simpa using hp), List.filter_cons_of_neg (by simpa using hp'),
        List.map_cons, List.sum_cons, List.map_cons, List.sum_cons, List.length_cons,
        List.length_cons, ih1, ih2]
      constructor
      · ring
      · omega
    · have hp' : ¬ p.paymentType = "Received" := by rw [hp]; exact hne.symm
      rw [List.filter_cons_of_neg (by simpa using hp'), List.filter_cons_of_pos (by simpa using hp),
        List.map_cons, List.sum_cons, List.map_cons, List.sum_cons, List.length_cons,
        List.length_cons, ih1, ih2]
      constructor
      · ring
      · omega

/-- The totals and counts of `paymentMethodsOf` add up to the sum and the
number of the matched payments. -/
theorem paymentMethodsOf_sums (db : Db) (userId : ObjectId) (dateRange : Date × Date) :
    ((paymentMethodsOf db userId dateRange).map fun m => m.total).sum
      = ((matchPayments db (.objectId userId) dateRange).map fun p => p.amount).sum ∧
    ((paymentMethodsOf db userId dateRange).map fun m => m.count).sum
      = (matchPayments db (.objectId userId) dateRange).length := by
  have hperm := List.perm_insertionSort (fun a b : TotalCountRow => a.total ≥ b.total)
    (groupPayments (fun p => p.paymentMethod) (matchPayments db (.objectId userId) dateRange))
  constructor
  · unfold paymentMethodsOf paymentMethodsAgg
    rw [List.map_map, ((hperm.map _).sum_eq), ← sum_groups
      (fun p : Payment => p.paymentMethod) (fun p : Payment => p.amount)]
    unfold groupPayments
    rw [List.map_map]
    rfl
  · unfold paymentMethodsOf paymentMethodsAgg
    rw [List.map_map, ((hperm.map _).sum_eq), ← length_groups
      (fun p : Payment => p.paymentMethod) (matchPayments db (.objectId userId) dateRange)]
    unfold groupPayments
    rw [List.map_map]
    rfl

/-- The `received` and `paid` of `dailyPaymentsOf` add up to the sums over the
matched payments of each type. -/
theorem dailyPaymentsOf_sums (db : Db) (userId : ObjectId) (dateRange : Date × Date) :
    ((dailyPaymentsOf db (.objectId userId) dateRange).map fun d => d.received).sum
      = ((paymentsOfType db userId dateRange "Received").map fun p => p.amount).sum ∧
    ((dailyPaymentsOf db (.objectId userId) dateRange).map fun d => d.paid).sum
      = ((paymentsOfType db userId dateRange "Paid").map fun p => p.amount).sum := by
  have hperm := List.perm_insertionSort (fun a b : DailyRow => a._id ≤ b._id)
    (dailyPaymentsGroup (matchPayments db (.objectId userId) dateRange))
  constructor
  · unfold dailyPaymentsOf dailyPaymentsAgg
    rw [List.map_map, ((hperm.map _).sum_eq), ← groupOf_paymentType, groupOf,
      ← sum_map_ite_eq_sum_filter (fun p : Payment => p.paymentType = "Received"),
      ← sum_groups (fun p : Payment => dateToString p.paymentDate)
        (fun p : Payment => if p.paymentType = "Received" then p.amount else 0)]
    unfold dailyPaymentsGroup
    rw [List.map_map]
    rfl
  · unfold dailyPaymentsOf dailyPaymentsAgg
    rw [List.map_map, ((hperm.map _).sum_eq), ← groupOf_paymentType, groupOf,
      ← sum_map_ite_eq_sum_filter (fun p : Payment => p.paymentType = "Paid"),
      ← sum_groups (fun p : Payment => dateToString p.paymentDate)
        (fun p : Payment => if p.paymentType = "Paid" then p.amount else 0)]
    unfold dailyPaymentsGroup
    rw [List.map_map]
    rfl

/-- The run of the sample in which the payment-methods query fails. -/
theorem updateAnalytics_paymentMethodsDown :
    updateAnalytics sampleDb paymentMethodsDownEnv [] 1 "30days"
      = .ok
        { analytics := { sampleSnapshot with paymentMethods := [] }
          store := [{ sampleSnapshot with paymentMethods := [] }]
          events := sampleOutcome.events } := by
  with_unfolding_all rfl

/-- Claim C30, as stated, fails when the query of `calculatePaymentMethods`
fails: `updateAnalytics` still succeeds on the sample, whose two payments are
`Received` and `Paid`, with `paymentMethods = []` next to a payment flow of
500 + 200. -/
theorem payment_metrics_diverge_when_methods_fail :
    receivedOrPaid sampleDb 1 (getDateRange paymentMethodsDownEnv.zone paymentMethodsDownEnv.now paymentMethodsDownEnv.startNow "30days") ∧
    ∃ out, updateAnalytics sampleDb paymentMethodsDownEnv [] 1 "30days" = .ok out ∧
      out.analytics.paymentFlow.moneyIn.total + out.analytics.paymentFlow.moneyOut.total = 700 ∧
      (out.analytics.paymentMethods.map fun m => m.total).sum = 0 ∧
      out.analytics.paymentFlow.moneyIn.count + out.analytics.paymentFlow.moneyOut.count = 2 ∧
      (out.analytics.paymentMethods.map fun m => m.count).sum = 0 :=
  ⟨by decide!, _, updateAnalytics_paymentMethodsDown, by decide!, by decide!, by decide!,
    by decide!⟩

/-- Claim C30 (amended): in every snapshot returned by a successful
`updateAnalytics`, with sums taken in exact arithmetic, the `received` of
`dailyPayments` add up to `moneyIn.total` and the `paid` to `moneyOut.total`;
when moreover the payment-methods query was answered and every in-window
payment of the user is `'Received'` or `'Paid'`, `moneyIn.total + moneyOut.total`
is the sum of the `total` of `paymentMethods` and `moneyIn.count +
moneyOut.count` the sum of their `count`. -/
theorem payment_metrics_consistent (db : Db) (env : Env) (s : Store) (userId : UserId)
    (period : String) (out : Outcome)
    (h : updateAnalytics db env s userId period = .ok out) :
    (out.analytics.dailyPayments.map fun d => d.received).sum
      = out.analytics.paymentFlow.moneyIn.total ∧
    (out.analytics.dailyPayments.map fun d => d.paid).sum
      = out.analytics.paymentFlow.moneyOut.total ∧
    (env.faults.paymentMethods = false →
      receivedOrPaid db userId.cast (getDateRange env.zone env.now env.startNow period) →
      out.analytics.paymentFlow.moneyIn.total + out.analytics.paymentFlow.moneyOut.total
        = (out.analytics.paymentMethods.map fun m => m.total).sum ∧
      out.analytics.paymentFlow.moneyIn.count + out.analytics.paymentFlow.moneyOut.count
        = (out.analytics.paymentMethods.map fun m => m.count).sum) := by
  obtain ⟨-, -, -, hflow, hdaily, hpm⟩ := updateAnalytics_fields h
  cases userId with
  | string hex =>
    rw [hflow, hdaily, paymentFlowOf_string, dailyPaymentsOf_string]
    refine ⟨rfl, rfl, fun _ _ => ?_⟩
    have hnil : out.analytics.paymentMethods = [] := by
      simpa [UserId.isString] using hpm
    rw [hnil]
    exact ⟨by simp [zeroPaymentFlow], rfl⟩
  | objectId userId =>
    obtain ⟨d1, d2⟩ := dailyPaymentsOf_sums db userId
      (getDateRange env.zone env.now env.startNow period)
    rw [hflow, hdaily, paymentFlowOf_eq]
    refine ⟨d1, d2, fun hq hty => ?_⟩
    rw [hq] at hpm
    simp only [UserId.isString, Bool.or_self, Bool.false_eq_true, if_false, UserId.cast] at hpm
    have ht : (out.analytics.paymentMethods.map fun m => m.total)
        = (paymentMethodsOf db userId
            (getDateRange env.zone env.now env.startNow period)).map fun m => m.total := by
      have := congrArg (List.map Prod.fst) hpm
      simpa [List.map_map, Function.comp] using this
    have hc : (out.analytics.paymentMethods.map fun m => m.count)
        = (paymentMethodsOf db userId
            (getDateRange env.zone env.now env.startNow period)).map fun m => m.count := by
      have := congrArg (List.map Prod.snd) hpm
      simpa [List.map_map, Function.comp] using this
    obtain ⟨m1, m2⟩ := paymentMethodsOf_sums db userId
      (getDateRange env.zone env.now env.startNow period)
    obtain ⟨t1, t2⟩ := sum_received_paid
      (matchPayments db (.objectId userId) (getDateRange env.zone env.now env.startNow period))
      (fun p hp => by
        obtain ⟨hm, hu, hw1, hw2⟩ := (mem_matchPayments db userId _ p).mp hp
        exact hty p hm hu hw1 hw2)
    rw [groupOf_paymentType, groupOf_paymentType] at t1 t2
    rw [ht, hc, m1, m2, t1, t2]
    exact ⟨rfl, rfl⟩

/-- The sample snapshot: daily received 500 and paid 200 equal the two sides
of the payment flow, and 500 + 200 is the sum over the two payment methods. -/
theorem payment_metrics_consistent_witness :
    receivedOrPaid sampleDb 1 (getDateRange sampleEnv.zone sampleEnv.now sampleEnv.startNow "30days") ∧
    sampleOutcome.analytics.paymentFlow.moneyIn.total = 500 ∧
    sampleOutcome.analytics.paymentFlow.moneyOut.total = 200 ∧
    (sampleOutcome.analytics.dailyPayments.map fun d => d.received).sum
      = sampleOutcome.analytics.paymentFlow.moneyIn.total ∧
    (sampleOutcome.analytics.dailyPayments.map fun d => d.paid).sum
      = sampleOutcome.analytics.paymentFlow.moneyOut.total ∧
    sampleOutcome.analytics.paymentFlow.moneyIn.total
        + sampleOutcome.analytics.paymentFlow.moneyOut.total
      = (sampleOutcome.analytics.paymentMethods.map fun m => m.total).sum ∧
    sampleOutcome.analytics.paymentFlow.moneyIn.count
        + sampleOutcome.analytics.paymentFlow.moneyOut.count
      = (sampleOutcome.analytics.paymentMethods.map fun m => m.count).sum :=
  have hty : receivedOrPaid sampleDb 1 (getDateRange sampleEnv.zone sampleEnv.now sampleEnv.startNow "30days") := by decide!
  have h := payment_metrics_consistent sampleDb sampleEnv [] 1 "30days" sampleOutcome
    updateAnalytics_sample
  ⟨hty, rfl, rfl, h.1, h.2.1, (h.2.2 rfl hty).1, (h.2.2 rfl hty).2⟩

/-! ## The id as the routes pass it -/

/-- The sample run with the string id of user 1. -/
theorem updateAnalytics_string_sample :
    updateAnalytics sampleDb sampleEnv [] (.string 1) "30days" = .ok stringOutcome := by
  with_unfolding_all rfl

/-- The window of the sample run is `sampleWindow`. -/
theorem getDateRange_sample :
    getDateRange sampleEnv.zone sampleEnv.now sampleEnv.startNow "30days" = sampleWindow := by
  decide

/-- Claim C9 (defect of the code): for the string id that every route passes,
`calculateSalesTrends` and `calculateDailyPayments` write empty series whatever
rows the user has, because the `$match` of both pipelines compares the stored
`ObjectId` with the uncast string.  On the sample, user 1 has an invoice and a
payment on 2025-11-04 inside the window, and the snapshot that
`updateAnalytics` returns has no entry for that day in either series. -/
theorem date_series_empty_for_string :
    (∀ (db : Db) (hex : ObjectId) (a : Analytics) (dateRange : Date × Date),
      calculateSalesTrends db false (.string hex) a dateRange
        = .ok { a with salesByDate := [] }) ∧
    (∀ (db : Db) (hex : ObjectId) (a : Analytics) (dateRange : Date × Date),
      calculateDailyPayments db false (.string hex) a dateRange
        = .ok { a with dailyPayments := [] }) ∧
    (∃ i ∈ sampleDb.invoices, i.userId = 1 ∧ sampleWindow.1 ≤ i.createdAt ∧
      i.createdAt ≤ sampleWindow.2 ∧ dateToString i.createdAt = "2025-11-04") ∧
    (∃ p ∈ sampleDb.payments, p.userId = 1 ∧ sampleWindow.1 ≤ p.paymentDate ∧
      p.paymentDate ≤ sampleWindow.2 ∧ dateToString p.paymentDate = "2025-11-04") ∧
    updateAnalytics sampleDb sampleEnv [] (.string 1) "30days" = .ok stringOutcome ∧
    stringOutcome.analytics.salesByDate = [] ∧ stringOutcome.analytics.dailyPayments = [] := by
  refine ⟨fun db hex a dateRange => ?_, fun db hex a dateRange => ?_, by decide, by decide,
    updateAnalytics_string_sample, rfl, rfl⟩
  · simp [calculateSalesTrends, salesByDateOf_string]
  · simp [calculateDailyPayments, dailyPaymentsOf_string]

/-- Claim C19 (defect of the code): for the string id that every route passes,
`calculateFinancialOverview` sets the three totals to 0 whatever rows the user
has and whether or not a query fails: line 165 throws inside the `try` before
any query runs.  On the sample, the in-window invoices of user 1 sum to 1200
and the expenses to 100, and the snapshot that `updateAnalytics` returns has
`totalSales = 0` and `totalExpenses = 0`. -/
theorem calculateFinancialOverview_string :
    (∀ (db : Db) (fails : Bool) (hex : ObjectId) (a : Analytics) (dateRange : Date × Date),
      calculateFinancialOverview db fails (.string hex) a dateRange
        = .ok { a with totalSales := 0, totalPurchases := 0, totalExpenses := 0 }) ∧
    ((sampleDb.invoices.filter fun i => decide (i.userId = 1 ∧
        sampleWindow.1 ≤ i.createdAt ∧ i.createdAt ≤ sampleWindow.2)).map
          fun i => i.totalAmount).sum = 1200 ∧
    ((sampleDb.expenses.filter fun e => decide (e.userId = 1 ∧
        sampleWindow.1 ≤ e.createdAt ∧ e.createdAt ≤ sampleWindow.2)).map
          fun e => e.amount).sum = 100 ∧
    updateAnalytics sampleDb sampleEnv [] (.string 1) "30days" = .ok stringOutcome ∧
    stringOutcome.analytics.totalSales = 0 ∧ stringOutcome.analytics.totalExpenses = 0 := by
  refine ⟨fun db fails hex a dateRange => rfl, by decide!, by decide!,
    updateAnalytics_string_sample, rfl, rfl⟩

/-- Claim C20 (defect of the code): for the string id that every route passes,
`calculatePaymentMethods` sets `paymentMethods` to `[]` whatever payments the
user has and whether or not the query fails: line 215 throws inside the `try`
before the query runs.  On the sample, user 1 has in-window payments by `Cash`
and by `UPI`, and the snapshot that `updateAnalytics` returns has no entry. -/
theorem calculatePaymentMethods_string :
    (∀ (db : Db) (fails : Bool) (hex : ObjectId) (a : Analytics) (dateRange : Date × Date),
      calculatePaymentMethods db fails (.string hex) a dateRange
        = .ok { a with paymentMethods := [] }) ∧
    (∃ p ∈ sampleDb.payments, p.userId = 1 ∧ sampleWindow.1 ≤ p.paymentDate ∧
      p.paymentDate ≤ sampleWindow.2 ∧ p.paymentMethod = "Cash") ∧
    (∃ p ∈ sampleDb.payments, p.userId = 1 ∧ sampleWindow.1 ≤ p.paymentDate ∧
      p.paymentDate ≤ sampleWindow.2 ∧ p.paymentMethod = "UPI") ∧
    updateAnalytics sampleDb sampleEnv [] (.string 1) "30days" = .ok stringOutcome ∧
    stringOutcome.analytics.paymentMethods = [] := by
  refine ⟨fun db fails hex a dateRange => rfl, by decide, by decide,
    updateAnalytics_string_sample, rfl⟩

/-- Claim C21 (defect of the code): for the string id that every route passes,
`calculatePaymentFlow` sets both sides to `{ total: 0, count: 0 }` whatever
payments the user has: its `$match` compares the stored `ObjectId` with the
uncast string.  On the sample, user 1 has one in-window `Received` payment of
500 and one `Paid` payment of 200, and the snapshot that `updateAnalytics`
returns has both sides at zero. -/
theorem calculatePaymentFlow_string :
    (∀ (db : Db) (hex : ObjectId) (a : Analytics) (dateRange : Date × Date),
      calculatePaymentFlow db false (.string hex) a dateRange
        = .ok { a with paymentFlow := zeroPaymentFlow }) ∧
    ((paymentsOfType sampleDb 1 sampleWindow "Received").map fun p => p.amount).sum = 500 ∧
    (paymentsOfType sampleDb 1 sampleWindow "Received").length = 1 ∧
    ((paymentsOfType sampleDb 1 sampleWindow "Paid").map fun p => p.amount).sum = 200 ∧
    (paymentsOfType sampleDb 1 sampleWindow "Paid").length = 1 ∧
    updateAnalytics sampleDb sampleEnv [] (.string 1) "30days" = .ok stringOutcome ∧
    stringOutcome.analytics.paymentFlow
      = { moneyIn := { total := 0, count := 0 }, moneyOut := { total := 0, count := 0 } } := by
  refine ⟨fun db hex a dateRange => ?_, by decide!, by decide!, by decide!, by decide!,
    updateAnalytics_string_sample, rfl⟩
  simp [calculatePaymentFlow, paymentFlowOf_string]

/-- Claim C22 (defect of the code): for the string id that every route passes,
`calculateDailyPayments` writes no entry whatever payments the user has: its
`$match` compares the stored `ObjectId` with the uncast string.  On the sample,
user 1 has one `Received` payment of 500 and one `Paid` payment of 200 on
2025-11-04 inside the window, and the snapshot that `updateAnalytics` returns
has no entry for that day. -/
theorem calculateDailyPayments_string :
    (∀ (db : Db) (hex : ObjectId) (a : Analytics) (dateRange : Date × Date),
      calculateDailyPayments db false (.string hex) a dateRange
        = .ok { a with dailyPayments := [] }) ∧
    ((paymentsOnDay sampleDb 1 sampleWindow "2025-11-04" "Received").map
      fun p => p.amount) = [500] ∧
    ((paymentsOnDay sampleDb 1 sampleWindow "2025-11-04" "Paid").map fun p => p.amount) = [200] ∧
    updateAnalytics sampleDb sampleEnv [] (.string 1) "30days" = .ok stringOutcome ∧
    stringOutcome.analytics.dailyPayments = [] := by
  refine ⟨fun db hex a dateRange => ?_, by decide!, by decide!,
    updateAnalytics_string_sample, rfl⟩
  simp [calculateDailyPayments, dailyPaymentsOf_string]

/-- Claim C23 (defect of the code): for the string id that every route passes,
`calculateTopProducts` returns no entry whatever invoices the user has: its
`$match` compares the stored `ObjectId` with the uncast string.  On the sample,
the in-window invoices of user 1 hold three line items under two descriptions
(fewer than 10 groups), and the snapshot that `updateAnalytics` returns has no
top product. -/
theorem calculateTopProducts_string :
    (∀ (db : Db) (hex : ObjectId) (a : Analytics) (dateRange : Date × Date),
      calculateTopProducts db false (.string hex) a dateRange
        = .ok { a with topProducts := [] }) ∧
    (lineItems sampleDb 1 sampleWindow).map (fun it => it.description)
      = ["Widget", "Widget", "Nut"] ∧
    (groupKeys (fun it : InvoiceItem => it.description)
      (lineItems sampleDb 1 sampleWindow)).length = 2 ∧
    updateAnalytics sampleDb sampleEnv [] (.string 1) "30days" = .ok stringOutcome ∧
    stringOutcome.analytics.topProducts = [] := by
  refine ⟨fun db hex a dateRange => ?_, by decide, by decide,
    updateAnalytics_string_sample, rfl⟩
  simp [calculateTopProducts, topProductsOf_string]

/-- Claim C24 (defect of the code): for the string id that every route passes,
`calculateTopCustomers` returns no entry whatever invoices the user has: its
`$match` compares the stored `ObjectId` with the uncast string.  The single
in-window invoice of total 1180 of `singleInvoiceDb` yields `[]`, not the entry
`{ customerName, totalAmount: 1180, invoiceCount: 1, avgOrderValue: 1180,
rank: 1 }`. -/
theorem calculateTopCustomers_string :
    (∀ (db : Db) (hex : ObjectId) (a : Analytics) (dateRange : Date × Date),
      calculateTopCustomers db false (.string hex) a dateRange
        = .ok { a with topCustomers := [] }) ∧
    (invoicesOfCustomer singleInvoiceDb 1 sampleWindow "Acme").map (fun i => i.totalAmount)
      = [1180] ∧
    calculateTopCustomers singleInvoiceDb false (.string 1) blank sampleWindow = .ok blank ∧
    blank.topCustomers = [] := by
  refine ⟨fun db hex a dateRange => ?_, by decide!, by with_unfolding_all rfl, rfl⟩
  simp [calculateTopCustomers, topCustomersOf_string]

/-- Claim C25 (defect of the code): for the string id that every route passes,
`calculateKPIs` counts the user's in-window invoices (`countDocuments` casts the
id) and sets `avgOrderValue` to 0 whatever those invoices are (the `aggregate`
does not cast it and matches nothing).  On the sample, `totalInvoices` is 2,
the mean `totalAmount` of the two invoices is 600, and the snapshot that
`updateAnalytics` returns has `avgOrderValue = 0`. -/
theorem calculateKPIs_string :
    (∀ (db : Db) (hex : ObjectId) (a : Analytics) (dateRange : Date × Date),
      calculateKPIs db false (.string hex) a dateRange
        = .ok { a with
            kpis :=
              { totalCustomers := (db.customers.filter fun c => decide (c.userId = hex)).length
                totalProducts := (db.items.filter fun i => decide (i.userId = hex)).length
                totalInvoices := (db.invoices.filter fun i =>
                  decide (i.userId = hex) && inWindow dateRange i.createdAt).length
                avgOrderValue := 0
                conversionRate := 0 } }) ∧
    avg ((sampleDb.invoices.filter fun i =>
      decide (i.userId = 1) && inWindow sampleWindow i.createdAt).map fun i => i.totalAmount)
        = 600 ∧
    updateAnalytics sampleDb sampleEnv [] (.string 1) "30days" = .ok stringOutcome ∧
    stringOutcome.analytics.kpis.totalInvoices = 2 ∧
    stringOutcome.analytics.kpis.avgOrderValue = 0 := by
  refine ⟨fun db hex a dateRange => ?_, by decide!, updateAnalytics_string_sample, rfl, rfl⟩
  simp [calculateKPIs, kpisOf_string]

/-- Claim C29 (defect of the code): for the string id that every route passes,
the snapshot of a successful `updateAnalytics` has an empty `salesByDate` and
`totalSales = 0`, while `kpis.totalInvoices` counts the user's in-window
invoices: the extractors do not see the same invoices, because `countDocuments`
casts the id and the aggregations do not.  On the sample the orders of
`salesByDate` add up to 0 and `kpis.totalInvoices` is 2. -/
theorem sales_series_inconsistent_for_string :
    (∀ (db : Db) (env : Env) (hex : ObjectId) (period : String),
      (snapshotOf db env (.string hex) period).salesByDate = [] ∧
      (snapshotOf db env (.string hex) period).totalSales = 0 ∧
      (snapshotOf db env (.string hex) period).kpis.totalInvoices
        = (db.invoices.filter fun i => decide (i.userId = hex) &&
            inWindow (getDateRange env.zone env.now env.startNow period) i.createdAt).length) ∧
    updateAnalytics sampleDb sampleEnv [] (.string 1) "30days" = .ok stringOutcome ∧
    stringOutcome.analytics = { snapshotOf sampleDb sampleEnv (.string 1) "30days" with _id := 1 } ∧
    (stringOutcome.analytics.salesByDate.map fun d => d.orders).sum = 0 ∧
    stringOutcome.analytics.kpis.totalInvoices = 2 := by
  refine ⟨fun db env hex period => ⟨?_, ?_, ?_⟩, updateAnalytics_string_sample,
    (updateAnalytics_any_store updateAnalytics_string_sample []).1, rfl, rfl⟩
  · show salesByDateOf db (.string hex) _ = []
    exact salesByDateOf_string _ _ _
  · show (if env.faults.financialOverview || true then (0 : ℚ) else _) = 0
    simp
  · show (kpisOf db (.string hex) _).totalInvoices = _
    rw [kpisOf_string]

end InvoiceSwift
